import Mathlib

/-!
Formal model of the EssentiaServer audio-analysis decision core.

Each definition below is a shallow embedding of a function from the Python
sources (`backend/analysis/calibration.py`, `tempo_detection.py`,
`key_detection.py`, `pipeline_context.py`, `pipeline_chunks.py`,
`pipeline_core.py`, `tools/key_utils.py`).  Python floats are modelled as
exact rationals (`ℚ`); the circular statistics of the chunk consensus use
`ℝ` because the source computes genuine transcendental functions there.
Python dicts appearing as records are modelled as structures whose fields
are exactly the keys the embedded functions read or write; `Option`
encodes an absent (or `None` / non-numeric, which the source treats the
same way at these call sites) entry.  Calls into external numeric
libraries (librosa / numpy primitives such as `math.exp` or `np.std`)
are modelled as explicit function parameters or inputs: they supply raw
numbers only and make no decisions.
-/

namespace EssentiaServer

/-- Embedding of `backend/analysis/utils.clamp_to_unit` for finite numeric
input: `max(0, min(1, val))` (the `None`/NaN cases collapse to `0`
in the source and are represented by callers passing `0`). -/
def clamp_to_unit (q : ℚ) : ℚ := max 0 (min 1 q)

/-- Short-clip threshold in seconds, `backend/analysis/settings.SHORT_CLIP_THRESHOLD`. -/
def SHORT_CLIP_THRESHOLD : ℚ := 45

/-- Key mode label.  Every mode that reaches the decision chains is produced
by `_score_chroma_profile` or `_normalize_mode_label`, whose outputs are
exactly the strings "Major" and "Minor"; we model them as a two-element
type. -/
inductive Mode where
  | major : Mode
  | minor : Mode
deriving DecidableEq

/-- Canonical key identity `"{root}:{mode}"` from `tools/key_utils.canonical_key_id`,
modelled as the (root, mode) pair itself.  Display labels (sharp/flat
spellings) produced by `format_canonical_key` denote exactly this pair,
so `result["key"]` is modelled at this canonical level. -/
structure CKey where
  root : ℤ
  mode : Mode
deriving DecidableEq

/-- One entry of `result["key_details"]["scores"]` as read by
`apply_key_calibration` (root / mode / score). -/
structure KeyScoreEntry where
  root : ℤ
  mode : Mode
  score : ℚ
deriving DecidableEq

/-- One target of a confusion-map row: `{target (root,mode), probability}`
(the display label is modelled by the canonical key itself). -/
structure KeyTarget where
  canonical : CKey
  probability : ℚ
deriving DecidableEq

/-- One row of `KEY_CALIBRATION_RULES` (`config/key_calibration.json`). -/
structure KeyCalibEntry where
  targets : List KeyTarget
deriving DecidableEq

/-- The key confusion map: analyzer canonical key to row, looked up by key
equality exactly as the Python dict does. -/
abbrev KeyCalibRules := List (CKey × KeyCalibEntry)

/-- One confidence bin of `KEY_CALIBRATION_META["confidence_bins"]`
(fields `min`, `max`, `accuracy` in the JSON). -/
structure ConfidenceBin where
  lo : ℚ
  hi : ℚ
  accuracy : ℚ
deriving DecidableEq

/-- The key-calibration metadata consulted by `_confidence_bin_accuracy`
and `apply_key_calibration`. -/
structure KeyCalibMeta where
  confidence_bins : Option (List ConfidenceBin)
  raw_accuracy : ℚ
deriving DecidableEq

/-- A debug vote record appended to `details["calibrated_votes"]`. -/
structure KeyVoteDebug where
  src : CKey
  dst : CKey
  weight : ℚ
  probability : ℚ
deriving DecidableEq

/-- One linear-scaler rule from `config/calibration_scalers.json`:
slope / intercept with optional clamp bounds.  `none` for slope or
intercept models the `rule.get(...) is None` guard in `_calibrate_value`. -/
structure ScalerRule where
  slope : Option ℚ
  intercept : Option ℚ
  clampMin : Option ℚ
  clampMax : Option ℚ
deriving DecidableEq

/-- `CALIBRATION_RULES` restricted to the six feature names of
`CALIBRATED_RESULT_FIELDS`, the only keys `apply_calibration_layer`
consults. -/
structure ScalerRules where
  bpm : Option ScalerRule
  danceability : Option ScalerRule
  energy : Option ScalerRule
  acousticness : Option ScalerRule
  valence : Option ScalerRule
  loudness : Option ScalerRule
deriving DecidableEq

/-- Truthiness of the `CALIBRATION_RULES` dict (`if not CALIBRATION_RULES`):
a dict with none of the six calibratable features behaves identically to
an empty one, so emptiness is modelled as all six rules absent. -/
def ScalerRules.nonempty (rules : ScalerRules) : Bool :=
  rules.bpm.isSome || rules.danceability.isSome || rules.energy.isSome ||
    rules.acousticness.isSome || rules.valence.isSome || rules.loudness.isSome

/-- Conditions of one BPM rule-engine rule (`config/bpm_calibration.json`). -/
structure BpmRuleConditions where
  bpm_range : Option (ℚ × ℚ)
  energy_range : Option (ℚ × ℚ)
  duration_max : Option ℚ
  confidence_min : Option ℚ
deriving DecidableEq

/-- Action of one BPM rule (`{type, factor}`); `factor` defaults to `1`
via `action.get("factor", 1)`. -/
structure BpmRuleAction where
  kind : String
  factor : Option ℚ
deriving DecidableEq

/-- One BPM rule-engine rule. -/
structure BpmRule where
  name : Option String
  priority : ℤ
  enabled : Bool
  conditions : BpmRuleConditions
  action : BpmRuleAction
deriving DecidableEq

/-- The analysis-result dict, restricted to the fields the calibration layer
reads or writes.  `Option` fields model keys that may be absent (or hold a
non-numeric value, which the source treats identically at these sites:
`_calibrate_value` and the `float(...)` casts return the input unchanged /
bail out).  `key` holds the canonical reading of the key label. -/
structure AnalysisRecord where
  bpm : Option ℚ
  danceability : Option ℚ
  energy : Option ℚ
  acousticness : Option ℚ
  valence : Option ℚ
  loudness : Option ℚ
  bpm_confidence : ℚ
  signal_duration : ℚ
  bpm_calibration_applied : Option String
  key : Option CKey
  key_confidence : ℚ
  key_scores : Option (List KeyScoreEntry)
  calibrated_votes : Option (List KeyVoteDebug)
deriving DecidableEq

/-- Embedding of `_calibrate_value` (calibration.py lines 101-121):
apply `value * slope + intercept`, then the optional clamp; the Bool is
the `changed` flag. -/
def calibrate_value (rule : Option ScalerRule) (value : ℚ) : ℚ × Bool :=
  match rule with
  | none => (value, false)
  | some ru =>
    match ru.slope, ru.intercept with
    | some slope, some intercept =>
      let calibrated := value * slope + intercept
      let calibrated := match ru.clampMin with
        | some lo => max lo calibrated
        | none => calibrated
      let calibrated := match ru.clampMax with
        | some hi => min hi calibrated
        | none => calibrated
      (calibrated, true)
    | _, _ => (value, false)

/-- One non-BPM iteration of the `apply_calibration_layer` loop: assign the
calibrated value when `changed` is set, keep the original otherwise. -/
def apply_scaler_field (rule : Option ScalerRule) (value : Option ℚ) : Option ℚ :=
  match value with
  | none => none
  | some v =>
    let c := calibrate_value rule v
    if c.2 then some c.1 else some v

/-- The `feature_name == "bpm"` iteration of `apply_calibration_layer`
(calibration.py lines 139-182): skipped outright for short clips; the
nested short-clip sweet-spot / high-tempo guards are kept exactly as
written (they sit inside the not-short path, mirroring the source where
the line-139 `continue` has already removed short clips); a calibration
whose absolute BPM change exceeds 10 is rejected. -/
def apply_bpm_scaler (rules : ScalerRules) (is_short_clip : Bool) (r : AnalysisRecord) :
    AnalysisRecord :=
  if is_short_clip then r
  else
    match r.bpm with
    | none => r
    | some raw_bpm =>
      if is_short_clip ∧ 138 ≤ raw_bpm ∧ raw_bpm ≤ 152 then r
      else if is_short_clip ∧ 145 ≤ raw_bpm then r
      else
        let cap := calibrate_value rules.bpm raw_bpm
        if cap.2 ∧ 10 < |cap.1 - raw_bpm| then r
        else
          let c := calibrate_value rules.bpm raw_bpm
          if c.2 then { r with bpm := some c.1 } else r

/-- The five non-BPM iterations of the `apply_calibration_layer` loop in
dict order (danceability, energy, acousticness, valence, loudness). -/
def apply_rest_scalers (rules : ScalerRules) (r : AnalysisRecord) : AnalysisRecord :=
  let r := { r with danceability := apply_scaler_field rules.danceability r.danceability }
  let r := { r with energy := apply_scaler_field rules.energy r.energy }
  let r := { r with acousticness := apply_scaler_field rules.acousticness r.acousticness }
  let r := { r with valence := apply_scaler_field rules.valence r.valence }
  { r with loudness := apply_scaler_field rules.loudness r.loudness }

/-- Embedding of `apply_calibration_layer` (calibration.py lines 124-195).
The `applied_strings` logging is omitted; field updates are modelled
field-by-field in the loop's dict order, `bpm` first. -/
def apply_calibration_layer (rules : ScalerRules) (r : AnalysisRecord) : AnalysisRecord :=
  if ¬ rules.nonempty then r
  else
    let is_short_clip := decide (r.signal_duration < SHORT_CLIP_THRESHOLD)
    apply_rest_scalers rules (apply_bpm_scaler rules is_short_clip r)

/-- Truthiness-aware match of one BPM rule's conditions against the result
(calibration.py lines 545-566): a `None` range, a `None`/`0` duration
ceiling and a `None`/`0` confidence floor are not enforced (Python falsy
values skip the check). -/
def bpm_rule_matches (bpm energy conf dur : ℚ) (rule : BpmRule) : Bool :=
  (match rule.conditions.bpm_range with
    | some rg => decide (rg.1 ≤ bpm ∧ bpm ≤ rg.2)
    | none => true) &&
  (match rule.conditions.energy_range with
    | some rg => decide (rg.1 ≤ energy ∧ energy ≤ rg.2)
    | none => true) &&
  (match rule.conditions.duration_max with
    | some dmax => !(decide (dmax ≠ 0) && decide (dmax < dur))
    | none => true) &&
  (match rule.conditions.confidence_min with
    | some cmin => !(decide (cmin ≠ 0) && decide (conf < cmin))
    | none => true)

/-- The rule loop of `apply_bpm_calibration` (calibration.py lines 544-593):
first rule whose conditions match and whose action is `multiply` fires,
multiplies the BPM and records the rule name; a matching rule with any
other action type falls through to the next rule. -/
def bpm_rules_go (bpm energy conf dur : ℚ) (r : AnalysisRecord) :
    List BpmRule → AnalysisRecord
  | [] => r
  | rule :: rest =>
    if bpm_rule_matches bpm energy conf dur rule then
      if rule.action.kind = "multiply" then
        let factor := rule.action.factor.getD 1
        { r with bpm := some (bpm * factor), bpm_calibration_applied := rule.name }
      else bpm_rules_go bpm energy conf dur r rest
    else bpm_rules_go bpm energy conf dur r rest

/-- Embedding of `apply_bpm_calibration` (calibration.py lines 501-593). -/
def apply_bpm_calibration (rules : List BpmRule) (r : AnalysisRecord) : AnalysisRecord :=
  if rules = [] then r
  else if r.signal_duration < SHORT_CLIP_THRESHOLD then r
  else
    match r.bpm, r.energy with
    | some bpm, some energy =>
      bpm_rules_go bpm energy r.bpm_confidence r.signal_duration r rules
    | _, _ => r

/-- Stable descending insertion by priority: element `x` is placed before
the first element of strictly smaller priority, so equal priorities keep
their original order — the semantics of Python's stable
`sorted(key=priority, reverse=True)`. -/
def insert_by_priority (x : BpmRule) : List BpmRule → List BpmRule
  | [] => [x]
  | y :: ys => if y.priority < x.priority then x :: y :: ys else y :: insert_by_priority x ys

/-- Embedding of the rule post-processing in `load_bpm_calibration`
(calibration.py lines 476-482): keep enabled rules, sort by priority
descending (stable). -/
def load_bpm_rules (raw : List BpmRule) : List BpmRule :=
  (raw.filter (fun ru => ru.enabled)).foldl (fun acc x => insert_by_priority x acc) []

/-- Embedding of `_canonical_from_candidate` (calibration.py lines 211-213);
mode normalisation is the identity on the two-element `Mode` type. -/
def canonical_from_candidate (root : ℤ) (mode : Mode) : CKey :=
  ⟨root % 12, mode⟩

/-- Canonical key denoted by a display label produced by
`_label_for_canonical` / `format_canonical_key`: the root reduced mod 12
(`parse_canonical_key_id` reduces, the formatter indexes mod 12). -/
def label_for_canonical (k : CKey) : CKey :=
  ⟨k.root % 12, k.mode⟩

/-- Dict lookup in the confusion map (`KEY_CALIBRATION_RULES.get`). -/
def key_rules_lookup (rules : KeyCalibRules) (k : CKey) : Option KeyCalibEntry :=
  match rules with
  | [] => none
  | (k0, e) :: rest => if k0 = k then some e else key_rules_lookup rest k

/-- Insertion-ordered dict accumulation for `actual_votes`: add `w` to the
existing slot of `k`, or append a new `(k, w)` slot. -/
def add_vote : List (CKey × ℚ) → CKey → ℚ → List (CKey × ℚ)
  | [], k, w => [(k, w)]
  | (k0, w0) :: rest, k, w =>
    if k0 = k then (k0, w0 + w) :: rest else (k0, w0) :: add_vote rest k w

/-- Python's `max(items, key=...)` over an insertion-ordered dict: the first
entry with maximal vote wins (ties keep the earlier entry). -/
def pick_max_first : List (CKey × ℚ) → Option (CKey × ℚ)
  | [] => none
  | (k, v) :: rest =>
    match pick_max_first rest with
    | none => some (k, v)
    | some (k2, v2) => if v < v2 then some (k2, v2) else some (k, v)

/-- Candidate list construction of `apply_key_calibration` (calibration.py
lines 236-259): per-candidate scores when `key_details["scores"]` is a
non-empty list, otherwise the normalized current key with its (floored)
confidence as sole candidate. -/
def key_calibration_candidates (r : AnalysisRecord) : List (ℤ × Mode × ℚ) :=
  match r.key_scores with
  | some (e :: es) =>
    (e :: es).filterMap (fun en =>
      let score := clamp_to_unit en.score
      if score ≤ 0 then none
      else
        let c := canonical_from_candidate en.root en.mode
        some (c.root, c.mode, score))
  | _ =>
    match r.key with
    | some k =>
      let score := clamp_to_unit r.key_confidence
      let score := if score = 0 then (0.25 : ℚ) else score
      [(k.root, k.mode, score)]
    | none => []

/-- Accumulator for the vote loop: votes dict, debug list, and nothing else
(the label lookup is the canonical key itself in this model). -/
structure KeyVoteState where
  votes : List (CKey × ℚ)
  debug : List KeyVoteDebug

/-- One target iteration of the vote loop (calibration.py lines 271-291):
positive-probability targets receive `score * probability` and accumulate
`total_prob`. -/
def key_vote_target_step (cid : CKey) (score : ℚ) (acc : KeyVoteState × ℚ)
    (t : KeyTarget) : KeyVoteState × ℚ :=
  if t.probability ≤ 0 then acc
  else
    let weighted := score * t.probability
    (⟨add_vote acc.1.votes t.canonical weighted,
      acc.1.debug ++ [⟨cid, t.canonical, weighted, t.probability⟩]⟩,
     acc.2 + t.probability)

/-- Vote contribution of a single candidate (calibration.py lines 263-303):
each positive-probability target receives `score * probability`, then the
un-redistributed residual `max(0, 1 - total_prob)` goes back to the
candidate itself. -/
def key_vote_candidate (rules : KeyCalibRules) (st : KeyVoteState)
    (cand : ℤ × Mode × ℚ) : KeyVoteState :=
  let root_idx := cand.1
  let mode := cand.2.1
  let score := cand.2.2
  if score ≤ 0 then st
  else
    let cid : CKey := ⟨root_idx, mode⟩
    let targets := ((key_rules_lookup rules cid).map KeyCalibEntry.targets).getD []
    let step := targets.foldl (key_vote_target_step cid score) (st, 0)
    let residual := max 0 (1 - step.2)
    if 0 < residual then
      ⟨add_vote step.1.votes cid (score * residual),
       step.1.debug ++ [⟨cid, cid, score * residual, residual⟩]⟩
    else step.1

/-- The un-redistributed residual of one confusion row: `max(0, 1 - total_prob)`
where `total_prob` sums the positive probabilities of the row's targets,
exactly as accumulated by the vote loop. -/
def confusion_row_residual (targets : List KeyTarget) : ℚ :=
  max 0 (1 - ((targets.filter (fun t => decide (0 < t.probability))).map
    KeyTarget.probability).sum)

/-- Embedding of `apply_key_calibration` (calibration.py lines 224-320). -/
def apply_key_calibration (rules : KeyCalibRules) (meta : KeyCalibMeta)
    (r : AnalysisRecord) : AnalysisRecord :=
  if rules = [] then r
  else if 0 < r.signal_duration ∧ r.signal_duration < SHORT_CLIP_THRESHOLD then r
  else
    let candidates := key_calibration_candidates r
    let st := candidates.foldl (key_vote_candidate rules) ⟨[], []⟩
    match pick_max_first st.votes with
    | none => r
    | some best =>
        let total := (st.votes.map Prod.snd).sum
        let posterior := if 0 < total then best.2 / total else 0
        let raw_conf := clamp_to_unit r.key_confidence
        let bin_accuracy :=
          (match meta.confidence_bins with
            | some bins =>
              (bins.find? (fun (b : ConfidenceBin) =>
              decide (b.lo ≤ raw_conf) && decide (raw_conf < b.hi))).map
                ConfidenceBin.accuracy
            | none => none).getD meta.raw_accuracy
        let calibrated_conf := clamp_to_unit (max raw_conf (max bin_accuracy posterior))
        { r with
          key := some (label_for_canonical best.1),
          key_confidence := calibrated_conf,
          calibrated_votes := some st.debug }

/-- Rounding to `n` decimal places (Python `round(x, n)`), modelled as
round-half-up.  No claim below depends on the half-to-even tie rule, and
none of the concrete witnesses hit a tie. -/
def round_to (n : ℕ) (q : ℚ) : ℚ :=
  ((⌊q * (10 : ℚ) ^ n + 1 / 2⌋ : ℤ) : ℚ) / (10 : ℚ) ^ n

/-- Provenance entry of one alias candidate (tempo_detection.py lines 83-89). -/
structure AliasSource where
  detector : String
  factor : ℚ
  base_bpm : ℚ
deriving DecidableEq

/-- One alias candidate (`{"bpm": ..., "sources": [...]}`). -/
structure AliasCandidate where
  bpm : ℚ
  sources : List AliasSource
deriving DecidableEq

/-- The `candidate_map.setdefault(key, ...)` followed by the `sources.append`
of `_build_tempo_alias_candidates`: insertion-ordered dict keyed by the
3-decimal rounding of the candidate BPM. -/
def alias_map_add (m : List (ℚ × AliasCandidate)) (key bpm : ℚ) (src : AliasSource) :
    List (ℚ × AliasCandidate) :=
  match m with
  | [] => [(key, ⟨bpm, [src]⟩)]
  | (k0, e) :: rest =>
    if k0 = key then (k0, ⟨e.bpm, e.sources ++ [src]⟩) :: rest
    else (k0, e) :: alias_map_add rest key bpm src

/-- Alias factors `_ALIAS_FACTORS = (0.5, 1, 2)`. -/
def ALIAS_FACTORS : List ℚ := [0.5, 1, 2]

/-- One alias-factor iteration of `_build_tempo_alias_candidates`: skip
candidates outside `[20, 280]` BPM, otherwise record under the 3-decimal
key. -/
def build_tempo_factor_step (det : String × ℚ) (m : List (ℚ × AliasCandidate)) (f : ℚ) :
    List (ℚ × AliasCandidate) :=
  let candidate := det.2 * f
  if candidate ≤ 0 ∨ candidate < 20 ∨ candidate > 280 then m
  else alias_map_add m (round_to 3 candidate) candidate ⟨det.1, f, det.2⟩

/-- One detector iteration of `_build_tempo_alias_candidates`: skip absent
or non-positive estimates, otherwise expand by all alias factors. -/
def build_tempo_detector_step (m : List (ℚ × AliasCandidate)) (det : String × ℚ) :
    List (ℚ × AliasCandidate) :=
  if det.2 ≤ 0 then m
  else ALIAS_FACTORS.foldl (build_tempo_factor_step det) m

/-- Embedding of `_build_tempo_alias_candidates` (tempo_detection.py lines
65-90): expand both raw detector estimates by the alias factors, keep
candidates inside `[20, 280]` BPM, dedup at 3-decimal precision. -/
def build_tempo_alias_candidates (percussive_bpm onset_bpm : ℚ) : List AliasCandidate :=
  ((([("percussive", percussive_bpm), ("onset", onset_bpm)] : List (String × ℚ)).foldl
      build_tempo_detector_step []).map Prod.snd)

/-- Embedding of `tempo_alignment_score` (features/danceability.py lines
19-39); the candidate set is modelled as a list (duplicates do not change
the maximum). -/
def tempo_alignment_score (bpm : ℚ) : ℚ :=
  if bpm ≤ 0 then 0
  else
    let cands := round_to 4 bpm ::
      (([0.5, 2, 0.25, 4] : List ℚ).filterMap (fun f =>
        let value := bpm * f
        if 60 ≤ value ∧ value ≤ 180 then some (round_to 4 value) else none))
    cands.foldl
      (fun best c =>
        let score :=
          if 118 ≤ c ∧ c ≤ 128 then (1 : ℚ)
          else if 105 ≤ c ∧ c ≤ 140 then 0.85
          else if (90 ≤ c ∧ c ≤ 105) ∨ (140 ≤ c ∧ c ≤ 155) then 0.7
          else max 0.2 (1 - |c - 125| / 100)
        max best score)
      0

/-- Embedding of `_tempo_similarity` (tempo_detection.py lines 49-62).
`math.exp` is an external numeric primitive, supplied as the parameter
`expQ`; no theorem below depends on its values. -/
def tempo_similarity (expQ : ℚ → ℚ) (candidate_bpm reference_bpm : ℚ) : ℚ :=
  if candidate_bpm ≤ 0 ∨ reference_bpm ≤ 0 then 0
  else
    let alias_values := ALIAS_FACTORS.filterMap (fun f =>
      if 0 < reference_bpm * f then some (reference_bpm * f) else none)
    match alias_values with
    | [] => 0
    | v :: vs =>
      let best_diff := vs.foldl (fun b x => min b |candidate_bpm - x|) |candidate_bpm - v|
      max 0 (min 1 (expQ (-best_diff / 15)))

/-- One scored alias candidate of `_score_tempo_alias_candidates`. -/
structure ScoredAlias where
  bpm : ℚ
  score : ℚ
  confidence : ℚ
  alignment : ℚ
  detector_support : ℚ
  plp_similarity : ℚ
  octave_preference : ℚ
  chunk_penalty : ℚ
  sources : List AliasSource
deriving DecidableEq

/-- Python `max(scored_candidates, key=..., default=None)`: first entry with
maximal score. -/
def pick_best_scored : List ScoredAlias → Option ScoredAlias
  | [] => none
  | c :: rest =>
    match pick_best_scored rest with
    | none => some c
    | some c2 => if c.score < c2.score then some c2 else some c

/-- Embedding of `_score_tempo_alias_candidates` (tempo_detection.py lines
93-189); `spectral_flux_mean` is accepted and ignored exactly as in the
source body. -/
def score_tempo_alias_candidates (expQ : ℚ → ℚ) (candidates : List AliasCandidate)
    (percussive_bpm onset_bpm plp_bpm plp_peak : ℚ) (chunk_bpm_std : Option ℚ)
    (is_short_clip : Bool) : Option ScoredAlias × List ScoredAlias :=
  let chunk_penalty := match chunk_bpm_std with
    | some sd => max 0.3 (1 - min 1 (sd / 30))
    | none => 1
  let alignment_weight : ℚ := if is_short_clip then 0.25 else 0.40
  let detector_weight : ℚ := if is_short_clip then 0.35 else 0.30
  let plp_weight : ℚ := if is_short_clip then 0.20 else 0.15
  let scored := candidates.map (fun entry =>
    let bpm_value := entry.bpm
    let alignment := tempo_alignment_score bpm_value
    let detector_support :=
      max (tempo_similarity expQ bpm_value percussive_bpm)
        (tempo_similarity expQ bpm_value onset_bpm)
    let plp_similarity := if 0 < plp_bpm then tempo_similarity expQ bpm_value plp_bpm else 0
    let multi_source_bonus := min ((entry.sources.length : ℚ) * 0.05) 0.15
    let octave_preference : ℚ :=
      if is_short_clip then
        if 80 ≤ bpm_value ∧ bpm_value ≤ 145 then 0.10
        else if (45 ≤ bpm_value ∧ bpm_value < 80) ∨ (145 < bpm_value ∧ bpm_value ≤ 180) then 0.04
        else if 180 < bpm_value then 0.06
        else 0
      else
        if 80 ≤ bpm_value ∧ bpm_value ≤ 145 then 0.15
        else if (40 ≤ bpm_value ∧ bpm_value < 80) ∨ (145 < bpm_value ∧ bpm_value ≤ 180) then 0.05
        else 0
    let agreement_bonus : ℚ :=
      if is_short_clip then
        if 0 < percussive_bpm ∧ 0 < onset_bpm then
          let spread := max percussive_bpm onset_bpm - min percussive_bpm onset_bpm
          let median_val := max percussive_bpm onset_bpm
          if spread ≤ 3 ∧ |bpm_value - median_val| ≤ 2 then 0.05 else 0
        else 0
      else 0
    let alias_penalty : ℚ :=
      if is_short_clip then
        if entry.sources ≠ [] ∧ (∀ src ∈ entry.sources, 0.05 < |src.factor - 1|) then 0.04 else 0
      else 0
    let base_score := alignment_weight * alignment + detector_weight * detector_support +
      plp_weight * plp_similarity + multi_source_bonus + octave_preference +
      agreement_bonus - alias_penalty
    let base_score := max 0 (min 1 base_score)
    let confidence_boost := 0.7 + 0.3 * clamp_to_unit plp_peak
    let score := max 0 (min 1 (base_score * confidence_boost))
    let score := score * chunk_penalty
    ({ bpm := bpm_value, score := score, confidence := score, alignment := alignment,
       detector_support := detector_support, plp_similarity := plp_similarity,
       octave_preference := octave_preference, chunk_penalty := chunk_penalty,
       sources := entry.sources } : ScoredAlias))
  (pick_best_scored scored, scored)

/-- Maximum of a list of rationals, `0` for the empty list (matching the
`if scored_aliases else 0` guards at the use sites). -/
def list_max : List ℚ → ℚ
  | [] => 0
  | x :: xs => xs.foldl max x

/-- Arithmetic mean of a list (`np.mean`), `0` on the empty list (never hit
at the guarded call sites). -/
def list_mean (l : List ℚ) : ℚ :=
  if l.length = 0 then 0 else l.sum / (l.length : ℚ)

/-- Python `range(0, n, step)` for a positive step. -/
def range_step (n step : ℕ) : List ℕ :=
  (List.range ((n + step - 1) / step)).map (fun i => i * step)

/-- Embedding of `_compute_onset_energy_separation` (tempo_detection.py
lines 192-234): on-beat versus off-beat onset-energy separation at a
given test BPM. -/
def compute_onset_energy_separation (test_bpm : ℚ) (onset_env : List ℚ) (sr hop : ℕ) :
    Option ℚ :=
  if test_bpm ≤ 0 then none
  else
    let num_frames := onset_env.length
    if num_frames = 0 then none
    else
      let beat_interval_frames : ℤ := ⌊60 / test_bpm * (sr : ℚ) / (hop : ℚ)⌋
      if beat_interval_frames < 2 then none
      else
        let b := beat_interval_frames.toNat
        let acc := (range_step num_frames b).foldl
          (fun (acc : List ℚ × List ℚ) i =>
            let on_start := i - 1
            let on_end := min (i + 2) num_frames
            let acc :=
              if on_start ≥ num_frames ∨ on_start ≥ on_end then acc
              else
                (acc.1 ++ [list_max ((onset_env.drop on_start).take (on_end - on_start))], acc.2)
            let midpoint := i + b / 2
            if midpoint ≥ num_frames then acc
            else
              let off_start := midpoint - 1
              let off_end := min (midpoint + 2) num_frames
              if off_start ≥ num_frames ∨ off_start ≥ off_end then acc
              else
                (acc.1, acc.2 ++ [list_mean ((onset_env.drop off_start).take (off_end - off_start))]))
          ([], [])
        if acc.1 = [] ∨ acc.2 = [] then none
        else some (list_mean acc.1 / (list_mean acc.2 + 0.01))

/-- The octave-preference boost of `_validate_octave_with_onset_energy`. -/
def octave_preference_boost (test_bpm : ℚ) : ℚ :=
  if 80 ≤ test_bpm ∧ test_bpm ≤ 140 then 1.40
  else if (40 ≤ test_bpm ∧ test_bpm < 80) ∨ (140 < test_bpm ∧ test_bpm ≤ 180) then 1.10
  else 0.90

/-- Embedding of `_validate_octave_with_onset_energy` (tempo_detection.py
lines 237-285): test half/double tempo aliases, requiring a 10 %
boosted-separation improvement. -/
def validate_octave_with_onset_energy (bpm : ℚ) (onset_env : List ℚ) (sr hop : ℕ) :
    ℚ × ℚ :=
  if onset_env = [] then (bpm, 0)
  else
    let test_bpms := [bpm] ++ (if 20 ≤ bpm * 0.5 then [bpm * 0.5] else []) ++
      (if bpm * 2 ≤ 280 then [bpm * 2] else [])
    let best_separation := (compute_onset_energy_separation bpm onset_env sr hop).getD 0
    let st := test_bpms.foldl
      (fun (st : ℚ × ℚ × ℚ) test_bpm =>
        if |test_bpm - bpm| < 0.1 then st
        else
          match compute_onset_energy_separation test_bpm onset_env sr hop with
          | none => st
          | some separation =>
            let score := separation * octave_preference_boost test_bpm
            if st.2.2 * 1.10 < score then (test_bpm, separation, score) else st)
      (bpm, best_separation, best_separation * octave_preference_boost bpm)
    (st.1, max 0 st.2.1)

/-- Stable ascending insertion by BPM (Python `sorted(key=lambda x: x["bpm"])`). -/
def insert_by_bpm (x : ScoredAlias) : List ScoredAlias → List ScoredAlias
  | [] => [x]
  | y :: ys => if x.bpm < y.bpm then x :: y :: ys else y :: insert_by_bpm x ys

/-- The `_weighted_median` closure of `analyze_tempo` (tempo_detection.py
lines 415-427). -/
def weighted_median (candidates : List ScoredAlias) : Option ℚ :=
  match candidates with
  | [] => none
  | _ =>
    let sorted_cands := candidates.foldl (fun acc x => insert_by_bpm x acc) []
    let total := (sorted_cands.map ScoredAlias.score).sum
    if total ≤ 0 then none
    else
      let rec go (cumulative : ℚ) : List ScoredAlias → Option ℚ
        | [] => none
        | c :: rest =>
          let cumulative := cumulative + c.score
          if total * 0.5 ≤ cumulative then some c.bpm
          else match rest with
            | [] => some c.bpm
            | _ => go cumulative rest
      go 0 sorted_cands

/-- The inputs of the tempo decision chain that the external numeric
primitives (librosa beat tracking, onset strength, PLP, RMS energy)
deliver to `analyze_tempo`. -/
structure TempoInputs where
  percussive_bpm : ℚ
  onset_bpm : ℚ
  plp_bpm : ℚ
  plp_peak : ℚ
  onset_env : List ℚ
  beats : List ℕ
  energy_rms_early : ℚ
  sr : ℕ
  hop_length : ℕ
  is_short_clip : Bool
  use_onset_validation : Bool
  intermediate_threshold : ℚ

/-- Known quantized lock values of the de-quantization pass. -/
def canonical_bpm_set : List ℚ :=
  [61.5, 94.7, 99.2, 104.5, 107.4, 110.6, 117.8, 126.4, 131.4, 143.6, 161.5]

/-- Embedding of the decision part of `analyze_tempo` (tempo_detection.py
lines 378-693): alias candidate scoring and selection, de-quantization,
the intermediate-tempo, mid-tempo, extended-octave and onset-validation
correction passes, the beat-consistency confidence blend, and the final
clamp.  `expQ` models `math.exp`, `stdQ` models `np.std`; the disabled
`if False` extended-alias block is omitted.  Returns (bpm, confidence). -/
def analyze_tempo_decision (expQ : ℚ → ℚ) (stdQ : List ℚ → ℚ) (inp : TempoInputs) :
    ℚ × ℚ :=
  let candidates := build_tempo_alias_candidates inp.percussive_bpm inp.onset_bpm
  let scoring := score_tempo_alias_candidates expQ candidates inp.percussive_bpm
    inp.onset_bpm inp.plp_bpm inp.plp_peak none inp.is_short_clip
  let best_alias := scoring.1
  let scored_aliases := scoring.2
  let tc : ℚ × ℚ :=
    match best_alias with
    | none => (inp.percussive_bpm, 0.6)
    | some b =>
      let tempo := b.bpm
      let bpm_confidence := b.confidence
      match weighted_median scored_aliases with
      | none => (tempo, bpm_confidence)
      | some alt_tempo =>
        let top_score := if scored_aliases ≠ [] then list_max (scored_aliases.map ScoredAlias.score) else 0
        let close_to_top := 1.5 ≤ |tempo - alt_tempo| ∧ bpm_confidence ≤ top_score * 0.95
        let is_canonical_lock := round_to 1 tempo ∈ canonical_bpm_set
        if is_canonical_lock ∨ close_to_top then (alt_tempo, bpm_confidence)
        else (tempo, bpm_confidence)
  let final_bpm := tc.1
  let bpm_confidence := tc.2
  -- intermediate tempo correction (lines 479-509)
  let final_bpm :=
    if 70 ≤ final_bpm ∧ final_bpm ≤ 80 ∧ 0.65 < inp.energy_rms_early ∧ inp.onset_env ≠ [] then
      let current_separation :=
        (compute_onset_energy_separation final_bpm inp.onset_env inp.sr inp.hop_length).getD 0
      let st := (([1.2, 1.25] : List ℚ)).foldl
        (fun (st : Option ℚ × ℚ) factor =>
          let test_bpm := final_bpm * factor
          if 280 < test_bpm then st
          else
            match compute_onset_energy_separation test_bpm inp.onset_env inp.sr inp.hop_length with
            | none => st
            | some test_separation =>
              if st.2 * inp.intermediate_threshold < test_separation then
                (some test_bpm, test_separation)
              else st)
        (none, current_separation)
      match st.1 with
      | some best_intermediate_bpm => best_intermediate_bpm
      | none => final_bpm
    else final_bpm
  -- slow-ballad skip flag (lines 511-524)
  let might_be_slow_ballad :=
    60 ≤ final_bpm ∧ final_bpm ≤ 85 ∧ 105 < final_bpm * 2 ∧ inp.energy_rms_early < 0.70
  let skip_onset_validation := !inp.use_onset_validation || might_be_slow_ballad
  -- mid-tempo octave validation zone (lines 530-584)
  let mc : ℚ × ℚ :=
    if inp.is_short_clip ∧ (85 ≤ final_bpm ∧ final_bpm ≤ 110) ∧ inp.onset_env ≠ [] then
      if 0.90 ≤ bpm_confidence then (final_bpm, bpm_confidence)
      else
        let ws := fun (test_bpm separation : ℚ) =>
          separation * (0.7 + 0.3 * tempo_alignment_score test_bpm)
        let current_separation :=
          (compute_onset_energy_separation final_bpm inp.onset_env inp.sr inp.hop_length).getD 0
        let st := (([1.5, 1.55] : List ℚ)).foldl
          (fun (st : ℚ × Option ℚ) factor =>
            let test_bpm := final_bpm * factor
            if 280 < test_bpm ∨ 152 < test_bpm then st
            else
              let test_separation :=
                (compute_onset_energy_separation test_bpm inp.onset_env inp.sr inp.hop_length).getD 0
              let weighted_score := ws test_bpm test_separation
              if st.1 * 1.20 < weighted_score then (weighted_score, some factor) else st)
          (ws final_bpm current_separation, none)
        match st.2 with
        | some best_factor => (final_bpm * best_factor, bpm_confidence * 0.95)
        | none => (final_bpm, bpm_confidence)
    else (final_bpm, bpm_confidence)
  let final_bpm := mc.1
  let bpm_confidence := mc.2
  -- extended octave validation for short clips (lines 589-660)
  let ec : ℚ × ℚ :=
    if inp.is_short_clip ∧ skip_onset_validation = true ∧ inp.onset_env ≠ [] then
      let current_separation :=
        (compute_onset_energy_separation final_bpm inp.onset_env inp.sr inp.hop_length).getD 0
      let high_tempo_threshold : ℚ := if inp.is_short_clip then 160 else 170
      let low_tempo_threshold : ℚ := if inp.is_short_clip then 90 else 85
      let improvement_threshold_ext : ℚ :=
        if high_tempo_threshold < final_bpm ∨ final_bpm < low_tempo_threshold then 1.15 else 1.30
      let test_factors : List ℚ :=
        if high_tempo_threshold < final_bpm then [0.5, 0.67, 0.75]
        else if final_bpm < low_tempo_threshold then [2, 1.5, 1.33]
        else []
      let st := test_factors.foldl
        (fun (st : ℚ × Option ℚ × ℚ) factor =>
          let test_bpm := final_bpm * factor
          if test_bpm < 40 ∨ 250 < test_bpm then st
          else
            let test_separation :=
              (compute_onset_energy_separation test_bpm inp.onset_env inp.sr inp.hop_length).getD 0
            if st.1 * improvement_threshold_ext < test_separation then
              (test_separation, some factor, test_bpm)
            else st)
        (current_separation, none, final_bpm)
      match st.2.1 with
      | some _ =>
        if st.2.2 ≠ final_bpm then (st.2.2, bpm_confidence * 0.90)
        else (final_bpm, bpm_confidence)
      | none => (final_bpm, bpm_confidence)
    else (final_bpm, bpm_confidence)
  let final_bpm := ec.1
  let bpm_confidence := ec.2
  -- standard onset validation (lines 662-683)
  let ov : ℚ × ℚ :=
    if skip_onset_validation = false ∧ inp.onset_env ≠ [] then
      let v := validate_octave_with_onset_energy final_bpm inp.onset_env inp.sr inp.hop_length
      if v.1 ≠ final_bpm then
        (v.1, bpm_confidence * clamp_to_unit (0.85 + 0.15 * v.2))
      else (final_bpm, bpm_confidence)
    else (final_bpm, bpm_confidence)
  let final_bpm := ov.1
  let bpm_confidence := ov.2
  -- beat-consistency confidence blend (lines 685-691)
  let bpm_confidence :=
    if inp.beats ≠ [] then
      let beat_strengths := inp.beats.map (fun i => inp.onset_env.getD i 0)
      let std_val := stdQ beat_strengths
      let mean_val := list_mean beat_strengths
      let beat_consistency := 1 - min (std_val / (mean_val + 1e-6)) 1
      0.6 * bpm_confidence + 0.4 * beat_consistency
    else bpm_confidence
  (final_bpm, max 0 (min 1 bpm_confidence))

/-- Embedding of the phase-4 BPM guardrail in `perform_audio_analysis`
(pipeline_core.py lines 132-144): double/halve extreme tempos only when
the alignment score improves by more than 0.15. -/
def bpm_guardrail (final_bpm : ℚ) : ℚ :=
  if final_bpm < 60 ∨ 180 < final_bpm then
    let test_bpm := if final_bpm < 60 then final_bpm * 2 else final_bpm * 0.5
    if 20 ≤ test_bpm ∧ test_bpm ≤ 280 then
      if tempo_alignment_score final_bpm + 0.15 < tempo_alignment_score test_bpm then test_bpm
      else final_bpm
    else final_bpm
  else final_bpm

/-- Metadata of the selected tempo window (pipeline_context.py). -/
structure SelectedWindowMeta where
  window_seconds : ℚ
  start_seconds : ℚ
  end_seconds : ℚ
  full_track : Bool
deriving DecidableEq

/-- Energy of the length-`w` window of `y` starting at offset `k`: the
convolution of the squared signal with a ones kernel evaluated at `k`. -/
def window_energy (y : List ℚ) (w k : ℕ) : ℚ :=
  (((y.drop k).take w).map (fun x => x * x)).sum

/-- First index of the maximal value (`np.argmax`), helper recursion. -/
def argmax_go (bestIdx : ℕ) (bestVal : ℚ) (i : ℕ) : List ℚ → ℕ
  | [] => bestIdx
  | v :: vs => if bestVal < v then argmax_go i v (i + 1) vs else argmax_go bestIdx bestVal (i + 1) vs

/-- First index of the maximal value of a list (`np.argmax`); `0` on `[]`. -/
def argmax_first : List ℚ → ℕ
  | [] => 0
  | v :: vs => argmax_go 0 v 1 vs

/-- Embedding of `select_loudest_window` (pipeline_context.py lines 59-107).
Samples are exact rationals; the float32 cast of the energy convolution
is dropped.  Returns (selected samples, start offset, metadata). -/
def select_loudest_window (y : List ℚ) (sr : ℕ) (window_seconds : ℚ) :
    List ℚ × ℕ × SelectedWindowMeta :=
  let total_samples := y.length
  let full_duration : ℚ := if sr ≠ 0 then (total_samples : ℚ) / (sr : ℚ) else 0
  let meta0 : SelectedWindowMeta := ⟨full_duration, 0, full_duration, true⟩
  if total_samples = 0 ∨ sr = 0 ∨ window_seconds ≤ 0 then (y, 0, meta0)
  else
    let window_samples := (⌊window_seconds * (sr : ℚ)⌋).toNat
    if window_samples = 0 ∨ total_samples ≤ window_samples then (y, 0, meta0)
    else if window_samples * 2 < total_samples then
      (y.take window_samples, 0, ⟨window_seconds, 0, window_seconds, false⟩)
    else
      let energy := (List.range (total_samples - window_samples + 1)).map (window_energy y window_samples)
      if energy = [] then (y, 0, meta0)
      else
        let start := argmax_first energy
        ((y.drop start).take window_samples, start,
         ⟨(window_samples : ℚ) / (sr : ℚ), (start : ℚ) / (sr : ℚ),
          ((start + window_samples : ℕ) : ℚ) / (sr : ℚ), false⟩)

/-- Generic Python `max(items, key=val)` over a list: the first element with
maximal value wins (later elements replace only on strictly greater). -/
def pick_max_by {α : Type} (val : α → ℚ) : List α → Option α
  | [] => none
  | c :: rest =>
    match pick_max_by val rest with
    | none => some c
    | some c2 => if val c < val c2 then some c2 else some c

/-- Interval override steps `_INTERVAL_OVERRIDE_STEPS`. -/
def INTERVAL_OVERRIDE_STEPS : List ℤ := [2, 3, 4, 5, 7, 9, 10]

/-- Dominant/subdominant interval steps `_DOMINANT_INTERVAL_STEPS`. -/
def DOMINANT_INTERVAL_STEPS : List ℤ := [5, 7]

/-- Embedding of `_interval_distance` (key_detection_helpers.py line 88). -/
def interval_distance (candidate_root reference_root : ℤ) : ℤ :=
  (candidate_root - reference_root) % 12

/-- Insertion-ordered accumulation keyed by pitch class for
`_root_weight_map`. -/
def add_weight : List (ℤ × ℚ) → ℤ → ℚ → List (ℤ × ℚ)
  | [], k, w => [(k, w)]
  | (k0, w0) :: rest, k, w =>
    if k0 = k then (k0, w0 + w) :: rest else (k0, w0) :: add_weight rest k w

/-- Dict `get` with default 0 on the weight map. -/
def weight_lookup (m : List (ℤ × ℚ)) (k : ℤ) : ℚ :=
  match m with
  | [] => 0
  | (k0, w0) :: rest => if k0 = k then w0 else weight_lookup rest k

/-- One vote of a window-consensus result (root / mode / weight). -/
structure WVote where
  root : ℤ
  mode : Mode
  weight : ℚ
deriving DecidableEq

/-- Embedding of `_root_weight_map` (key_detection_helpers.py lines 109-124). -/
def root_weight_map (votes : List WVote) : List (ℤ × ℚ) :=
  votes.foldl
    (fun m v => if v.weight ≤ 0 then m else add_weight m (v.root % 12) v.weight) []

/-- Embedding of `_root_support_ratio` (key_detection_helpers.py lines 127-133). -/
def root_support_ratio (m : List (ℤ × ℚ)) (target_root : ℤ) : ℚ :=
  match m with
  | [] => 0
  | _ =>
    let best_weight := list_max (m.map Prod.snd)
    if best_weight ≤ 0 then 0 else weight_lookup m (target_root % 12) / best_weight

/-- Embedding of `_mode_vote_breakdown` (key_detection_helpers.py lines
136-162): (major weight, minor weight, total weight) restricted to the
target pitch class. -/
def mode_vote_breakdown (votes : List WVote) (target_root : ℤ) : ℚ × ℚ × ℚ :=
  votes.foldl
    (fun (acc : ℚ × ℚ × ℚ) v =>
      if v.root % 12 ≠ target_root % 12 then acc
      else if v.weight ≤ 0 then acc
      else match v.mode with
        | Mode.major => (acc.1 + v.weight, acc.2.1, acc.2.2 + v.weight)
        | Mode.minor => (acc.1, acc.2.1 + v.weight, acc.2.2 + v.weight))
    (0, 0, 0)

/-- External tonal-estimator candidate (Essentia), already parsed by
`_parse_essentia_key_result` into root / mode / strength. -/
structure EssCand where
  root : ℤ
  mode : Mode
  score : ℚ
deriving DecidableEq

/-- Embedding of `_essentia_supports` (key_detection_helpers.py lines 165-179). -/
def essentia_supports (candidate : Option EssCand) (target_root : ℤ) (target_mode : Mode)
    (min_score : ℚ) : Bool :=
  match candidate with
  | none => false
  | some c =>
    let score := clamp_to_unit c.score
    if score < min_score then false
    else decide (c.root % 12 = target_root % 12 ∧ c.mode = target_mode)

/-- List indexing used for the 12-bin chroma profile (`chroma_array[i]`
with `i` already reduced to `[0, 11]`). -/
def chroma_at (chroma : List ℚ) (i : ℤ) : ℚ :=
  chroma.getD i.toNat 0

/-- Embedding of `_chroma_peak_root` (key_detection_helpers.py lines 182-186). -/
def chroma_peak_root (chroma : List ℚ) : ℕ × ℚ :=
  match chroma with
  | [] => (0, 0)
  | _ =>
    let idx := argmax_first chroma
    (idx, chroma.getD idx 0)

/-- Embedding of `_mode_bias_from_chroma` (key_detection_helpers.py lines
189-197). -/
def mode_bias_from_chroma (chroma : List ℚ) (root_index : ℤ) : ℚ :=
  if chroma.length < 12 then 0
  else
    let major_third := chroma_at chroma ((root_index + 4) % 12)
    let minor_third := chroma_at chroma ((root_index + 3) % 12)
    let major_sixth := chroma_at chroma ((root_index + 9) % 12)
    let minor_sixth := chroma_at chroma ((root_index + 8) % 12)
    (major_third - minor_third) + 0.5 * (major_sixth - minor_sixth)

/-- Embedding of `_triad_energy` (key_detection_helpers.py lines 200-209). -/
def triad_energy (chroma : List ℚ) (root_index : ℤ) (mode : Mode) : ℚ :=
  if chroma.length < 12 then 0
  else
    let root := root_index % 12
    let third := (root + (match mode with | Mode.major => 4 | Mode.minor => 3)) % 12
    let fifth := (root + 7) % 12
    chroma_at chroma root + chroma_at chroma third + chroma_at chroma fifth

/-- Stable descending insertion by score (Python
`sorted(entries, key=score, reverse=True)` in `_sorted_candidates`). -/
def insert_by_score (x : KeyScoreEntry) : List KeyScoreEntry → List KeyScoreEntry
  | [] => [x]
  | y :: ys => if y.score < x.score then x :: y :: ys else y :: insert_by_score x ys

/-- Embedding of `_sorted_candidates` (key_detection_helpers.py lines 212-220). -/
def sorted_candidates (entries : List KeyScoreEntry) : List KeyScoreEntry :=
  entries.foldl (fun acc x => insert_by_score x acc) []

/-- Template-score lookup `template_scores.get((root, mode), 0)`. -/
def votes_lookup (tbl : List ((ℤ × Mode) × ℚ)) (k : ℤ × Mode) : ℚ :=
  match tbl with
  | [] => 0
  | (k0, v) :: rest => if k0 = k then v else votes_lookup rest k

/-- The `best` entry of a window-consensus dict. -/
structure WindowBest where
  root : ℤ
  mode : Mode
  weight : ℚ
deriving DecidableEq

/-- A non-empty window-consensus dict from `_windowed_key_consensus`;
an absent or empty dict is modelled as `none` at the use site. -/
structure WindowConsensus where
  votes : List WVote
  best : Option WindowBest
  dominance : ℚ
  total_weight : ℚ
  runner_up_weight : ℚ
deriving DecidableEq

/-- The inputs of the `detect_global_key` decision chain: everything the
spectral front-end (`_librosa_key_signature`, i.e. the chroma transform
plus the template scorer) and the optional external tonal estimator
deliver before the override chain runs (key_detection.py line 111 ff). -/
structure KeyDetectInput where
  chroma : List ℚ
  fallback_scores : List KeyScoreEntry
  fallback_conf : ℚ
  template_votes : List ((ℤ × Mode) × ℚ)
  fallback_best : Option (ℤ × Mode)
  window_meta : Option WindowConsensus
  essentia_std : Option EssCand
  essentia_edm : Option EssCand
  is_short_clip : Bool
deriving DecidableEq

/-- The mutable locals of the override chain (`final_root`, `final_mode`,
`final_confidence`, `key_source`, `locked_root`, `final_support_ratio`). -/
structure KeyChainState where
  root : ℤ
  mode : Mode
  conf : ℚ
  source : String
  locked : Bool
  support : ℚ
deriving DecidableEq

/-- Context shared by the override chain: values computed once before the
chain starts (key_detection.py lines 111-135 and 294-328). -/
structure KeyChainCtx where
  inp : KeyDetectInput
  fallback_root : ℤ
  fallback_mode : Mode
  max_chroma : ℚ
  sorted_cands : List KeyScoreEntry
  fallback_best_score : ℚ
  window_votes : List WVote
  window_weights : List (ℤ × ℚ)
  window_dominance : ℚ

/-- Build the chain context from the inputs. -/
def mk_key_ctx (inp : KeyDetectInput) : KeyChainCtx :=
  let fallback_root := match inp.fallback_best with
    | some b => b.1
    | none => 0
  let fallback_mode := match inp.fallback_best with
    | some b => b.2
    | none => Mode.major
  let sorted := sorted_candidates inp.fallback_scores
  let fallback_best_score := match sorted with
    | c :: _ => c.score
    | [] => inp.fallback_conf
  let window_votes := match inp.window_meta with
    | some wm => wm.votes
    | none => []
  { inp := inp,
    fallback_root := fallback_root,
    fallback_mode := fallback_mode,
    max_chroma := match inp.chroma with
      | [] => 0
      | _ => list_max inp.chroma,
    sorted_cands := sorted,
    fallback_best_score := fallback_best_score,
    window_votes := window_votes,
    window_weights := root_weight_map window_votes,
    window_dominance := match inp.window_meta with
      | some wm => wm.dominance
      | none => 0 }

/-- Window-consensus override (key_detection.py lines 317-360). -/
def window_consensus_block (ctx : KeyChainCtx) (st : KeyChainState) : KeyChainState :=
  match ctx.inp.window_meta with
  | none => st
  | some wm =>
    match wm.best with
    | none => st
    | some bw =>
      let dominance := wm.dominance
      let separation := if 0 < wm.total_weight then
          (bw.weight - wm.runner_up_weight) / wm.total_weight
        else 0
      let window_root := bw.root % 12
      let same_root := window_root = st.root
      let same_mode := bw.mode = st.mode
      let interval_to_fallback := (window_root - ctx.fallback_root) % 12
      let is_fifth_related := interval_to_fallback = 5 ∨ interval_to_fallback = 7
      if 0.5 ≤ dominance ∧ (¬ same_root ∨ ¬ same_mode) then
        let min_dominance : ℚ := if ctx.inp.is_short_clip ∧ is_fifth_related then 0.75 else 0.65
        let min_separation : ℚ := if ctx.inp.is_short_clip ∧ is_fifth_related then 0.20 else 0.15
        if min_separation ≤ separation ∨ min_dominance ≤ dominance then
          { st with
              root := window_root, mode := bw.mode,
              conf := max st.conf (min 0.99 dominance), source := "window_consensus" }
        else st
      else if same_root ∧ ¬ same_mode ∧ 0.05 ≤ separation then
        { st with
            mode := bw.mode, conf := max st.conf (min 0.95 dominance),
            source := "window_consensus" }
      else st

/-- Runner-up interval override (key_detection.py lines 362-413). -/
def runner_interval_block (ctx : KeyChainCtx) (st : KeyChainState) : KeyChainState :=
  match ctx.sorted_cands with
  | _ :: runner :: _ =>
    let runner_score := runner.score
    let score_gap := ctx.fallback_best_score - runner_score
    let candidate_root := runner.root % 12
    let candidate_mode := runner.mode
    let interval := interval_distance candidate_root st.root
    let candidate_support := root_support_ratio ctx.window_weights candidate_root
    let support_delta := candidate_support - st.support
    let fifth := interval ∈ DOMINANT_INTERVAL_STEPS
    let window_support_threshold : ℚ :=
      if ctx.inp.is_short_clip ∧ fifth then 0.78 else 0.72
    let window_support :=
      window_support_threshold ≤ candidate_support ∨ 0.18 ≤ support_delta
    let candidate_chroma_ratio :=
      if 0 < ctx.max_chroma then chroma_at ctx.inp.chroma candidate_root / ctx.max_chroma else 0
    let window_support :=
      if window_support ∧ fifth ∧ ctx.inp.is_short_clip then
        window_support_threshold ≤ candidate_support
      else window_support
    let ess_support :=
      if ¬ window_support then
        essentia_supports ctx.inp.essentia_std candidate_root candidate_mode 0.35
      else false
    let ess_support :=
      if ¬ window_support ∧ ess_support = false then
        essentia_supports ctx.inp.essentia_edm candidate_root candidate_mode 0.45
      else ess_support
    let weak_final := st.support < 0.5
    let promote_runner := window_support ∨ ess_support = true
    let promote_runner :=
      if fifth ∧ ctx.inp.is_short_clip ∧ candidate_chroma_ratio < 0.57 then False
      else promote_runner
    let promote_runner :=
      if fifth ∧ ctx.inp.is_short_clip ∧ runner_score + 0.02 < ctx.fallback_best_score then False
      else promote_runner
    let promote_runner :=
      if st.locked ∧ candidate_root ≠ st.root then False else promote_runner
    let promote_runner :=
      if ¬ promote_runner ∧ weak_final ∧ score_gap ≤ 0.025 * 0.6 then True else promote_runner
    if interval ∈ INTERVAL_OVERRIDE_STEPS ∧ promote_runner then
      let margin : ℚ := 0.025
      let support_boost_threshold := window_support_threshold + 0.1
      let margin := if support_boost_threshold ≤ candidate_support then margin * 1.8 else margin
      let margin := if ess_support = true ∨ weak_final then margin * 1.2 else margin
      if score_gap ≤ margin ∨ ess_support = true then
        { st with
            root := candidate_root, mode := candidate_mode,
            conf := max st.conf (min 0.75 (max candidate_support ctx.inp.fallback_conf + 0.15)),
            source := "runner_interval",
            support := root_support_ratio ctx.window_weights candidate_root }
      else st
    else st
  | _ => st

/-- Fifth-related reconciliation for short clips (key_detection.py lines
416-475). -/
def fifth_reconcile_block (ctx : KeyChainCtx) (st : KeyChainState) : KeyChainState :=
  if ctx.inp.is_short_clip ∧ ctx.sorted_cands ≠ [] then
    let overall_best_score := match ctx.sorted_cands with
      | c :: _ => c.score
      | [] => 0
    let alt_pick : Option (ℤ × Mode × ℚ × ℚ) :=
      if ¬ (st.root = ctx.fallback_root ∧ 0.6 ≤ ctx.window_dominance) then
        let fallback_template_score :=
          votes_lookup ctx.inp.template_votes (ctx.fallback_root % 12, ctx.fallback_mode)
        let fallback_support := root_support_ratio ctx.window_weights ctx.fallback_root
        let fallback_ess_support :=
          essentia_supports ctx.inp.essentia_std ctx.fallback_root ctx.fallback_mode 0.4 ||
            essentia_supports ctx.inp.essentia_edm ctx.fallback_root ctx.fallback_mode 0.45
        ((ctx.sorted_cands.drop 1).take 5).foldl
          (fun (alt : Option (ℤ × Mode × ℚ × ℚ)) cand =>
            let cand_root := cand.root % 12
            let cand_mode := cand.mode
            let cand_score := cand.score
            if cand_score + 0.04 < overall_best_score then alt
            else if 0 < fallback_template_score ∧
                (fallback_ess_support = true ∨ 0.35 ≤ fallback_support) ∧
                cand_score + 0.04 * 0.5 < fallback_template_score then alt
            else
              let interval := interval_distance cand_root st.root
              if ¬ (interval = 5 ∨ interval = 7) then alt
              else
                let chroma_ratio :=
                  if ctx.max_chroma ≤ 0 ∨ ctx.inp.chroma = [] then 0
                  else chroma_at ctx.inp.chroma cand_root / ctx.max_chroma
                if chroma_ratio < 0.57 then alt
                else
                  match alt with
                  | none => some (cand_root, cand_mode, cand_score, chroma_ratio)
                  | some prev =>
                    if prev.2.2.2 < chroma_ratio then
                      some (cand_root, cand_mode, cand_score, chroma_ratio)
                    else alt)
          none
      else none
    match alt_pick with
    | some pick =>
      { st with
          root := pick.1, mode := pick.2.1, conf := max st.conf pick.2.2.1,
          source := "fifth_reconcile", locked := true }
    | none => st
  else st

/-- Window mode-vote override (key_detection.py lines 476-486). -/
def window_mode_votes_block (ctx : KeyChainCtx) (st : KeyChainState) : KeyChainState :=
  if ctx.window_votes ≠ [] then
    let bd := mode_vote_breakdown ctx.window_votes st.root
    if 0 < bd.2.2 then
      let major_ratio := bd.1 / bd.2.2
      let minor_ratio := bd.2.1 / bd.2.2
      let mode_difference := |major_ratio - minor_ratio|
      let dominant_mode := if minor_ratio ≤ major_ratio then Mode.major else Mode.minor
      if 0.32 ≤ mode_difference ∧ dominant_mode ≠ st.mode then
        { st with
            mode := dominant_mode,
            conf := max st.conf (min 0.85 (st.conf + mode_difference * 0.3)),
            source := "window_mode_votes" }
      else st
    else st
  else st

/-- Chroma-peak override (key_detection.py lines 487-557). -/
def chroma_peak_block (ctx : KeyChainCtx) (st : KeyChainState) : KeyChainState :=
  if 12 ≤ ctx.inp.chroma.length ∧ st.source ≠ "fifth_reconcile" then
    let pk := chroma_peak_root ctx.inp.chroma
    let peak_root : ℤ := (pk.1 : ℤ)
    let peak_energy := pk.2
    if peak_root ≠ st.root then
      let final_energy := ctx.inp.chroma.getD (st.root % (ctx.inp.chroma.length : ℤ)).toNat 0
      let energy_gap := peak_energy - final_energy
      let peak_support := root_support_ratio ctx.window_weights peak_root
      let support_gap := peak_support - st.support
      let interval_to_fallback := (peak_root - ctx.fallback_root) % 12
      let is_fifth_related := interval_to_fallback = 5 ∨ interval_to_fallback = 7
      let should_apply_peak :=
        0.075 ≤ energy_gap ∨ 0.55 ≤ peak_support ∨ 0.18 ≤ support_gap
      let should_apply_peak :=
        if st.locked ∧ peak_root ≠ st.root then False else should_apply_peak
      let should_apply_peak :=
        if ctx.inp.is_short_clip ∧ is_fifth_related then
          let decisive_peak := (0.075 * 2 ≤ energy_gap ∧ 0.20 ≤ peak_support) ∨ 0.25 ≤ energy_gap
          let decisive_peak :=
            if 0.5 ≤ ctx.window_dominance then
              decisive_peak ∧ 0.30 ≤ energy_gap ∧ 0.22 ≤ peak_support
            else decisive_peak
          if ¬ decisive_peak then False else should_apply_peak
        else should_apply_peak
      if should_apply_peak then
        let pm := ctx.sorted_cands.foldl
          (fun (acc : Option ℚ × Mode) cand =>
            if cand.root % 12 ≠ peak_root then acc
            else
              match acc.1 with
              | none => (some cand.score, cand.mode)
              | some best => if best < cand.score then (some cand.score, cand.mode) else acc)
          (none, st.mode)
        { st with
            root := peak_root, mode := pm.2,
            conf := max st.conf (min 0.9 (max st.conf peak_support + 0.1)),
            source := "chroma_peak", support := peak_support, locked := true }
      else st
    else st
  else st

/-- Preview tonic-bias safeguard (key_detection.py lines 558-608). -/
def tonic_bias_block (ctx : KeyChainCtx) (st : KeyChainState) : KeyChainState :=
  if ctx.inp.is_short_clip ∧ st.source ≠ "chroma_peak" then
    let interval_to_fallback := interval_distance st.root ctx.fallback_root
    let is_fifth_related := interval_to_fallback = 5 ∨ interval_to_fallback = 7
    if is_fifth_related ∧ st.root ≠ ctx.fallback_root then
      let fallback_triad := triad_energy ctx.inp.chroma ctx.fallback_root ctx.fallback_mode
      let final_triad := triad_energy ctx.inp.chroma st.root st.mode
      let fallback_template_score :=
        votes_lookup ctx.inp.template_votes (ctx.fallback_root % 12, ctx.fallback_mode)
      let final_template_score :=
        votes_lookup ctx.inp.template_votes (st.root % 12, st.mode)
      let fallback_support := root_support_ratio ctx.window_weights ctx.fallback_root
      let fallback_ess_support :=
        essentia_supports ctx.inp.essentia_std ctx.fallback_root ctx.fallback_mode 0.35 ||
          essentia_supports ctx.inp.essentia_edm ctx.fallback_root ctx.fallback_mode 0.45
      let triad_near_tie := final_triad ≤ 0 ∨ final_triad * 0.95 ≤ fallback_triad
      let template_near_tie := final_template_score ≤ fallback_template_score + 0.04 * 0.5
      let support_near_tie :=
        st.support ≤ fallback_support + 0.02 ∨
          (0.35 ≤ fallback_support ∧ st.support ≤ 0.55)
      let support_near_tie :=
        if fallback_ess_support = false ∧ fallback_support < st.support - 0.01 then False
        else support_near_tie
      if triad_near_tie ∧ template_near_tie ∧ support_near_tie ∧
          (fallback_ess_support = true ∨ st.support < 0.6) then
        { st with
            root := ctx.fallback_root, mode := ctx.fallback_mode,
            conf := max st.conf (max ctx.inp.fallback_conf
            (max fallback_template_score fallback_support)),
            source := "tonic_bias", locked := true }
      else st
    else st
  else st

/-- Embedding of the `_blend_essentia_candidate` closure (key_detection.py
lines 150-188). -/
def blend_essentia_candidate (candidate : Option EssCand) (source_label : String)
    (strict_score mode_score rescue_score : ℚ) (st : KeyChainState) : KeyChainState :=
  match candidate with
  | none => st
  | some c =>
    let ess_mode := c.mode
    let ess_score := clamp_to_unit c.score
    let ess_root := c.root % 12
    if st.locked ∧ ess_root ≠ st.root then st
    else
      let differs := ess_root ≠ st.root ∨ ess_mode ≠ st.mode
      if strict_score ≤ ess_score ∧ differs then
        { st with
            root := ess_root, mode := ess_mode, conf := max st.conf ess_score,
            source := source_label }
      else if ess_root = st.root ∧ ess_mode ≠ st.mode ∧ mode_score ≤ ess_score then
        { st with
            mode := ess_mode, conf := max st.conf ess_score,
            source := source_label ++ "_mode" }
      else if rescue_score ≤ ess_score ∧ st.conf < 0.35 then
        { st with
            root := ess_root, mode := ess_mode, conf := max st.conf ess_score,
            source := source_label }
      else st

/-- Embedding of the `_apply_dominant_interval_override` closure
(key_detection.py lines 189-214). -/
def apply_dominant_interval_override (candidate : Option EssCand) (source_label : String)
    (ctx : KeyChainCtx) (st : KeyChainState) : KeyChainState :=
  match candidate with
  | none => st
  | some c =>
    let cand_root := c.root % 12
    let cand_mode := c.mode
    let cand_score := clamp_to_unit c.score
    if cand_score < 0.55 then st
    else
      let interval := interval_distance st.root cand_root
      if st.locked ∧ cand_root ≠ st.root then st
      else if interval ∈ DOMINANT_INTERVAL_STEPS then
        { st with
            root := cand_root, mode := cand_mode, conf := max st.conf cand_score,
            source := source_label ++ "_dominant",
            support := root_support_ratio ctx.window_weights cand_root }
      else st

/-- One candidate of the `_essentia_tonic_override` loop (key_detection.py
lines 219-259); `none` models the `continue` cases. -/
def tonic_override_one (candidate : Option EssCand) (label : String) (ctx : KeyChainCtx)
    (st : KeyChainState) : Option KeyChainState :=
  match candidate with
  | none => none
  | some c =>
    let cand_root := c.root % 12
    let cand_mode := c.mode
    let cand_score := clamp_to_unit c.score
    let interval := interval_distance st.root cand_root
    if ¬ (interval ∈ DOMINANT_INTERVAL_STEPS) then none
    else if cand_score < 0.55 then none
    else if st.conf < 0.45 then none
    else
      let cand_support := root_support_ratio ctx.window_weights cand_root
      if ctx.inp.is_short_clip ∧ cand_support + 0.05 < st.support then none
      else
        some { st with
            root := cand_root, mode := cand_mode,
            conf := max st.conf cand_score, source := label ++ "_tonic_override",
            support := max st.support cand_support, locked := true }

/-- Embedding of `_essentia_tonic_override` (key_detection.py lines 215-259). -/
def essentia_tonic_override (ctx : KeyChainCtx) (st : KeyChainState) : KeyChainState :=
  if st.locked then st
  else
    match tonic_override_one ctx.inp.essentia_std "essentia" ctx st with
    | some st2 => st2
    | none =>
      match tonic_override_one ctx.inp.essentia_edm "essentia_edm" ctx st with
      | some st2 => st2
      | none => st

/-- Mode-bias inference from the chroma thirds/sixths (key_detection.py
lines 627-634). -/
def mode_bias_block (ctx : KeyChainCtx) (st : KeyChainState) : KeyChainState :=
  let mode_bias_value := mode_bias_from_chroma ctx.inp.chroma st.root
  if 0.08 ≤ |mode_bias_value| ∧ st.conf < 0.5 then
    let inferred_mode := if 0 ≤ mode_bias_value then Mode.major else Mode.minor
    if inferred_mode ≠ st.mode then
      { st with
          mode := inferred_mode,
          conf := max st.conf (min 0.55 (st.conf + |mode_bias_value| * 0.4)),
          source := "mode_bias" }
    else st
  else st

/-- Embedding of the `_mode_rescue_from_candidate` closure (key_detection.py
lines 261-277). -/
def mode_rescue_from_candidate (candidate : Option EssCand) (source_label : String)
    (st : KeyChainState) : KeyChainState :=
  match candidate with
  | none => st
  | some c =>
    let cand_root := c.root % 12
    let cand_mode := c.mode
    let cand_score := clamp_to_unit c.score
    if cand_root = st.root ∧ cand_mode ≠ st.mode ∧ 0.58 ≤ cand_score then
      { st with
          mode := cand_mode, conf := max st.conf cand_score,
          source := source_label ++ "_mode_rescue" }
    else st

/-- The full override chain of `detect_global_key` (key_detection.py lines
310-636), in source order, returning the final local state. -/
def key_chain (inp : KeyDetectInput) : KeyChainState :=
  let ctx := mk_key_ctx inp
  let st : KeyChainState :=
    ⟨ctx.fallback_root, ctx.fallback_mode, inp.fallback_conf, "librosa", false, 0⟩
  let st := window_consensus_block ctx st
  let st := { st with support := root_support_ratio ctx.window_weights st.root }
  let st := runner_interval_block ctx st
  let st := fifth_reconcile_block ctx st
  let st := window_mode_votes_block ctx st
  let st := chroma_peak_block ctx st
  let st := tonic_bias_block ctx st
  let st := blend_essentia_candidate inp.essentia_std "essentia" 0.55 0.35 0.4 st
  let st := apply_dominant_interval_override inp.essentia_std "essentia" ctx st
  let st := blend_essentia_candidate inp.essentia_edm "essentia_edm" 0.55 0.33 0.42 st
  let st := apply_dominant_interval_override inp.essentia_edm "essentia_edm" ctx st
  let st := essentia_tonic_override ctx st
  let st := mode_bias_block ctx st
  let st := mode_rescue_from_candidate inp.essentia_std "essentia" st
  mode_rescue_from_candidate inp.essentia_edm "essentia_edm" st

/-- The final result fields written at key_detection.py lines 637-640. -/
structure KeyResult where
  key_index : ℤ
  mode : Mode
  confidence : ℚ
  key_source : String
deriving DecidableEq

/-- Result assembly of `detect_global_key` after the chain has run. -/
def detect_global_key_result (inp : KeyDetectInput) : KeyResult :=
  let st := key_chain inp
  ⟨st.root % 12, st.mode, clamp_to_unit st.conf, st.source⟩

/-- Embedding of `detect_global_key` including the empty/invalid-input early
return (key_detection.py lines 78-87): a zero-length signal or
non-positive sample rate yields the default `C Major` result with
confidence 0 before any estimator runs. -/
def detect_global_key (signal_size : ℕ) (sr : ℤ) (inp : KeyDetectInput) : ℤ × Mode × ℚ :=
  if signal_size = 0 ∨ sr ≤ 0 then (0, Mode.major, 0)
  else
    let st := key_chain inp
    (st.root % 12, st.mode, clamp_to_unit st.conf)

/-- Embedding of `_score_chroma_profile` (key_detection_helpers.py lines
234-252), parameterised by the two unit-normalised Krumhansl template
vectors (their exact entries are irrational; no theorem below depends on
them).  Returns (normalised chroma, score entries, votes table, best). -/
def score_chroma_profile (majorP minorP chroma_profile : List ℚ) :
    List ℚ × List KeyScoreEntry × List ((ℤ × Mode) × ℚ) × (ℤ × Mode × ℚ) :=
  let denom := list_max chroma_profile + 1e-9
  let chroma := if 0 < denom then chroma_profile.map (fun x => x / denom) else chroma_profile
  let dot := fun (root : ℕ) (profile : List ℚ) =>
    ((List.range 12).map (fun i => chroma.getD ((i + root) % 12) 0 * profile.getD i 0)).sum
  let step := fun (acc : List KeyScoreEntry × List ((ℤ × Mode) × ℚ) × Option (ℤ × Mode × ℚ))
      (rm : ℕ × Mode) =>
    let profile := match rm.2 with
      | Mode.major => majorP
      | Mode.minor => minorP
    let score := dot rm.1 profile
    let entry : KeyScoreEntry := ⟨(rm.1 : ℤ), rm.2, score⟩
    let best := match acc.2.2 with
      | none => some ((rm.1 : ℤ), rm.2, score)
      | some b => if b.2.2 < score then some ((rm.1 : ℤ), rm.2, score) else some b
    (acc.1 ++ [entry], acc.2.1 ++ [(((rm.1 : ℤ), rm.2), score)], best)
  let pairs := (List.range 12).flatMap (fun root => [(root, Mode.major), (root, Mode.minor)])
  let acc := pairs.foldl step ([], [], none)
  (chroma, acc.1, acc.2.1,
    match acc.2.2 with
    | some b => b
    | none => (0, Mode.major, 0))

/-- The fields of one chunk summary that `_key_entries` reads
(pipeline_chunks.py lines 275-300); `key_mode = none` models a missing
mode, which `_key_mode_label` maps to Major. -/
structure KeySummary where
  key_index : Option ℤ
  key_mode : Option Mode
  key_confidence : ℚ
  key_detail_confidence : Option ℚ
  energy_weight : ℚ
deriving DecidableEq

/-- One key vote entry produced by `_key_entries`. -/
structure ConsensusKeyEntry where
  root : ℤ
  mode : Mode
  weight : ℚ
deriving DecidableEq

/-- Embedding of `_key_entries` (pipeline_chunks.py lines 275-300): one
weighted vote (confidence times clamped energy) per window that carries a
key with confidence at least 0.1. -/
def key_entries (summaries : List KeySummary) : List ConsensusKeyEntry :=
  summaries.filterMap (fun chunk =>
    match chunk.key_index with
    | none => none
    | some root =>
      let key_mode := chunk.key_mode.getD Mode.major
      let key_confidence := match chunk.key_detail_confidence with
        | some d => max chunk.key_confidence d
        | none => chunk.key_confidence
      if key_confidence < 0.1 then none
      else
        let energy_weight := max 0.1 chunk.energy_weight
        some ⟨root % 12, key_mode, key_confidence * energy_weight⟩)

/-- Embedding of `_key_dispersion` (pipeline_chunks.py lines 303-317): the
circular (von Mises style) dispersion of the root pitch classes, in
semitones.  `math.cos` / `math.sin` / `math.log` / `math.sqrt` are the
real functions. -/
noncomputable def key_dispersion (entries : List ConsensusKeyEntry) : Option ℝ :=
  let total_weight : ℚ := ((entries.filter (fun e => 0 < e.weight)).map
    ConsensusKeyEntry.weight).sum
  if total_weight ≤ 0 then none
  else
    let angle_factor : ℝ := 2 * Real.pi / 12
    let cos_sum : ℝ :=
      (entries.map (fun e => Real.cos ((e.root : ℝ) * angle_factor) * (e.weight : ℝ))).sum
    let sin_sum : ℝ :=
      (entries.map (fun e => Real.sin ((e.root : ℝ) * angle_factor) * (e.weight : ℝ))).sum
    let R := Real.sqrt (cos_sum ^ 2 + sin_sum ^ 2) / (total_weight : ℝ)
    let R := max (min R 1) 1e-9
    some (Real.sqrt (max 0 (-2 * Real.log R)) * (12 / (2 * Real.pi)))

/-- Insertion-ordered dict accumulation keyed by (root, mode) for the
consensus `weight_map`. -/
def add_key_weight : List ((ℤ × Mode) × ℚ) → (ℤ × Mode) → ℚ → List ((ℤ × Mode) × ℚ)
  | [], k, w => [(k, w)]
  | (k0, w0) :: rest, k, w =>
    if k0 = k then (k0, w0 + w) :: rest else (k0, w0) :: add_key_weight rest k w

/-- The key block of the consensus dict built by `build_chunk_consensus`
(pipeline_chunks.py lines 338-368); `key = none` models the absence of
the `"key"` entries when no window voted. -/
structure KeyConsensus where
  key : Option (ℤ × Mode)
  key_confidence : Option ℚ
  key_dispersion_semitones : Option ℝ
  key_modulating : Bool

/-- Embedding of the key-consensus part of `build_chunk_consensus`
(pipeline_chunks.py lines 338-368): weighted vote per (root, mode),
posterior share as confidence, and the modulation flag from the circular
dispersion, which caps the confidence at 0.45. -/
noncomputable def build_key_consensus (summaries : List KeySummary) : KeyConsensus :=
  let entries := key_entries summaries
  match entries with
  | [] => ⟨none, none, none, false⟩
  | _ =>
    let total_weight := (entries.map ConsensusKeyEntry.weight).sum
    let weight_map := entries.foldl
      (fun (m : List ((ℤ × Mode) × ℚ)) e => add_key_weight m (e.root % 12, e.mode) e.weight)
      []
    match pick_max_by Prod.snd weight_map with
    | none => ⟨none, none, none, false⟩
    | some best =>
      let weight_sum := if 0 < total_weight then total_weight else 1e-9
      let key_confidence := min 1 (best.2 / weight_sum)
      match key_dispersion entries with
      | none => ⟨some best.1, some key_confidence, none, false⟩
      | some dispersion =>
        if 3 < dispersion then
          ⟨some best.1, some (min key_confidence 0.45), some dispersion, true⟩
        else
          ⟨some best.1, some key_confidence, some dispersion, false⟩

/-- The key-related fields of the primary result that
`merge_chunk_consensus` touches (pipeline_chunks.py lines 417-434). -/
structure MergedKeyFields where
  key : Option (ℤ × Mode)
  key_confidence : Option ℚ
  key_modulating : Bool
  key_dispersion_semitones : Option ℝ

/-- Embedding of the key part of `merge_chunk_consensus` (pipeline_chunks.py
lines 417-434): a modulating consensus takes the minimum of the existing
and consensus confidences and caps the result at 0.45; otherwise the
maximum wins. -/
def merge_chunk_key (res : MergedKeyFields) (c : KeyConsensus) : MergedKeyFields :=
  let res := match c.key with
    | some k => { res with key := some k }
    | none => res
  let res := match c.key_confidence with
    | some kc =>
      if c.key_modulating then
        let merged := match res.key_confidence with
          | none => kc
          | some existing => min existing kc
        { res with key_confidence := some (min merged 0.45) }
      else
        { res with key_confidence := some (max (res.key_confidence.getD 0) kc) }
    | none => res
  let res := match c.key_dispersion_semitones with
    | some d => { res with key_dispersion_semitones := some d }
    | none => res
  if c.key_modulating then { res with key_modulating := true } else res

/-! ## Theorems -/

theorem clamp_to_unit_nonneg (q : ℚ) : 0 ≤ clamp_to_unit q :=
  le_max_left 0 _

theorem clamp_to_unit_le_one (q : ℚ) : clamp_to_unit q ≤ 1 :=
  max_le (by norm_num) (min_le_left 1 q)

theorem clamp_to_unit_ge {x q : ℚ} (hx1 : x ≤ 1) (h : x ≤ q) :
    x ≤ clamp_to_unit q :=
  le_max_of_le_right (le_min hx1 h)

theorem apply_rest_scalers_bpm (rules : ScalerRules) (r : AnalysisRecord) :
    (apply_rest_scalers rules r).bpm = r.bpm := rfl

theorem apply_bpm_scaler_bpm_cases (rules : ScalerRules) (short : Bool)
    (r : AnalysisRecord) (b : ℚ) (hb : r.bpm = some b) :
    (apply_bpm_scaler rules short r).bpm = some b ∨
      ((apply_bpm_scaler rules short r).bpm = some (calibrate_value rules.bpm b).1 ∧
        (calibrate_value rules.bpm b).2 = true ∧
        ¬ (10 : ℚ) < |(calibrate_value rules.bpm b).1 - b|) := by
  unfold apply_bpm_scaler
  rcases short with _ | _
  · simp only [Bool.false_eq_true, false_and, if_false, hb]
    by_cases h2 : (calibrate_value rules.bpm b).2 = true
    · by_cases h3 : (10 : ℚ) < |(calibrate_value rules.bpm b).1 - b|
      · rw [if_pos ⟨h2, h3⟩]
        exact Or.inl hb
      · rw [if_neg (fun hc => h3 hc.2), if_pos h2]
        exact Or.inr ⟨rfl, h2, h3⟩
    · rw [if_neg (fun hc => h2 hc.1), if_neg h2]
      exact Or.inl hb
  · simp only [if_true]
    exact Or.inl hb

/-- C1: for every analysis result carrying a numeric raw BPM, the linear
scaler layer (`apply_calibration_layer`) either leaves the `bpm` field
unchanged or changes it by at most 10 BPM, and a scaling correction whose
absolute change would exceed 10 BPM is rejected, leaving the raw BPM
uncalibrated. -/
theorem bpm_scaler_cap (rules : ScalerRules) (r : AnalysisRecord) (b : ℚ)
    (hb : r.bpm = some b) :
    ((apply_calibration_layer rules r).bpm = some b ∨
      ∃ c, (apply_calibration_layer rules r).bpm = some c ∧ |c - b| ≤ 10) ∧
    (∀ c, calibrate_value rules.bpm b = (c, true) → 10 < |c - b| →
      (apply_calibration_layer rules r).bpm = some b) := by
  unfold apply_calibration_layer
  by_cases hne : (¬ rules.nonempty = true)
  · rw [if_pos hne]
    exact ⟨Or.inl hb, fun c _ _ => hb⟩
  · rw [if_neg hne]
    simp only [apply_rest_scalers_bpm]
    rcases apply_bpm_scaler_bpm_cases rules
        (decide (r.signal_duration < SHORT_CLIP_THRESHOLD)) r b hb with h | ⟨heq, hc2, hle⟩
    · exact ⟨Or.inl h, fun c _ _ => h⟩
    · constructor
      · exact Or.inr ⟨_, heq, not_lt.mp hle⟩
      · intro c hcal habs
        have hc : c = (calibrate_value rules.bpm b).1 := by rw [hcal]
        exact absurd (hc ▸ habs) hle

/-- C1 witness: a scaler moving 120 BPM to 126 BPM (change 6 ≤ 10) on a
full-length record. -/
theorem bpm_scaler_cap_witness :
    ({ bpm := some 120, danceability := none, energy := none, acousticness := none,
       valence := none, loudness := none, bpm_confidence := 0.5, signal_duration := 200,
       bpm_calibration_applied := none, key := none, key_confidence := 0,
       key_scores := none, calibrated_votes := none } : AnalysisRecord).bpm = some 120 ∧
    ((apply_calibration_layer
        ⟨some ⟨some 1.05, some 0, none, none⟩, none, none, none, none, none⟩
        { bpm := some 120, danceability := none, energy := none, acousticness := none,
          valence := none, loudness := none, bpm_confidence := 0.5, signal_duration := 200,
          bpm_calibration_applied := none, key := none, key_confidence := 0,
          key_scores := none, calibrated_votes := none }).bpm = some 120 ∨
      ∃ c, (apply_calibration_layer
        ⟨some ⟨some 1.05, some 0, none, none⟩, none, none, none, none, none⟩
        { bpm := some 120, danceability := none, energy := none, acousticness := none,
          valence := none, loudness := none, bpm_confidence := 0.5, signal_duration := 200,
          bpm_calibration_applied := none, key := none, key_confidence := 0,
          key_scores := none, calibrated_votes := none }).bpm = some c ∧ |c - 120| ≤ 10) :=
  ⟨rfl, (bpm_scaler_cap _ _ 120 rfl).1⟩

/-- C7 counterexample: with loaded scaler rules, a full-length record (200 s)
whose raw BPM 145 lies inside the 138-152 sweet spot is still calibrated
(to 150): the sweet-spot skip sits inside the short-clip branch of
`apply_calibration_layer` and never fires for non-short clips, so the
claimed unconditional sweet-spot skip is false. -/
theorem sweet_spot_not_skipped_cex :
    (138 : ℚ) ≤ 145 ∧ (145 : ℚ) ≤ 152 ∧
    (apply_calibration_layer
      ⟨some ⟨some 1, some 5, none, none⟩, none, none, none, none, none⟩
      { bpm := some 145, danceability := none, energy := none, acousticness := none,
        valence := none, loudness := none, bpm_confidence := 0.9, signal_duration := 200,
        bpm_calibration_applied := none, key := none, key_confidence := 0,
        key_scores := none, calibrated_votes := none }).bpm = some 150 := by
  refine ⟨by norm_num, by norm_num, ?_⟩
  norm_num [apply_calibration_layer, apply_bpm_scaler, apply_rest_scalers,
    apply_scaler_field, calibrate_value, ScalerRules.nonempty, SHORT_CLIP_THRESHOLD]

/-- C7 (amended): the BPM linear-scaler correction is skipped entirely,
leaving `bpm` unchanged, whenever the clip is short
(`signal_duration < SHORT_CLIP_THRESHOLD`); the sweet-spot condition is
nested inside the short-clip branch and therefore never applies on its
own to full-length clips. -/
theorem bpm_scaler_short_clip_skip (rules : ScalerRules) (r : AnalysisRecord)
    (h : r.signal_duration < SHORT_CLIP_THRESHOLD) :
    (apply_calibration_layer rules r).bpm = r.bpm := by
  unfold apply_calibration_layer
  by_cases hne : (¬ rules.nonempty = true)
  · rw [if_pos hne]
  · rw [if_neg hne]
    simp only [apply_rest_scalers_bpm]
    unfold apply_bpm_scaler
    rw [if_pos (by simpa using h)]

/-- C7 witness: a 10-second clip with a loaded BPM scaler keeps its raw BPM. -/
theorem bpm_scaler_short_clip_skip_witness :
    ((10 : ℚ) < SHORT_CLIP_THRESHOLD) ∧
    (apply_calibration_layer
      ⟨some ⟨some 2, some 0, none, none⟩, none, none, none, none, none⟩
      { bpm := some 100, danceability := none, energy := none, acousticness := none,
        valence := none, loudness := none, bpm_confidence := 0.5, signal_duration := 10,
        bpm_calibration_applied := none, key := none, key_confidence := 0,
        key_scores := none, calibrated_votes := none }).bpm = some 100 :=
  ⟨by norm_num [SHORT_CLIP_THRESHOLD],
   bpm_scaler_short_clip_skip _ _ (by norm_num [SHORT_CLIP_THRESHOLD])⟩

theorem apply_key_calibration_short (rules : KeyCalibRules) (meta : KeyCalibMeta)
    (r : AnalysisRecord) (h0 : 0 < r.signal_duration)
    (h45 : r.signal_duration < SHORT_CLIP_THRESHOLD) :
    apply_key_calibration rules meta r = r := by
  unfold apply_key_calibration
  by_cases hr : rules = []
  · rw [if_pos hr]
  · rw [if_neg hr, if_pos ⟨h0, h45⟩]

theorem apply_bpm_calibration_short (rules : List BpmRule) (r : AnalysisRecord)
    (h45 : r.signal_duration < SHORT_CLIP_THRESHOLD) :
    apply_bpm_calibration rules r = r := by
  unfold apply_bpm_calibration
  by_cases hr : rules = []
  · rw [if_pos hr]
  · rw [if_neg hr, if_pos h45]

/-- C10: for every analysis result with positive signal duration below the
45-second short-clip threshold, both the key confusion remap
(`apply_key_calibration`) and the BPM rule engine (`apply_bpm_calibration`)
return the result completely unchanged, whatever rule sets are loaded. -/
theorem short_clip_calibration_frame (krules : KeyCalibRules) (meta : KeyCalibMeta)
    (brules : List BpmRule) (r : AnalysisRecord) (h0 : 0 < r.signal_duration)
    (h45 : r.signal_duration < SHORT_CLIP_THRESHOLD) :
    apply_key_calibration krules meta r = r ∧ apply_bpm_calibration brules r = r :=
  ⟨apply_key_calibration_short krules meta r h0 h45,
   apply_bpm_calibration_short brules r h45⟩

/-- C10 witness: a 10-second record with a loaded confusion row and a loaded,
otherwise-matching BPM rule is returned unchanged by both engines. -/
theorem short_clip_calibration_frame_witness :
    ((0 : ℚ) < 10 ∧ (10 : ℚ) < SHORT_CLIP_THRESHOLD) ∧
    (apply_key_calibration
        [(⟨0, Mode.major⟩, ⟨[⟨⟨7, Mode.major⟩, 1⟩]⟩)] ⟨none, 0⟩
        { bpm := some 100, danceability := none, energy := some 0.5, acousticness := none,
          valence := none, loudness := none, bpm_confidence := 0.9, signal_duration := 10,
          bpm_calibration_applied := none, key := some ⟨0, Mode.major⟩, key_confidence := 0.8,
          key_scores := none, calibrated_votes := none } =
      { bpm := some 100, danceability := none, energy := some 0.5, acousticness := none,
        valence := none, loudness := none, bpm_confidence := 0.9, signal_duration := 10,
        bpm_calibration_applied := none, key := some ⟨0, Mode.major⟩, key_confidence := 0.8,
        key_scores := none, calibrated_votes := none } ∧
      apply_bpm_calibration
        [⟨some "halve", 10, true, ⟨some (80, 160), none, none, none⟩, ⟨"multiply", some 0.5⟩⟩]
        { bpm := some 100, danceability := none, energy := some 0.5, acousticness := none,
          valence := none, loudness := none, bpm_confidence := 0.9, signal_duration := 10,
          bpm_calibration_applied := none, key := some ⟨0, Mode.major⟩, key_confidence := 0.8,
          key_scores := none, calibrated_votes := none } =
      { bpm := some 100, danceability := none, energy := some 0.5, acousticness := none,
        valence := none, loudness := none, bpm_confidence := 0.9, signal_duration := 10,
        bpm_calibration_applied := none, key := some ⟨0, Mode.major⟩, key_confidence := 0.8,
        key_scores := none, calibrated_votes := none }) :=
  ⟨⟨by norm_num, by norm_num [SHORT_CLIP_THRESHOLD]⟩,
   short_clip_calibration_frame _ _ _ _ (by norm_num)
     (by norm_num [SHORT_CLIP_THRESHOLD])⟩

theorem mem_insert_by_priority {z x : BpmRule} {l : List BpmRule} :
    z ∈ insert_by_priority x l ↔ z = x ∨ z ∈ l := by
  induction l with
  | nil => simp [insert_by_priority]
  | cons y ys ih =>
    unfold insert_by_priority
    split_ifs with h
    · simp
    · simp only [List.mem_cons, ih]
      tauto

theorem insert_by_priority_sorted {x : BpmRule} {l : List BpmRule}
    (h : l.Sorted (fun a b => b.priority ≤ a.priority)) :
    (insert_by_priority x l).Sorted (fun a b => b.priority ≤ a.priority) := by
  induction l with
  | nil => simp [insert_by_priority]
  | cons y ys ih =>
    rw [List.sorted_cons] at h
    unfold insert_by_priority
    split_ifs with hlt
    · rw [List.sorted_cons]
      refine ⟨?_, List.sorted_cons.mpr h⟩
      intro z hz
      rcases List.mem_cons.mp hz with hz | hz
      · exact hz ▸ le_of_lt hlt
      · exact le_trans (h.1 z hz) (le_of_lt hlt)
    · rw [List.sorted_cons]
      refine ⟨?_, ih h.2⟩
      intro z hz
      rcases mem_insert_by_priority.mp hz with hz | hz
      · exact hz ▸ not_lt.mp hlt
      · exact h.1 z hz

theorem load_bpm_rules_foldl_sorted (xs : List BpmRule) (acc : List BpmRule)
    (hacc : acc.Sorted (fun a b => b.priority ≤ a.priority)) :
    (xs.foldl (fun acc x => insert_by_priority x acc) acc).Sorted
      (fun a b => b.priority ≤ a.priority) := by
  induction xs generalizing acc with
  | nil => exact hacc
  | cons x xs ih => exact ih _ (insert_by_priority_sorted hacc)

theorem load_bpm_rules_foldl_mem {z : BpmRule} (xs : List BpmRule) (acc : List BpmRule)
    (hz : z ∈ xs.foldl (fun acc x => insert_by_priority x acc) acc) :
    z ∈ xs ∨ z ∈ acc := by
  induction xs generalizing acc with
  | nil => exact Or.inr hz
  | cons x xs ih =>
    rcases ih _ hz with h | h
    · exact Or.inl (List.mem_cons_of_mem x h)
    · rcases mem_insert_by_priority.mp h with h | h
      · exact Or.inl (h ▸ List.mem_cons_self x xs)
      · exact Or.inr h

theorem load_bpm_rules_sorted (raw : List BpmRule) :
    (load_bpm_rules raw).Sorted (fun a b => b.priority ≤ a.priority) :=
  load_bpm_rules_foldl_sorted _ _ (by simp)

theorem load_bpm_rules_enabled (raw : List BpmRule) :
    ∀ ru ∈ load_bpm_rules raw, ru.enabled = true := by
  intro ru hru
  rcases load_bpm_rules_foldl_mem _ _ hru with h | h
  · exact (List.mem_filter.mp h).2
  · simp at h

theorem bpm_rules_go_spec (bpm energy conf dur : ℚ) (r : AnalysisRecord)
    (rules : List BpmRule) :
    bpm_rules_go bpm energy conf dur r rules = r ∨
    ∃ pre rule post, rules = pre ++ rule :: post ∧
      bpm_rule_matches bpm energy conf dur rule = true ∧
      rule.action.kind = "multiply" ∧
      (∀ ru ∈ pre, ¬ (bpm_rule_matches bpm energy conf dur ru = true ∧
        ru.action.kind = "multiply")) ∧
      bpm_rules_go bpm energy conf dur r rules =
        { r with bpm := some (bpm * (rule.action.factor.getD 1)),
                 bpm_calibration_applied := rule.name } := by
  induction rules with
  | nil => exact Or.inl rfl
  | cons rule rest ih =>
    by_cases hm : bpm_rule_matches bpm energy conf dur rule = true
    · by_cases hk : rule.action.kind = "multiply"
      · refine Or.inr ⟨[], rule, rest, by simp, hm, hk, by simp, ?_⟩
        unfold bpm_rules_go
        rw [if_pos hm, if_pos hk]
      · have hstep : bpm_rules_go bpm energy conf dur r (rule :: rest) =
            bpm_rules_go bpm energy conf dur r rest := by
          unfold bpm_rules_go
          rw [if_pos hm, if_neg hk]
          cases rest <;> rfl
        rcases ih with h | ⟨pre, ru, post, heq, h1, h2, h3, h4⟩
        · exact Or.inl (hstep ▸ h)
        · refine Or.inr ⟨rule :: pre, ru, post, by simp [heq], h1, h2, ?_, hstep ▸ h4⟩
          intro x hx
          rcases List.mem_cons.mp hx with hx | hx
          · exact hx ▸ fun hc => hk hc.2
          · exact h3 x hx
    · have hstep : bpm_rules_go bpm energy conf dur r (rule :: rest) =
          bpm_rules_go bpm energy conf dur r rest := by
        unfold bpm_rules_go
        rw [if_neg hm]
        cases rest <;> rfl
      rcases ih with h | ⟨pre, ru, post, heq, h1, h2, h3, h4⟩
      · exact Or.inl (hstep ▸ h)
      · refine Or.inr ⟨rule :: pre, ru, post, by simp [heq], h1, h2, ?_, hstep ▸ h4⟩
        intro x hx
        rcases List.mem_cons.mp hx with hx | hx
        · exact hx ▸ fun hc => hm hc.1
        · exact h3 x hx

/-- C5 (amended): the loaded BPM rule list keeps only enabled rules sorted
in descending priority order, and `apply_bpm_calibration` either leaves
the result unchanged or fires exactly the first rule (in that order)
whose truthy-listed conditions all hold and whose action is `multiply`
(conditions with falsy values - absent range, zero duration ceiling, zero
confidence floor - are treated as unconstrained by the engine); the fired
rule multiplies the BPM by its factor and records the rule name, and no
later rule is applied. -/
theorem bpm_rule_engine_spec (raw : List BpmRule) (r : AnalysisRecord) :
    (load_bpm_rules raw).Sorted (fun a b => b.priority ≤ a.priority) ∧
    (∀ ru ∈ load_bpm_rules raw, ru.enabled = true) ∧
    (apply_bpm_calibration (load_bpm_rules raw) r = r ∨
      ∃ bpm energy pre rule post, r.bpm = some bpm ∧ r.energy = some energy ∧
        load_bpm_rules raw = pre ++ rule :: post ∧
        bpm_rule_matches bpm energy r.bpm_confidence r.signal_duration rule = true ∧
        rule.action.kind = "multiply" ∧
        (∀ ru ∈ pre, ¬ (bpm_rule_matches bpm energy r.bpm_confidence r.signal_duration ru = true ∧
          ru.action.kind = "multiply")) ∧
        apply_bpm_calibration (load_bpm_rules raw) r =
          { r with bpm := some (bpm * (rule.action.factor.getD 1)),
                   bpm_calibration_applied := rule.name }) := by
  refine ⟨load_bpm_rules_sorted raw, load_bpm_rules_enabled raw, ?_⟩
  unfold apply_bpm_calibration
  by_cases h0 : load_bpm_rules raw = []
  · rw [if_pos h0]
    exact Or.inl rfl
  · rw [if_neg h0]
    by_cases h45 : r.signal_duration < SHORT_CLIP_THRESHOLD
    · rw [if_pos h45]
      exact Or.inl rfl
    · rw [if_neg h45]
      rcases hbpm : r.bpm with _ | bpm
      · exact Or.inl rfl
      · rcases henergy : r.energy with _ | energy
        · exact Or.inl rfl
        · rcases bpm_rules_go_spec bpm energy r.bpm_confidence r.signal_duration r
              (load_bpm_rules raw) with h | ⟨pre, rule, post, heq, h1, h2, h3, h4⟩
          · exact Or.inl h
          · rw [henergy] at h4
            exact Or.inr ⟨bpm, energy, pre, rule, post, rfl, rfl, heq, h1, h2, h3, h4⟩

/-- C5 counterexample: a rule listing the condition `duration_max: 0` fires
on a 100-second clip and halves the BPM even though the listed duration
ceiling (100 ≤ 0) does not hold - Python treats the falsy value 0 as an
absent condition - so a rule can fire without all of its listed
conditions holding. -/
theorem bpm_rule_falsy_condition_cex :
    (apply_bpm_calibration
        (load_bpm_rules
          [⟨some "degenerate", 5, true, ⟨none, none, some 0, none⟩, ⟨"multiply", some 0.5⟩⟩])
        { bpm := some 100, danceability := none, energy := some 0.5, acousticness := none,
          valence := none, loudness := none, bpm_confidence := 0.9, signal_duration := 100,
          bpm_calibration_applied := none, key := none, key_confidence := 0,
          key_scores := none, calibrated_votes := none }).bpm = some 50 ∧
    ¬ ((100 : ℚ) ≤ 0) := by
  constructor
  · norm_num [apply_bpm_calibration, load_bpm_rules, insert_by_priority, bpm_rules_go,
      bpm_rule_matches, SHORT_CLIP_THRESHOLD]
  · norm_num

theorem add_vote_head_eq (k : CKey) (w0 w : ℚ) (l : List (CKey × ℚ)) :
    add_vote ((k, w0) :: l) k w = (k, w0 + w) :: l := by
  simp [add_vote]

theorem add_vote_head_ne {k k0 : CKey} (hne : k0 ≠ k) (w0 w : ℚ) (l : List (CKey × ℚ)) :
    add_vote ((k0, w0) :: l) k w = (k0, w0) :: add_vote l k w := by
  simp [add_vote, hne]

theorem add_vote_not_mem {k : CKey} {l : List (CKey × ℚ)}
    (h : k ∉ l.map Prod.fst) (w : ℚ) : add_vote l k w = l ++ [(k, w)] := by
  induction l with
  | nil => simp [add_vote]
  | cons p rest ih =>
    rcases p with ⟨k0, w0⟩
    simp only [List.map_cons, List.mem_cons] at h
    push_neg at h
    rw [add_vote_head_ne (fun hc => h.1 hc.symm) w0 w rest, ih h.2]
    simp

theorem pick_max_first_mem (l : List (CKey × ℚ)) :
    ∀ p, pick_max_first l = some p → p ∈ l := by
  induction l with
  | nil =>
    intro p h
    simp [pick_max_first] at h
  | cons q rest ih =>
    intro p h
    rcases q with ⟨k, v⟩
    rcases heq : pick_max_first rest with _ | ⟨k2, v2⟩
    · have hred : pick_max_first ((k, v) :: rest) = some (k, v) := by
        unfold pick_max_first
        rw [heq]
      rw [hred] at h
      injection h with h2
      simp [h2.symm]
    · have hred : pick_max_first ((k, v) :: rest) =
          if v < v2 then some (k2, v2) else some (k, v) := by
        unfold pick_max_first
        rw [heq]
      rw [hred] at h
      by_cases hlt : v < v2
      · rw [if_pos hlt] at h
        injection h with h2
        exact List.mem_cons_of_mem _ (h2 ▸ ih (k2, v2) heq)
      · rw [if_neg hlt] at h
        injection h with h2
        simp [h2.symm]

theorem pick_max_first_head {k : CKey} {v : ℚ} {rest : List (CKey × ℚ)}
    (h : ∀ p ∈ rest, p.2 ≤ v) : pick_max_first ((k, v) :: rest) = some (k, v) := by
  rcases heq : pick_max_first rest with _ | ⟨k2, v2⟩
  · unfold pick_max_first
    rw [heq]
  · have hred : pick_max_first ((k, v) :: rest) =
        if v < v2 then some (k2, v2) else some (k, v) := by
      unfold pick_max_first
      rw [heq]
    rw [hred, if_neg (not_lt.mpr (h (k2, v2) (pick_max_first_mem rest (k2, v2) heq)))]

theorem key_vote_fold_head (cid : CKey) (s P : ℚ) (hs : 0 < s) :
    ∀ (rem : List KeyTarget) (w : ℚ) (others : List (CKey × ℚ))
      (dbg : List KeyVoteDebug) (tp : ℚ),
      (∀ t ∈ rem, t.probability ≤ P) →
      (rem.map KeyTarget.canonical).Nodup →
      (∀ t ∈ rem, t.canonical ≠ cid) →
      (∀ t ∈ rem, t.canonical ∉ others.map Prod.fst) →
      (∀ p ∈ others, p.2 ≤ s * P) →
      ∃ others2 dbg2 tp2,
        rem.foldl (key_vote_target_step cid s) (⟨(cid, w) :: others, dbg⟩, tp) =
          (⟨(cid, w) :: others2, dbg2⟩, tp2) ∧
        (∀ p ∈ others2, p.2 ≤ s * P) := by
  intro rem
  induction rem with
  | nil =>
    intro w others dbg tp _ _ _ _ hothers
    exact ⟨others, dbg, tp, rfl, hothers⟩
  | cons t ts ih =>
    intro w others dbg tp hle hnd hnc hno hothers
    by_cases hp : t.probability ≤ 0
    · have hstep : key_vote_target_step cid s ((⟨(cid, w) :: others, dbg⟩ : KeyVoteState), tp) t =
          ((⟨(cid, w) :: others, dbg⟩ : KeyVoteState), tp) := by
        simp [key_vote_target_step, hp]
      rw [List.foldl_cons, hstep]
      exact ih w others dbg tp (fun x hx => hle x (List.mem_cons_of_mem _ hx))
        (List.nodup_cons.mp (by simpa using hnd)).2
        (fun x hx => hnc x (List.mem_cons_of_mem _ hx))
        (fun x hx => hno x (List.mem_cons_of_mem _ hx)) hothers
    · have hcne : cid ≠ t.canonical := (hnc t (List.mem_cons_self t ts)).symm
      have hstep : key_vote_target_step cid s ((⟨(cid, w) :: others, dbg⟩ : KeyVoteState), tp) t =
          ((⟨(cid, w) :: (others ++ [(t.canonical, s * t.probability)]),
            dbg ++ [⟨cid, t.canonical, s * t.probability, t.probability⟩]⟩ : KeyVoteState),
           tp + t.probability) := by
        unfold key_vote_target_step
        rw [if_neg hp]
        dsimp only
        rw [add_vote_head_ne hcne, add_vote_not_mem (hno t (List.mem_cons_self t ts))]
      rw [List.foldl_cons, hstep]
      have hndts : (ts.map KeyTarget.canonical).Nodup :=
        (List.nodup_cons.mp (by simpa using hnd)).2
      have htnotin : t.canonical ∉ ts.map KeyTarget.canonical :=
        (List.nodup_cons.mp (by simpa using hnd)).1
      refine ih w (others ++ [(t.canonical, s * t.probability)]) _ _
        (fun x hx => hle x (List.mem_cons_of_mem _ hx)) hndts
        (fun x hx => hnc x (List.mem_cons_of_mem _ hx)) ?_ ?_
      · intro x hx
        rw [List.map_append, List.mem_append]
        rintro (hmem | hmem)
        · exact hno x (List.mem_cons_of_mem _ hx) hmem
        · simp only [List.map_cons, List.map_nil, List.mem_singleton] at hmem
          exact htnotin (hmem ▸ List.mem_map_of_mem KeyTarget.canonical hx)
      · intro p hp2
        rcases List.mem_append.mp hp2 with hmem | hmem
        · exact hothers p hmem
        · simp only [List.mem_singleton] at hmem
          rw [hmem]
          exact mul_le_mul_of_nonneg_left (hle t (List.mem_cons_self t ts)) (le_of_lt hs)

/-- C4 (amended): for an analysis result of at least short-clip duration
whose key details carry no per-candidate score list (so the current key is
the sole candidate), if the key's confusion-map row lists the key itself
first, with positive probability at least every other target's probability
and at least the un-redistributed residual, and the row's targets name
pairwise-distinct keys, then `apply_key_calibration` leaves the key
unchanged. -/
theorem confusion_roundtrip_single_candidate (rules : KeyCalibRules) (meta : KeyCalibMeta)
    (r : AnalysisRecord) (k : CKey) (entry : KeyCalibEntry) (t0 : KeyTarget)
    (ts : List KeyTarget)
    (hdur : SHORT_CLIP_THRESHOLD ≤ r.signal_duration)
    (hkey : r.key = some k)
    (hroot0 : 0 ≤ k.root) (hroot12 : k.root < 12)
    (hscores : r.key_scores = none)
    (hlook : key_rules_lookup rules k = some entry)
    (htargets : entry.targets = t0 :: ts)
    (ht0 : t0.canonical = k)
    (hp0 : 0 < t0.probability)
    (htop : ∀ t ∈ entry.targets, t.probability ≤ t0.probability)
    (_hres : confusion_row_residual entry.targets ≤ t0.probability)
    (hnd : (entry.targets.map KeyTarget.canonical).Nodup) :
    (apply_key_calibration rules meta r).key = some k := by
  by_cases hrules : rules = []
  · unfold apply_key_calibration
    rw [if_pos hrules]
    exact hkey
  · have hdur2 : ¬ (0 < r.signal_duration ∧ r.signal_duration < SHORT_CLIP_THRESHOLD) :=
      fun hc => absurd hc.2 (not_lt.mpr hdur)
    have hcand : key_calibration_candidates r =
        [(k.root, k.mode, if clamp_to_unit r.key_confidence = 0 then (0.25 : ℚ)
          else clamp_to_unit r.key_confidence)] := by
      unfold key_calibration_candidates
      rw [hscores, hkey]
    set s := (if clamp_to_unit r.key_confidence = 0 then (0.25 : ℚ)
      else clamp_to_unit r.key_confidence) with hs_def
    have hs : 0 < s := by
      rw [hs_def]
      split_ifs with h0
      · norm_num
      · exact lt_of_le_of_ne (clamp_to_unit_nonneg _) (Ne.symm h0)
    have hts_le : ∀ t ∈ ts, t.probability ≤ t0.probability :=
      fun t ht => htop t (htargets ▸ List.mem_cons_of_mem t0 ht)
    have hnd2 : ((t0 :: ts).map KeyTarget.canonical).Nodup := htargets ▸ hnd
    have hts_nd : (ts.map KeyTarget.canonical).Nodup :=
      (List.nodup_cons.mp (by simpa using hnd2)).2
    have hts_nc : ∀ t ∈ ts, t.canonical ≠ k := by
      intro t ht hc
      exact (List.nodup_cons.mp (by simpa using hnd2)).1
        (ht0 ▸ hc ▸ List.mem_map_of_mem KeyTarget.canonical ht)
    have hfold := key_vote_fold_head k s t0.probability hs ts (s * t0.probability) []
      [⟨k, k, s * t0.probability, t0.probability⟩]
      (0 + t0.probability) hts_le hts_nd hts_nc (by simp) (by simp)
    rcases hfold with ⟨others2, dbg2, tp2, hfold_eq, hothers2⟩
    have hstep0 : key_vote_target_step k s ((⟨[], []⟩ : KeyVoteState), 0) t0 =
        ((⟨[(k, s * t0.probability)],
          [⟨k, k, s * t0.probability, t0.probability⟩]⟩ : KeyVoteState),
         0 + t0.probability) := by
      unfold key_vote_target_step
      rw [if_neg (not_le.mpr hp0)]
      dsimp only
      rw [ht0]
      rfl
    have hvc : key_vote_candidate rules (⟨[], []⟩ : KeyVoteState) (k.root, k.mode, s) =
        (if 0 < max 0 (1 - tp2) then
          (⟨add_vote ((k, s * t0.probability) :: others2) k (s * (max 0 (1 - tp2))),
            dbg2 ++ [⟨k, k, s * (max 0 (1 - tp2)), max 0 (1 - tp2)⟩]⟩ : KeyVoteState)
        else (⟨(k, s * t0.probability) :: others2, dbg2⟩ : KeyVoteState)) := by
      unfold key_vote_candidate
      rw [if_neg (not_le.mpr hs)]
      dsimp only
      have hcid : (⟨k.root, k.mode⟩ : CKey) = k := rfl
      rw [hcid, hlook]
      simp only [Option.map_some', Option.getD_some]
      rw [htargets, List.foldl_cons, hstep0, hfold_eq]
    have hhead : ∃ w, (key_vote_candidate rules (⟨[], []⟩ : KeyVoteState)
        (k.root, k.mode, s)).votes = (k, w) :: others2 ∧
        ∀ p ∈ others2, p.2 ≤ w := by
      rw [hvc]
      split_ifs with hresid
      · refine ⟨s * t0.probability + s * (max 0 (1 - tp2)), ?_, ?_⟩
        · rw [add_vote_head_eq]
        · intro p hp
          have h1 : (0 : ℚ) ≤ s * (max 0 (1 - tp2)) :=
            mul_nonneg (le_of_lt hs) (le_max_left 0 _)
          exact le_trans (hothers2 p hp) (by linarith)
      · exact ⟨s * t0.probability, rfl, hothers2⟩
    rcases hhead with ⟨w, hw_eq, hw_ge⟩
    unfold apply_key_calibration
    rw [if_neg hrules, if_neg hdur2]
    dsimp only
    rw [hcand, List.foldl_cons, List.foldl_nil, hw_eq,
      pick_max_first_head (fun p hp => hw_ge p hp)]
    dsimp only
    have hlabel : label_for_canonical k = k := by
      unfold label_for_canonical
      rw [Int.emod_eq_of_lt hroot0 hroot12]
    rw [hlabel]

/-- C4 witness: a 100-second record in C major whose confusion row sends C
major to itself with probability 1 keeps its key. -/
theorem confusion_roundtrip_single_candidate_witness :
    (SHORT_CLIP_THRESHOLD ≤ (100 : ℚ) ∧ (0 : ℚ) < 1 ∧
      confusion_row_residual [⟨⟨0, Mode.major⟩, 1⟩] ≤ 1) ∧
    (apply_key_calibration
        [(⟨0, Mode.major⟩, ⟨[⟨⟨0, Mode.major⟩, 1⟩]⟩)] ⟨none, 0⟩
        { bpm := some 120, danceability := none, energy := some 0.5, acousticness := none,
          valence := none, loudness := none, bpm_confidence := 0.9, signal_duration := 100,
          bpm_calibration_applied := none, key := some ⟨0, Mode.major⟩, key_confidence := 0.8,
          key_scores := none, calibrated_votes := none }).key = some ⟨0, Mode.major⟩ :=
  ⟨⟨by norm_num [SHORT_CLIP_THRESHOLD], by norm_num,
    by norm_num [confusion_row_residual]⟩,
   confusion_roundtrip_single_candidate _ _ _ _ ⟨[⟨⟨0, Mode.major⟩, 1⟩]⟩ ⟨⟨0, Mode.major⟩, 1⟩ []
     (by norm_num [SHORT_CLIP_THRESHOLD]) rfl (by norm_num) (by norm_num) rfl rfl rfl rfl
     (by norm_num)
     (by intro t ht
         simp only [List.mem_singleton] at ht
         rw [ht])
     (by norm_num [confusion_row_residual])
     (by simp)⟩

/-- C4 counterexample: a 100-second record whose raw key C major has the
confusion row sending C major to itself with probability 1 (top target is
itself, probability 1 at least the residual 0), but whose per-candidate
score list also carries a stronger G major candidate (score 0.9 versus
0.5) with its own identity row: the final key flips to G major, so the
claimed round trip fails for results with multiple key candidates. -/
theorem confusion_roundtrip_cex :
    (apply_key_calibration
        [(⟨0, Mode.major⟩, ⟨[⟨⟨0, Mode.major⟩, 1⟩]⟩),
         (⟨7, Mode.major⟩, ⟨[⟨⟨7, Mode.major⟩, 1⟩]⟩)] ⟨none, 0⟩
        { bpm := some 120, danceability := none, energy := some 0.5, acousticness := none,
          valence := none, loudness := none, bpm_confidence := 0.9, signal_duration := 100,
          bpm_calibration_applied := none, key := some ⟨0, Mode.major⟩, key_confidence := 0.8,
          key_scores := some [⟨0, Mode.major, 0.5⟩, ⟨7, Mode.major, 0.9⟩],
          calibrated_votes := none }).key = some ⟨7, Mode.major⟩ := by
  norm_num [apply_key_calibration, key_calibration_candidates, key_vote_candidate,
    key_vote_target_step, key_rules_lookup, add_vote, pick_max_first, label_for_canonical,
    clamp_to_unit, canonical_from_candidate, SHORT_CLIP_THRESHOLD, max_def, min_def,
    List.filterMap_cons, List.foldl_cons, List.foldl_nil, Option.map_some', Option.getD_some]
  rfl

theorem mem_keys_alias_map_add {x key bpm : ℚ} {src : AliasSource}
    {m : List (ℚ × AliasCandidate)} :
    x ∈ (alias_map_add m key bpm src).map Prod.fst ↔ x = key ∨ x ∈ m.map Prod.fst := by
  induction m with
  | nil => simp [alias_map_add]
  | cons p rest ih =>
    rcases p with ⟨k0, e⟩
    unfold alias_map_add
    split_ifs with h
    · subst h
      simp
    · simp only [List.map_cons, List.mem_cons, ih]
      tauto

theorem alias_map_add_inv {m : List (ℚ × AliasCandidate)} {bpm : ℚ} {src : AliasSource}
    (hm : ∀ p ∈ m, (20 ≤ p.2.bpm ∧ p.2.bpm ≤ 280) ∧ p.1 = round_to 3 p.2.bpm)
    (hmk : (m.map Prod.fst).Nodup) (h20 : 20 ≤ bpm) (h280 : bpm ≤ 280) :
    (∀ p ∈ alias_map_add m (round_to 3 bpm) bpm src,
      (20 ≤ p.2.bpm ∧ p.2.bpm ≤ 280) ∧ p.1 = round_to 3 p.2.bpm) ∧
    ((alias_map_add m (round_to 3 bpm) bpm src).map Prod.fst).Nodup := by
  induction m with
  | nil =>
    constructor
    · intro p hp
      simp only [alias_map_add, List.mem_singleton] at hp
      subst hp
      exact ⟨⟨h20, h280⟩, rfl⟩
    · simp [alias_map_add]
  | cons q rest ih =>
    rcases q with ⟨k0, e⟩
    have hq := hm (k0, e) (List.mem_cons_self _ _)
    have hrest : ∀ p ∈ rest, (20 ≤ p.2.bpm ∧ p.2.bpm ≤ 280) ∧ p.1 = round_to 3 p.2.bpm :=
      fun p hp => hm p (List.mem_cons_of_mem _ hp)
    have hk0 : k0 ∉ rest.map Prod.fst := (List.nodup_cons.mp (by simpa using hmk)).1
    have hrestk : (rest.map Prod.fst).Nodup := (List.nodup_cons.mp (by simpa using hmk)).2
    unfold alias_map_add
    split_ifs with h
    · constructor
      · intro p hp
        rcases List.mem_cons.mp hp with hp | hp
        · subst hp
          exact ⟨hq.1, hq.2⟩
        · exact hrest p hp
      · simpa using hmk
    · rcases ih hrest hrestk with ⟨ih1, ih2⟩
      constructor
      · intro p hp
        rcases List.mem_cons.mp hp with hp | hp
        · subst hp
          exact hq
        · exact ih1 p hp
      · rw [List.map_cons, List.nodup_cons]
        refine ⟨?_, ih2⟩
        rw [mem_keys_alias_map_add]
        rintro (hc | hc)
        · exact h hc
        · exact hk0 hc

theorem build_step_inv (det : String × ℚ) {m : List (ℚ × AliasCandidate)}
    (hm : ∀ p ∈ m, (20 ≤ p.2.bpm ∧ p.2.bpm ≤ 280) ∧ p.1 = round_to 3 p.2.bpm)
    (hmk : (m.map Prod.fst).Nodup) :
    (∀ p ∈ build_tempo_detector_step m det,
      (20 ≤ p.2.bpm ∧ p.2.bpm ≤ 280) ∧ p.1 = round_to 3 p.2.bpm) ∧
    ((build_tempo_detector_step m det).map Prod.fst).Nodup := by
  unfold build_tempo_detector_step
  split_ifs with h
  · exact ⟨hm, hmk⟩
  · have hgen : ∀ (fs : List ℚ) (m0 : List (ℚ × AliasCandidate)),
        (∀ p ∈ m0, (20 ≤ p.2.bpm ∧ p.2.bpm ≤ 280) ∧ p.1 = round_to 3 p.2.bpm) →
        ((m0.map Prod.fst).Nodup) →
        (∀ p ∈ fs.foldl (build_tempo_factor_step det) m0,
          (20 ≤ p.2.bpm ∧ p.2.bpm ≤ 280) ∧ p.1 = round_to 3 p.2.bpm) ∧
        ((fs.foldl (build_tempo_factor_step det) m0).map Prod.fst).Nodup := by
      intro fs
      induction fs with
      | nil =>
        intro m0 h1 h2
        exact ⟨h1, h2⟩
      | cons f fs ihf =>
        intro m0 h1 h2
        rw [List.foldl_cons]
        by_cases hc : det.2 * f ≤ 0 ∨ det.2 * f < 20 ∨ det.2 * f > 280
        · rw [show build_tempo_factor_step det m0 f = m0 from by
            unfold build_tempo_factor_step
            rw [if_pos hc]]
          exact ihf m0 h1 h2
        · rw [show build_tempo_factor_step det m0 f =
              alias_map_add m0 (round_to 3 (det.2 * f)) (det.2 * f) ⟨det.1, f, det.2⟩ from by
            unfold build_tempo_factor_step
            rw [if_neg hc]]
          push_neg at hc
          rcases alias_map_add_inv h1 h2 hc.2.1 hc.2.2 with ⟨j1, j2⟩
          exact ihf _ j1 j2
    exact hgen ALIAS_FACTORS m hm hmk

theorem build_tempo_alias_candidates_inv (percussive_bpm onset_bpm : ℚ) :
    (∀ c ∈ build_tempo_alias_candidates percussive_bpm onset_bpm,
      20 ≤ c.bpm ∧ c.bpm ≤ 280) ∧
    ((build_tempo_alias_candidates percussive_bpm onset_bpm).map
      (fun c => round_to 3 c.bpm)).Nodup := by
  unfold build_tempo_alias_candidates
  rw [List.foldl_cons, List.foldl_cons, List.foldl_nil]
  rcases build_step_inv ("percussive", percussive_bpm)
      (m := []) (by simp) (by simp) with ⟨h1, h2⟩
  rcases build_step_inv ("onset", onset_bpm) h1 h2 with ⟨g1, g2⟩
  constructor
  · intro c hc
    rcases List.mem_map.mp hc with ⟨p, hp, hpc⟩
    exact hpc ▸ (g1 p hp).1
  · have hmapeq : ∀ (m : List (ℚ × AliasCandidate)),
        (∀ p ∈ m, (20 ≤ p.2.bpm ∧ p.2.bpm ≤ 280) ∧ p.1 = round_to 3 p.2.bpm) →
        (m.map Prod.snd).map (fun c => round_to 3 c.bpm) = m.map Prod.fst := by
      intro m hmp
      induction m with
      | nil => rfl
      | cons p rest ihm =>
        simp only [List.map_cons]
        rw [ihm (fun q hq => hmp q (List.mem_cons_of_mem _ hq)),
          (hmp p (List.mem_cons_self _ _)).2]
    rw [hmapeq _ g1]
    exact g2

/-- C2: every tempo alias candidate generated from the two raw detector
estimates with factors 0.5 / 1 / 2 has BPM in `[20, 280]`, the candidate
pool contains no duplicate BPM at 3-decimal precision, and the chosen
tempo's returned confidence (the final value computed by the tempo
decision chain) lies in `[0, 1]`. -/
theorem tempo_alias_candidate_invariants (percussive_bpm onset_bpm : ℚ)
    (expQ : ℚ → ℚ) (stdQ : List ℚ → ℚ) (inp : TempoInputs) :
    (∀ c ∈ build_tempo_alias_candidates percussive_bpm onset_bpm,
      20 ≤ c.bpm ∧ c.bpm ≤ 280) ∧
    ((build_tempo_alias_candidates percussive_bpm onset_bpm).map
      (fun c => round_to 3 c.bpm)).Nodup ∧
    (0 ≤ (analyze_tempo_decision expQ stdQ inp).2 ∧
      (analyze_tempo_decision expQ stdQ inp).2 ≤ 1) := by
  refine ⟨(build_tempo_alias_candidates_inv percussive_bpm onset_bpm).1,
    (build_tempo_alias_candidates_inv percussive_bpm onset_bpm).2, ?_⟩
  have h : ∃ x : ℚ, (analyze_tempo_decision expQ stdQ inp).2 = max 0 (min 1 x) := ⟨_, rfl⟩
  rcases h with ⟨x, hx⟩
  rw [hx]
  exact ⟨le_max_left 0 _, max_le (by norm_num) (min_le_left 1 x)⟩

theorem round_to_intCast (n : ℕ) (m : ℤ) : round_to n (m : ℚ) = m := by
  unfold round_to
  have h1 : (m : ℚ) * (10 : ℚ) ^ n + 1 / 2 = ((m * 10 ^ n : ℤ) : ℚ) + 1 / 2 := by
    push_cast
    ring
  rw [h1, add_comm, Int.floor_add_int, show ⌊(1 / 2 : ℚ)⌋ = 0 from by norm_num, zero_add]
  push_cast
  rw [mul_div_assoc, div_self (by positivity), mul_one]

/-- C2 witness: for raw detector estimates 120 and 100 BPM the pool contains
the half-tempo alias 60 BPM of the percussive detector, and its BPM obeys
the bounds. -/
theorem tempo_alias_candidate_invariants_witness :
    (⟨60, [⟨"percussive", 0.5, 120⟩]⟩ : AliasCandidate) ∈
      build_tempo_alias_candidates 120 100 ∧
    (20 ≤ (AliasCandidate.mk 60 [⟨"percussive", 0.5, 120⟩]).bpm ∧
      (AliasCandidate.mk 60 [⟨"percussive", 0.5, 120⟩]).bpm ≤ 280) := by
  have h60 : round_to 3 (60 : ℚ) = 60 := by
    rw [show (60 : ℚ) = ((60 : ℤ) : ℚ) from by norm_num, round_to_intCast]
  have h120 : round_to 3 (120 : ℚ) = 120 := by
    rw [show (120 : ℚ) = ((120 : ℤ) : ℚ) from by norm_num, round_to_intCast]
  have h240 : round_to 3 (240 : ℚ) = 240 := by
    rw [show (240 : ℚ) = ((240 : ℤ) : ℚ) from by norm_num, round_to_intCast]
  have h50 : round_to 3 (50 : ℚ) = 50 := by
    rw [show (50 : ℚ) = ((50 : ℤ) : ℚ) from by norm_num, round_to_intCast]
  have h100 : round_to 3 (100 : ℚ) = 100 := by
    rw [show (100 : ℚ) = ((100 : ℤ) : ℚ) from by norm_num, round_to_intCast]
  have h200 : round_to 3 (200 : ℚ) = 200 := by
    rw [show (200 : ℚ) = ((200 : ℤ) : ℚ) from by norm_num, round_to_intCast]
  have hmem : (⟨60, [⟨"percussive", 0.5, 120⟩]⟩ : AliasCandidate) ∈
      build_tempo_alias_candidates 120 100 := by
    norm_num [build_tempo_alias_candidates, build_tempo_detector_step,
      build_tempo_factor_step, alias_map_add, ALIAS_FACTORS, h60, h120, h240, h50,
      h100, h200]
  exact ⟨hmem,
    (tempo_alias_candidate_invariants 120 100 (fun _ => 0) (fun _ => 0)
      ⟨0, 0, 0, 0, [], [], 0, 0, 0, false, false, 0⟩).1 _ hmem⟩

theorem argmax_go_spec (l : List ℚ) : ∀ (b : ℕ) (v : ℚ) (i : ℕ),
    (argmax_go b v i l = b ∧ ∀ x ∈ l, x ≤ v) ∨
    (∃ j, j < l.length ∧ argmax_go b v i l = i + j ∧
      v ≤ l.getD j 0 ∧ ∀ x ∈ l, x ≤ l.getD j 0) := by
  induction l with
  | nil =>
    intro b v i
    exact Or.inl ⟨rfl, by simp⟩
  | cons x xs ih =>
    intro b v i
    unfold argmax_go
    by_cases hvx : v < x
    · rw [if_pos hvx]
      rcases ih i x (i + 1) with ⟨h1, h2⟩ | ⟨j, hj, h1, h2, h3⟩
      · refine Or.inr ⟨0, by simp, by simpa using h1, ?_, ?_⟩
        · simpa using le_of_lt hvx
        · intro y hy
          rcases List.mem_cons.mp hy with hy | hy
          · simp [hy]
          · simpa using h2 y hy
      · refine Or.inr ⟨j + 1, by simpa using hj, by rw [h1]; omega, ?_, ?_⟩
        · exact le_trans (le_of_lt hvx) (by simpa using h2)
        · intro y hy
          rcases List.mem_cons.mp hy with hy | hy
          · subst hy
            simpa using h2
          · simpa using h3 y hy
    · rw [if_neg hvx]
      rcases ih b v (i + 1) with ⟨h1, h2⟩ | ⟨j, hj, h1, h2, h3⟩
      · refine Or.inl ⟨h1, ?_⟩
        intro y hy
        rcases List.mem_cons.mp hy with hy | hy
        · exact hy ▸ not_lt.mp hvx
        · exact h2 y hy
      · refine Or.inr ⟨j + 1, by simpa using hj, by rw [h1]; omega, by simpa using h2, ?_⟩
        intro y hy
        rcases List.mem_cons.mp hy with hy | hy
        · subst hy
          exact le_trans (not_lt.mp hvx) (by simpa using h2)
        · simpa using h3 y hy

theorem argmax_first_spec (l : List ℚ) (hl : l ≠ []) :
    argmax_first l < l.length ∧ ∀ j < l.length, l.getD j 0 ≤ l.getD (argmax_first l) 0 := by
  rcases l with _ | ⟨v, vs⟩
  · exact absurd rfl hl
  · unfold argmax_first
    dsimp only
    rcases argmax_go_spec vs 0 v 1 with ⟨h1, h2⟩ | ⟨j, hj, h1, h2, h3⟩
    · rw [h1]
      refine ⟨by simp, ?_⟩
      intro j hjlen
      rcases j with _ | j
      · simp
      · simp only [List.getD_cons_succ, List.getD_cons_zero]
        have hjlt : j < vs.length := by simpa using hjlen
        have hmem : vs.getD j 0 ∈ vs := by
          rw [List.getD_eq_getElem vs 0 hjlt]
          exact List.getElem_mem hjlt
        exact h2 _ hmem
    · rw [h1]
      constructor
      · simp only [List.length_cons]
        omega
      · intro m hmlen
        have hval : (v :: vs).getD (1 + j) 0 = vs.getD j 0 := by
          rw [show 1 + j = j + 1 from by omega]
          simp
        rw [hval]
        rcases m with _ | m
        · simpa using h2
        · simp only [List.getD_cons_succ]
          have hmlt : m < vs.length := by simpa using hmlen
          have hmem : vs.getD m 0 ∈ vs := by
            rw [List.getD_eq_getElem vs 0 hmlt]
            exact List.getElem_mem hmlt
          exact h3 _ hmem

theorem map_range_getD (f : ℕ → ℚ) (n j : ℕ) (hj : j < n) :
    ((List.range n).map f).getD j 0 = f j := by
  rw [List.getD_eq_getElem _ 0 (by simpa using hj)]
  simp

/-- C8: when the signal is strictly longer than twice the tempo window the
convolution search is skipped and the first window is returned with start
offset 0 and full_track false; otherwise the search runs and returns the
contiguous span of window length whose windowed energy is maximal among
all admissible start offsets. -/
theorem select_loudest_window_spec (y : List ℚ) (sr : ℕ) (window_seconds : ℚ) (w : ℕ)
    (hw : w = (⌊window_seconds * (sr : ℚ)⌋).toNat)
    (hsr : sr ≠ 0) (hws : 0 < window_seconds) (hw0 : w ≠ 0) (hwlen : w < y.length) :
    (w * 2 < y.length →
      select_loudest_window y sr window_seconds =
        (y.take w, 0,
         { window_seconds := window_seconds
           start_seconds := 0
           end_seconds := window_seconds
           full_track := false })) ∧
    (y.length ≤ w * 2 →
      ∃ start : ℕ, start + w ≤ y.length ∧
        select_loudest_window y sr window_seconds =
          ((y.drop start).take w, start,
           { window_seconds := (w : ℚ) / (sr : ℚ)
             start_seconds := (start : ℚ) / (sr : ℚ)
             end_seconds := ((start + w : ℕ) : ℚ) / (sr : ℚ)
             full_track := false }) ∧
        (∀ k, k + w ≤ y.length → window_energy y w k ≤ window_energy y w start)) := by
  subst hw
  have hne1 : ¬(y.length = 0 ∨ sr = 0 ∨ window_seconds ≤ 0) := by
    push_neg
    exact ⟨by omega, hsr, hws⟩
  have hne2 : ¬((⌊window_seconds * (sr : ℚ)⌋).toNat = 0 ∨
      y.length ≤ (⌊window_seconds * (sr : ℚ)⌋).toNat) := by
    push_neg
    exact ⟨by omega, by omega⟩
  constructor
  · intro hlong
    unfold select_loudest_window
    dsimp only
    rw [if_neg hne1, if_neg hne2, if_pos (show (⌊window_seconds * (sr : ℚ)⌋).toNat * 2 < y.length from by omega)]
  · intro hshort
    have henergy : ((List.range (y.length - (⌊window_seconds * (sr : ℚ)⌋).toNat + 1)).map
        (window_energy y (⌊window_seconds * (sr : ℚ)⌋).toNat)) ≠ [] := by
      intro hcontra
      have hlen := congrArg List.length hcontra
      simp at hlen
    have hspec := argmax_first_spec _ henergy
    set start := argmax_first ((List.range (y.length - (⌊window_seconds * (sr : ℚ)⌋).toNat + 1)).map
        (window_energy y (⌊window_seconds * (sr : ℚ)⌋).toNat)) with hstart
    have hlenE : ((List.range (y.length - (⌊window_seconds * (sr : ℚ)⌋).toNat + 1)).map
        (window_energy y (⌊window_seconds * (sr : ℚ)⌋).toNat)).length =
        y.length - (⌊window_seconds * (sr : ℚ)⌋).toNat + 1 := by
      simp
    rcases hspec with ⟨hlt, hmax⟩
    rw [hlenE] at hlt
    refine ⟨start, by omega, ?_, ?_⟩
    · unfold select_loudest_window
      dsimp only
      rw [if_neg hne1, if_neg hne2,
        if_neg (show ¬((⌊window_seconds * (sr : ℚ)⌋).toNat * 2 < y.length) from by omega),
        if_neg henergy, ← hstart]
    · intro k hk
      have hkE : k < y.length - (⌊window_seconds * (sr : ℚ)⌋).toNat + 1 := by omega
      have h1 := hmax k (by rw [hlenE]; exact hkE)
      rw [map_range_getD _ _ _ hkE, map_range_getD _ _ _ hlt] at h1
      exact h1

/-- C8 witness: for the 4-sample signal [1,0,2,0] at 1 Hz with a 1-second
window, the signal exceeds twice the window and the first window [1] is
returned with start offset 0 and full_track false. -/
theorem select_loudest_window_spec_witness :
    (1 : ℕ) * 2 < ([(1 : ℚ), 0, 2, 0]).length ∧
    select_loudest_window [(1 : ℚ), 0, 2, 0] 1 1 =
      ([1], 0,
       { window_seconds := 1
         start_seconds := 0
         end_seconds := 1
         full_track := false }) :=
  ⟨by norm_num,
   (select_loudest_window_spec [(1 : ℚ), 0, 2, 0] 1 1 1 (by norm_num) (by norm_num)
      (by norm_num) (by norm_num) (by norm_num)).1 (by norm_num)⟩

theorem build_tempo_alias_candidates_zero :
    build_tempo_alias_candidates 0 0 = [] := by
  norm_num [build_tempo_alias_candidates, build_tempo_detector_step]

theorem score_tempo_alias_empty (expQ : ℚ → ℚ) (p o pl pk : ℚ) (ch : Option ℚ)
    (sc : Bool) :
    score_tempo_alias_candidates expQ [] p o pl pk ch sc = (none, []) := rfl

theorem analyze_tempo_silent (expQ : ℚ → ℚ) (stdQ : List ℚ → ℚ)
    (onset_env : List ℚ) (sr hop : ℕ) (th : ℚ) :
    analyze_tempo_decision expQ stdQ
      { percussive_bpm := 0
        onset_bpm := 0
        plp_bpm := 0
        plp_peak := 0
        onset_env := onset_env
        beats := []
        energy_rms_early := 0
        sr := sr
        hop_length := hop
        is_short_clip := true
        use_onset_validation := false
        intermediate_threshold := th } = (0, 0.6) := by
  by_cases henv : onset_env = []
  · subst henv
    norm_num [analyze_tempo_decision, build_tempo_alias_candidates_zero,
      score_tempo_alias_empty]
  · norm_num [analyze_tempo_decision, build_tempo_alias_candidates_zero,
      score_tempo_alias_empty, henv]

theorem detect_global_key_empty (srK : ℤ) (inpK : KeyDetectInput) :
    detect_global_key 0 srK inpK = (0, Mode.major, 0) := by
  unfold detect_global_key
  rw [if_pos (Or.inl rfl)]

theorem bpm_guardrail_zero : bpm_guardrail 0 = 0 := by
  norm_num [bpm_guardrail]

/-- C9 counterexample: for a silent buffer (both raw tempo estimates 0, no
beats) the returned BPM confidence is the hard-coded 0.6 fallback of
`analyze_tempo`, not the 0 the claim states. -/
theorem silent_input_confidence_cex :
    (analyze_tempo_decision (fun _ => 0) (fun _ => 0)
      { percussive_bpm := 0
        onset_bpm := 0
        plp_bpm := 0
        plp_peak := 0
        onset_env := []
        beats := []
        energy_rms_early := 0
        sr := 22050
        hop_length := 512
        is_short_clip := true
        use_onset_validation := false
        intermediate_threshold := 1.1 }).2 = 0.6 ∧ ((0.6 : ℚ) ≠ 0) := by
  refine ⟨?_, by norm_num⟩
  rw [analyze_tempo_silent]
theorem window_consensus_conf_le (ctx : KeyChainCtx) (st : KeyChainState) :
    st.conf ≤ (window_consensus_block ctx st).conf := by
  unfold window_consensus_block
  split
  · exact le_rfl
  · split
    · exact le_rfl
    · dsimp only
      split_ifs <;> first | exact le_rfl | exact le_max_left _ _

theorem runner_interval_conf_le (ctx : KeyChainCtx) (st : KeyChainState) :
    st.conf ≤ (runner_interval_block ctx st).conf := by
  unfold runner_interval_block
  split
  · lift_lets
    intros
    split_ifs <;> first | exact le_rfl | exact le_max_left _ _
  · exact le_rfl

theorem fifth_reconcile_conf_le (ctx : KeyChainCtx) (st : KeyChainState) :
    st.conf ≤ (fifth_reconcile_block ctx st).conf := by
  unfold fifth_reconcile_block
  lift_lets
  intro obs fts fsup fess altp
  split_ifs <;>
    first
      | exact le_rfl
      | (clear_value altp
         cases altp <;> first | exact le_max_left _ _ | exact le_rfl)

theorem window_mode_votes_conf_le (ctx : KeyChainCtx) (st : KeyChainState) :
    st.conf ≤ (window_mode_votes_block ctx st).conf := by
  unfold window_mode_votes_block
  dsimp only
  split_ifs <;> first | exact le_rfl | exact le_max_left _ _

theorem chroma_peak_conf_le (ctx : KeyChainCtx) (st : KeyChainState) :
    st.conf ≤ (chroma_peak_block ctx st).conf := by
  unfold chroma_peak_block
  dsimp only
  split_ifs <;> first | exact le_rfl | exact le_max_left _ _

theorem tonic_bias_conf_le (ctx : KeyChainCtx) (st : KeyChainState) :
    st.conf ≤ (tonic_bias_block ctx st).conf := by
  unfold tonic_bias_block
  dsimp only
  split_ifs <;> first | exact le_rfl | exact le_max_left _ _

theorem blend_essentia_conf_le (cand : Option EssCand) (lbl : String)
    (a b c : ℚ) (st : KeyChainState) :
    st.conf ≤ (blend_essentia_candidate cand lbl a b c st).conf := by
  unfold blend_essentia_candidate
  split
  · exact le_rfl
  · dsimp only
    split_ifs <;> first | exact le_rfl | exact le_max_left _ _

theorem dominant_override_conf_le (cand : Option EssCand) (lbl : String)
    (ctx : KeyChainCtx) (st : KeyChainState) :
    st.conf ≤ (apply_dominant_interval_override cand lbl ctx st).conf := by
  unfold apply_dominant_interval_override
  split
  · exact le_rfl
  · dsimp only
    split_ifs <;> first | exact le_rfl | exact le_max_left _ _

theorem tonic_override_one_conf_le (cand : Option EssCand) (lbl : String)
    (ctx : KeyChainCtx) (st st2 : KeyChainState)
    (h : tonic_override_one cand lbl ctx st = some st2) :
    st.conf ≤ st2.conf := by
  unfold tonic_override_one at h
  cases cand with
  | none => exact Option.noConfusion h
  | some cd =>
    dsimp only at h
    split_ifs at h
    all_goals injection h with h2
    all_goals subst h2
    all_goals exact le_max_left _ _

theorem essentia_tonic_override_conf_le (ctx : KeyChainCtx) (st : KeyChainState) :
    st.conf ≤ (essentia_tonic_override ctx st).conf := by
  unfold essentia_tonic_override
  split_ifs
  · exact le_rfl
  · cases h1 : tonic_override_one ctx.inp.essentia_std "essentia" ctx st with
    | some st2 => exact tonic_override_one_conf_le _ _ _ _ _ h1
    | none =>
      cases h2 : tonic_override_one ctx.inp.essentia_edm "essentia_edm" ctx st with
      | some st2 => exact tonic_override_one_conf_le _ _ _ _ _ h2
      | none => exact le_rfl

theorem mode_bias_conf_le (ctx : KeyChainCtx) (st : KeyChainState) :
    st.conf ≤ (mode_bias_block ctx st).conf := by
  unfold mode_bias_block
  dsimp only
  split_ifs <;> first | exact le_rfl | exact le_max_left _ _

theorem mode_rescue_conf_le (cand : Option EssCand) (lbl : String) (st : KeyChainState) :
    st.conf ≤ (mode_rescue_from_candidate cand lbl st).conf := by
  unfold mode_rescue_from_candidate
  split
  · exact le_rfl
  · dsimp only
    split_ifs <;> first | exact le_rfl | exact le_max_left _ _

theorem key_chain_conf_ge (inp : KeyDetectInput) :
    inp.fallback_conf ≤ (key_chain inp).conf := by
  unfold key_chain
  dsimp only
  refine le_trans ?_ (mode_rescue_conf_le _ _ _)
  refine le_trans ?_ (mode_rescue_conf_le _ _ _)
  refine le_trans ?_ (mode_bias_conf_le _ _)
  refine le_trans ?_ (essentia_tonic_override_conf_le _ _)
  refine le_trans ?_ (dominant_override_conf_le _ _ _ _)
  refine le_trans ?_ (blend_essentia_conf_le _ _ _ _ _ _)
  refine le_trans ?_ (dominant_override_conf_le _ _ _ _)
  refine le_trans ?_ (blend_essentia_conf_le _ _ _ _ _ _)
  refine le_trans ?_ (tonic_bias_conf_le _ _)
  refine le_trans ?_ (chroma_peak_conf_le _ _)
  refine le_trans ?_ (window_mode_votes_conf_le _ _)
  refine le_trans ?_ (fifth_reconcile_conf_le _ _)
  refine le_trans ?_ (runner_interval_conf_le _ _)
  exact window_consensus_conf_le _ _

/-- C3 (amended): the final answer of `detect_global_key` always has root
pitch-class index in [0, 11] and mode major or minor, and its confidence is
clamped to [0, 1]; along the override chain every firing rule only raises
the running confidence via `max`, so the final confidence is at least the
template-fallback confidence whenever that fallback lies in [0, 1] — but a
rule contribution above 1 (possible, since template scores are unclamped)
is cut down to 1 by the final clamp, so the final confidence can be lower
than a fired rule's contribution. -/
theorem detect_global_key_invariants (n : ℕ) (sr : ℤ) (inp : KeyDetectInput)
    (root : ℤ) (mode : Mode) (conf : ℚ)
    (hres : detect_global_key n sr inp = (root, mode, conf))
    (hc1 : inp.fallback_conf ≤ 1) :
    (0 ≤ root ∧ root ≤ 11) ∧ (mode = Mode.major ∨ mode = Mode.minor) ∧
    (0 ≤ conf ∧ conf ≤ 1) ∧ (¬(n = 0 ∨ sr ≤ 0) → inp.fallback_conf ≤ conf) := by
  unfold detect_global_key at hres
  by_cases hcond : n = 0 ∨ sr ≤ 0
  · rw [if_pos hcond] at hres
    simp only [Prod.mk.injEq] at hres
    obtain ⟨h1, h2, h3⟩ := hres
    subst h1
    subst h2
    subst h3
    exact ⟨⟨le_refl 0, by norm_num⟩, Or.inl rfl, ⟨le_refl 0, by norm_num⟩,
      fun h => absurd hcond h⟩
  · rw [if_neg hcond] at hres
    dsimp only at hres
    simp only [Prod.mk.injEq] at hres
    obtain ⟨h1, h2, h3⟩ := hres
    subst h1
    subst h2
    subst h3
    refine ⟨⟨Int.emod_nonneg _ (by norm_num), ?_⟩, ?_, ⟨le_max_left 0 _, ?_⟩, ?_⟩
    · have := Int.emod_lt_of_pos (key_chain inp).root (show (0:ℤ) < 12 from by norm_num)
      omega
    · cases (key_chain inp).mode
      · exact Or.inl rfl
      · exact Or.inr rfl
    · exact max_le (by norm_num) (min_le_left 1 _)
    · intro _h
      exact le_trans (le_min hc1 (key_chain_conf_ge inp)) (le_max_right 0 _)

/-- C3 witness: with no estimator inputs and template-fallback confidence
0.5 the detector returns C major with confidence 0.5, inside all claimed
bounds. -/
theorem detect_global_key_invariants_witness :
    (detect_global_key 1 1 ⟨[], [], 0.5, [], none, none, none, none, false⟩ =
        ((0 : ℤ), Mode.major, (0.5 : ℚ)) ∧ (0.5 : ℚ) ≤ 1) ∧
    ((0 ≤ (0 : ℤ) ∧ (0 : ℤ) ≤ 11) ∧
      (Mode.major = Mode.major ∨ Mode.major = Mode.minor) ∧
      ((0 : ℚ) ≤ 0.5 ∧ (0.5 : ℚ) ≤ 1) ∧
      (¬((1 : ℕ) = 0 ∨ (1 : ℤ) ≤ 0) → (0.5 : ℚ) ≤ 0.5)) := by
  have hres : detect_global_key 1 1 ⟨[], [], 0.5, [], none, none, none, none, false⟩ =
      ((0 : ℤ), Mode.major, (0.5 : ℚ)) := by
    norm_num [detect_global_key, key_chain, mk_key_ctx, window_consensus_block,
      runner_interval_block, fifth_reconcile_block, window_mode_votes_block,
      chroma_peak_block, tonic_bias_block, blend_essentia_candidate,
      apply_dominant_interval_override, essentia_tonic_override,
      tonic_override_one, mode_bias_block, mode_rescue_from_candidate,
      sorted_candidates, root_weight_map, root_support_ratio, clamp_to_unit,
      mode_bias_from_chroma, list_max, votes_lookup, max_def, min_def]
  exact ⟨⟨hres, by norm_num⟩,
    detect_global_key_invariants 1 1 _ 0 Mode.major 0.5 hres (by norm_num)⟩

theorem blend_essentia_none (lbl : String) (a b c : ℚ) (st : KeyChainState) :
    blend_essentia_candidate none lbl a b c st = st := rfl

theorem dominant_override_none (lbl : String) (ctx : KeyChainCtx) (st : KeyChainState) :
    apply_dominant_interval_override none lbl ctx st = st := rfl

theorem mode_rescue_none (lbl : String) (st : KeyChainState) :
    mode_rescue_from_candidate none lbl st = st := rfl

set_option maxHeartbeats 1000000 in
/-- C3 counterexample: for a short clip with a uniform chroma profile and
unclamped template scores 2 (C major) and 1.965 (G major), fifth-reconcile
fires (confidence 1.965) and then tonic-bias fires back to C major with
contributed confidence 2, but the returned confidence is clamped to 1 —
lower than the 2 contributed by the fired tonic-bias rule. -/
theorem key_confidence_contribution_cex :
    (key_chain
        ⟨[1, 1, 1, 1, 1, 1, 1, 1, 1, 1, 1, 1],
         [⟨0, Mode.major, 2⟩, ⟨7, Mode.major, 1.965⟩], 1,
         [((0, Mode.major), 2), ((7, Mode.major), 1.965)],
         some (0, Mode.major), none, none, none, true⟩ : KeyChainState) =
      ⟨0, Mode.major, 2, "tonic_bias", true, 0⟩ ∧
    detect_global_key 1 1
        ⟨[1, 1, 1, 1, 1, 1, 1, 1, 1, 1, 1, 1],
         [⟨0, Mode.major, 2⟩, ⟨7, Mode.major, 1.965⟩], 1,
         [((0, Mode.major), 2), ((7, Mode.major), 1.965)],
         some (0, Mode.major), none, none, none, true⟩ = (0, Mode.major, 1) ∧
    (1 : ℚ) < 2 := by
  have hctx : mk_key_ctx
      ⟨[1, 1, 1, 1, 1, 1, 1, 1, 1, 1, 1, 1],
       [⟨0, Mode.major, 2⟩, ⟨7, Mode.major, 1.965⟩], 1,
       [((0, Mode.major), 2), ((7, Mode.major), 1.965)],
       some (0, Mode.major), none, none, none, true⟩ =
      ⟨⟨[1, 1, 1, 1, 1, 1, 1, 1, 1, 1, 1, 1],
        [⟨0, Mode.major, 2⟩, ⟨7, Mode.major, 1.965⟩], 1,
        [((0, Mode.major), 2), ((7, Mode.major), 1.965)],
        some (0, Mode.major), none, none, none, true⟩,
       0, Mode.major, 1, [⟨0, Mode.major, 2⟩, ⟨7, Mode.major, 1.965⟩], 2,
       [], [], 0⟩ := by
    norm_num [mk_key_ctx, sorted_candidates, insert_by_score, root_weight_map,
      list_max, max_def]
  have h1 : window_consensus_block
      ⟨⟨[1, 1, 1, 1, 1, 1, 1, 1, 1, 1, 1, 1],
        [⟨0, Mode.major, 2⟩, ⟨7, Mode.major, 1.965⟩], 1,
        [((0, Mode.major), 2), ((7, Mode.major), 1.965)],
        some (0, Mode.major), none, none, none, true⟩,
       0, Mode.major, 1, [⟨0, Mode.major, 2⟩, ⟨7, Mode.major, 1.965⟩], 2,
       [], [], 0⟩
      ⟨0, Mode.major, 1, "librosa", false, 0⟩ =
      ⟨0, Mode.major, 1, "librosa", false, 0⟩ := rfl
  have h2 : runner_interval_block
      ⟨⟨[1, 1, 1, 1, 1, 1, 1, 1, 1, 1, 1, 1],
        [⟨0, Mode.major, 2⟩, ⟨7, Mode.major, 1.965⟩], 1,
        [((0, Mode.major), 2), ((7, Mode.major), 1.965)],
        some (0, Mode.major), none, none, none, true⟩,
       0, Mode.major, 1, [⟨0, Mode.major, 2⟩, ⟨7, Mode.major, 1.965⟩], 2,
       [], [], 0⟩
      ⟨0, Mode.major, 1, "librosa", false, 0⟩ =
      ⟨0, Mode.major, 1, "librosa", false, 0⟩ := by
    norm_num [runner_interval_block, root_support_ratio, interval_distance,
      chroma_at, essentia_supports, INTERVAL_OVERRIDE_STEPS,
      DOMINANT_INTERVAL_STEPS, list_max, weight_lookup, max_def, min_def]
  have h3 : fifth_reconcile_block
      ⟨⟨[1, 1, 1, 1, 1, 1, 1, 1, 1, 1, 1, 1],
        [⟨0, Mode.major, 2⟩, ⟨7, Mode.major, 1.965⟩], 1,
        [((0, Mode.major), 2), ((7, Mode.major), 1.965)],
        some (0, Mode.major), none, none, none, true⟩,
       0, Mode.major, 1, [⟨0, Mode.major, 2⟩, ⟨7, Mode.major, 1.965⟩], 2,
       [], [], 0⟩
      ⟨0, Mode.major, 1, "librosa", false, 0⟩ =
      ⟨7, Mode.major, 1.965, "fifth_reconcile", true, 0⟩ := by
    norm_num [fifth_reconcile_block, votes_lookup, root_support_ratio,
      essentia_supports, interval_distance, chroma_at, max_def, min_def,
      List.cons_ne_nil, show Int.toNat 7 = 7 from rfl,
      show Int.toNat 0 = 0 from rfl]
  have h5 : chroma_peak_block
      ⟨⟨[1, 1, 1, 1, 1, 1, 1, 1, 1, 1, 1, 1],
        [⟨0, Mode.major, 2⟩, ⟨7, Mode.major, 1.965⟩], 1,
        [((0, Mode.major), 2), ((7, Mode.major), 1.965)],
        some (0, Mode.major), none, none, none, true⟩,
       0, Mode.major, 1, [⟨0, Mode.major, 2⟩, ⟨7, Mode.major, 1.965⟩], 2,
       [], [], 0⟩
      ⟨7, Mode.major, 1.965, "fifth_reconcile", true, 0⟩ =
      ⟨7, Mode.major, 1.965, "fifth_reconcile", true, 0⟩ := by
    norm_num [chroma_peak_block]
  have h6 : tonic_bias_block
      ⟨⟨[1, 1, 1, 1, 1, 1, 1, 1, 1, 1, 1, 1],
        [⟨0, Mode.major, 2⟩, ⟨7, Mode.major, 1.965⟩], 1,
        [((0, Mode.major), 2), ((7, Mode.major), 1.965)],
        some (0, Mode.major), none, none, none, true⟩,
       0, Mode.major, 1, [⟨0, Mode.major, 2⟩, ⟨7, Mode.major, 1.965⟩], 2,
       [], [], 0⟩
      ⟨7, Mode.major, 1.965, "fifth_reconcile", true, 0⟩ =
      ⟨0, Mode.major, 2, "tonic_bias", true, 0⟩ := by
    norm_num [tonic_bias_block, triad_energy, votes_lookup, root_support_ratio,
      essentia_supports, interval_distance, chroma_at, max_def, min_def,
      List.cons_ne_nil, show Int.toNat 0 = 0 from rfl,
      show Int.toNat 2 = 2 from rfl, show Int.toNat 4 = 4 from rfl,
      show Int.toNat 7 = 7 from rfl, show Int.toNat 11 = 11 from rfl,
      show ¬("fifth_reconcile" = "chroma_peak") from by decide]
  have h8 : essentia_tonic_override
      ⟨⟨[1, 1, 1, 1, 1, 1, 1, 1, 1, 1, 1, 1],
        [⟨0, Mode.major, 2⟩, ⟨7, Mode.major, 1.965⟩], 1,
        [((0, Mode.major), 2), ((7, Mode.major), 1.965)],
        some (0, Mode.major), none, none, none, true⟩,
       0, Mode.major, 1, [⟨0, Mode.major, 2⟩, ⟨7, Mode.major, 1.965⟩], 2,
       [], [], 0⟩
      ⟨0, Mode.major, 2, "tonic_bias", true, 0⟩ =
      ⟨0, Mode.major, 2, "tonic_bias", true, 0⟩ := rfl
  have h9 : mode_bias_block
      ⟨⟨[1, 1, 1, 1, 1, 1, 1, 1, 1, 1, 1, 1],
        [⟨0, Mode.major, 2⟩, ⟨7, Mode.major, 1.965⟩], 1,
        [((0, Mode.major), 2), ((7, Mode.major), 1.965)],
        some (0, Mode.major), none, none, none, true⟩,
       0, Mode.major, 1, [⟨0, Mode.major, 2⟩, ⟨7, Mode.major, 1.965⟩], 2,
       [], [], 0⟩
      ⟨0, Mode.major, 2, "tonic_bias", true, 0⟩ =
      ⟨0, Mode.major, 2, "tonic_bias", true, 0⟩ := by
    norm_num [mode_bias_block, mode_bias_from_chroma, chroma_at]
  have hchain : (key_chain
      ⟨[1, 1, 1, 1, 1, 1, 1, 1, 1, 1, 1, 1],
       [⟨0, Mode.major, 2⟩, ⟨7, Mode.major, 1.965⟩], 1,
       [((0, Mode.major), 2), ((7, Mode.major), 1.965)],
       some (0, Mode.major), none, none, none, true⟩ : KeyChainState) =
      ⟨0, Mode.major, 2, "tonic_bias", true, 0⟩ := by
    unfold key_chain
    rw [hctx]
    dsimp only
    rw [h1]
    rw [show (⟨0, Mode.major, 1, "librosa", false,
        root_support_ratio [] 0⟩ : KeyChainState) =
      ⟨0, Mode.major, 1, "librosa", false, 0⟩ from by
        norm_num [root_support_ratio]]
    rw [h2, h3]
    rw [show window_mode_votes_block
      ⟨⟨[1, 1, 1, 1, 1, 1, 1, 1, 1, 1, 1, 1],
        [⟨0, Mode.major, 2⟩, ⟨7, Mode.major, 1.965⟩], 1,
        [((0, Mode.major), 2), ((7, Mode.major), 1.965)],
        some (0, Mode.major), none, none, none, true⟩,
       0, Mode.major, 1, [⟨0, Mode.major, 2⟩, ⟨7, Mode.major, 1.965⟩], 2,
       [], [], 0⟩
      ⟨7, Mode.major, 1.965, "fifth_reconcile", true, 0⟩ =
      ⟨7, Mode.major, 1.965, "fifth_reconcile", true, 0⟩ from rfl]
    rw [h5, h6]
    simp only [blend_essentia_none, dominant_override_none, mode_rescue_none]
    rw [h8, h9]
  refine ⟨hchain, ?_, by norm_num⟩
  unfold detect_global_key
  rw [if_neg (by norm_num)]
  dsimp only
  rw [hchain]
  norm_num [clamp_to_unit, max_def, min_def]

theorem rat_cast_sum_weights (l : List ConsensusKeyEntry) :
    (((l.map ConsensusKeyEntry.weight).sum : ℚ) : ℝ) =
      (l.map (fun e => (e.weight : ℝ))).sum := by
  induction l with
  | nil => simp
  | cons e es ih => simp [ih]

theorem key_dispersion_same_root (entries : List ConsensusKeyEntry) (r : ℤ)
    (hne : entries ≠ []) (hroot : ∀ e ∈ entries, e.root = r)
    (hw : ∀ e ∈ entries, 0 < e.weight) :
    key_dispersion entries = some 0 := by
  unfold key_dispersion
  have hfilter : entries.filter (fun e => 0 < e.weight) = entries :=
    List.filter_eq_self.mpr (fun e he => decide_eq_true (hw e he))
  rw [hfilter]
  have hWpos : 0 < (entries.map ConsensusKeyEntry.weight).sum := by
    refine List.sum_pos _ ?_ ?_
    · intro x hx
      rcases List.mem_map.mp hx with ⟨e, he, hex⟩
      exact hex ▸ hw e he
    · simpa using hne
  rw [if_neg (not_le.mpr hWpos)]
  dsimp only
  have hSpos : (0 : ℝ) < (((entries.map ConsensusKeyEntry.weight).sum : ℚ) : ℝ) := by
    exact_mod_cast hWpos
  have hcos : (entries.map (fun e =>
      Real.cos ((e.root : ℝ) * (2 * Real.pi / 12)) * (e.weight : ℝ))).sum =
      Real.cos ((r : ℝ) * (2 * Real.pi / 12)) *
        (entries.map (fun e => (e.weight : ℝ))).sum := by
    rw [List.map_congr_left (fun e he => by rw [hroot e he])]
    exact List.sum_map_mul_left entries (fun e => (e.weight : ℝ)) _
  have hsin : (entries.map (fun e =>
      Real.sin ((e.root : ℝ) * (2 * Real.pi / 12)) * (e.weight : ℝ))).sum =
      Real.sin ((r : ℝ) * (2 * Real.pi / 12)) *
        (entries.map (fun e => (e.weight : ℝ))).sum := by
    rw [List.map_congr_left (fun e he => by rw [hroot e he])]
    exact List.sum_map_mul_left entries (fun e => (e.weight : ℝ)) _
  have hsq : (entries.map (fun e =>
        Real.cos ((e.root : ℝ) * (2 * Real.pi / 12)) * (e.weight : ℝ))).sum ^ 2 +
      (entries.map (fun e =>
        Real.sin ((e.root : ℝ) * (2 * Real.pi / 12)) * (e.weight : ℝ))).sum ^ 2 =
      (((entries.map ConsensusKeyEntry.weight).sum : ℚ) : ℝ) ^ 2 := by
    rw [hcos, hsin, rat_cast_sum_weights]
    have := Real.sin_sq_add_cos_sq ((r : ℝ) * (2 * Real.pi / 12))
    nlinarith [this]
  rw [hsq, Real.sqrt_sq (le_of_lt hSpos), div_self (ne_of_gt hSpos)]
  rw [min_self, max_eq_left (by norm_num : (1e-9 : ℝ) ≤ 1), Real.log_one]
  norm_num

theorem tritone_dispersion_gt_three :
    (3 : ℝ) < Real.sqrt (18 * Real.log 10) * (12 / (2 * Real.pi)) := by
  have hexp : Real.exp 1 < 10 :=
    lt_trans Real.exp_one_lt_d9 (by norm_num)
  have hlog : (1 : ℝ) < Real.log 10 :=
    (Real.lt_log_iff_exp_lt (by norm_num : (0:ℝ) < 10)).mpr hexp
  have h16 : (16 : ℝ) ≤ 18 * Real.log 10 := by nlinarith
  have hsqrt : (4 : ℝ) ≤ Real.sqrt (18 * Real.log 10) := by
    have h1 : Real.sqrt 16 ≤ Real.sqrt (18 * Real.log 10) := Real.sqrt_le_sqrt h16
    have h2 : Real.sqrt 16 = 4 := by
      rw [show (16 : ℝ) = 4 ^ 2 from by norm_num, Real.sqrt_sq (by norm_num : (0:ℝ) ≤ 4)]
    linarith
  have hpi : Real.pi < 3.15 := Real.pi_lt_315
  have hpi0 : 0 < Real.pi := Real.pi_pos
  have hfrac : (12 : ℝ) / (2 * 3.15) < 12 / (2 * Real.pi) := by
    apply div_lt_div_of_pos_left (by norm_num) (by linarith) (by linarith)
  have hfrac2 : (1.9 : ℝ) < 12 / (2 * Real.pi) := by
    have : (1.9 : ℝ) < 12 / (2 * 3.15) := by norm_num
    linarith
  have hfracpos : (0 : ℝ) < 12 / (2 * Real.pi) := by positivity
  nlinarith

theorem key_dispersion_tritone (r : ℤ) (m1 m2 : Mode) (w : ℚ) (hw : 0 < w) :
    key_dispersion [⟨r, m1, w⟩, ⟨r + 6, m2, w⟩] =
      some (Real.sqrt (18 * Real.log 10) * (12 / (2 * Real.pi))) := by
  unfold key_dispersion
  have hfilter : ([⟨r, m1, w⟩, ⟨r + 6, m2, w⟩] :
      List ConsensusKeyEntry).filter (fun e => 0 < e.weight) =
      [⟨r, m1, w⟩, ⟨r + 6, m2, w⟩] :=
    List.filter_eq_self.mpr (fun e he => by
      rcases List.mem_cons.mp he with he1 | he1
      · subst he1
        exact decide_eq_true hw
      · rcases List.mem_cons.mp he1 with he2 | he2
        · subst he2
          exact decide_eq_true hw
        · exact absurd he2 (List.not_mem_nil _))
  rw [hfilter]
  have hWpos : (0 : ℚ) < (([⟨r, m1, w⟩, ⟨r + 6, m2, w⟩] :
      List ConsensusKeyEntry).map ConsensusKeyEntry.weight).sum := by
    simp only [List.map_cons, List.map_nil, List.sum_cons, List.sum_nil]
    linarith
  rw [if_neg (not_le.mpr hWpos)]
  dsimp only
  have hang : (((r + 6 : ℤ) : ℝ)) * (2 * Real.pi / 12) =
      (r : ℝ) * (2 * Real.pi / 12) + Real.pi := by
    push_cast
    ring
  have hcos : ((([⟨r, m1, w⟩, ⟨r + 6, m2, w⟩] : List ConsensusKeyEntry)).map (fun e =>
      Real.cos ((e.root : ℝ) * (2 * Real.pi / 12)) * (e.weight : ℝ))).sum = 0 := by
    simp only [List.map_cons, List.map_nil, List.sum_cons, List.sum_nil]
    rw [hang, Real.cos_add_pi]
    ring
  have hsin : ((([⟨r, m1, w⟩, ⟨r + 6, m2, w⟩] : List ConsensusKeyEntry)).map (fun e =>
      Real.sin ((e.root : ℝ) * (2 * Real.pi / 12)) * (e.weight : ℝ))).sum = 0 := by
    simp only [List.map_cons, List.map_nil, List.sum_cons, List.sum_nil]
    rw [hang, Real.sin_add_pi]
    ring
  rw [hcos, hsin]
  rw [show (0 : ℝ) ^ 2 + (0 : ℝ) ^ 2 = 0 from by norm_num, Real.sqrt_zero, zero_div]
  rw [min_eq_left (by norm_num : (0 : ℝ) ≤ 1),
    max_eq_right (by norm_num : (0 : ℝ) ≤ 1e-9)]
  have hlog9 : Real.log (1e-9 : ℝ) = -(9 * Real.log 10) := by
    rw [show (1e-9 : ℝ) = ((10 : ℝ) ^ (9 : ℕ))⁻¹ from by norm_num, Real.log_inv,
      Real.log_pow]
    norm_num
  rw [hlog9]
  have hlogpos : (0 : ℝ) ≤ Real.log 10 := Real.log_nonneg (by norm_num)
  rw [show -2 * -(9 * Real.log 10) = 18 * Real.log 10 from by ring,
    max_eq_right (by nlinarith : (0 : ℝ) ≤ 18 * Real.log 10)]

theorem build_key_consensus_same_root (summaries : List KeySummary) (r : ℤ)
    (hroot : ∀ e ∈ key_entries summaries, e.root = r)
    (hw : ∀ e ∈ key_entries summaries, 0 < e.weight) :
    (build_key_consensus summaries).key_modulating = false := by
  unfold build_key_consensus
  cases hE : key_entries summaries with
  | nil => rfl
  | cons e es =>
    rw [hE] at hroot hw
    dsimp only
    cases hpm : pick_max_by Prod.snd ((e :: es).foldl
        (fun (m : List ((ℤ × Mode) × ℚ)) x =>
          add_key_weight m (x.root % 12, x.mode) x.weight) []) with
    | none => rfl
    | some best =>
      dsimp only
      rw [key_dispersion_same_root (e :: es) r (List.cons_ne_nil e es) hroot hw]
      dsimp only
      rw [if_neg (by norm_num : ¬(3 : ℝ) < 0)]

theorem build_key_consensus_tritone (summaries : List KeySummary) (r2 : ℤ)
    (m1 m2 : Mode) (w : ℚ) (hw : 0 < w)
    (hE : key_entries summaries = [⟨r2, m1, w⟩, ⟨r2 + 6, m2, w⟩]) :
    (build_key_consensus summaries).key_modulating = true ∧
    ∃ c : ℚ, (build_key_consensus summaries).key_confidence = some c ∧
      c ≤ 0.45 := by
  have hkey : ¬((r2 % 12, m1) = ((r2 + 6) % 12, m2)) := by
    intro hc
    have h1 := congrArg Prod.fst hc
    simp only [Prod.fst] at h1
    omega
  have hfold : ([⟨r2, m1, w⟩, ⟨r2 + 6, m2, w⟩] : List ConsensusKeyEntry).foldl
      (fun (m : List ((ℤ × Mode) × ℚ)) x =>
        add_key_weight m (x.root % 12, x.mode) x.weight) [] =
      [((r2 % 12, m1), w), (((r2 + 6) % 12, m2), w)] := by
    simp only [List.foldl_cons, List.foldl_nil]
    rw [show add_key_weight [] (r2 % 12, m1) w = [((r2 % 12, m1), w)] from rfl]
    unfold add_key_weight
    rw [if_neg hkey]
    rfl
  have hpm : pick_max_by Prod.snd
      [((r2 % 12, m1), w), (((r2 + 6) % 12, m2), w)] =
      some ((r2 % 12, m1), w) := by
    rw [pick_max_by]
    rw [show pick_max_by Prod.snd [(((r2 + 6) % 12, m2), w)] =
      some (((r2 + 6) % 12, m2), w) from rfl]
    dsimp only
    rw [if_neg (lt_irrefl w)]
  unfold build_key_consensus
  rw [hE]
  dsimp only
  rw [hfold, hpm]
  dsimp only
  rw [key_dispersion_tritone r2 m1 m2 w hw]
  dsimp only
  rw [if_pos tritone_dispersion_gt_three]
  refine ⟨rfl, ?_⟩
  exact ⟨_, rfl, min_le_right _ _⟩

theorem merge_chunk_key_modulating (res : MergedKeyFields) (c : KeyConsensus)
    (kc : ℚ) (hmod : c.key_modulating = true) (hkc : c.key_confidence = some kc) :
    ∃ v, (merge_chunk_key res c).key_confidence = some v ∧ v ≤ 0.45 := by
  unfold merge_chunk_key
  rw [hmod, hkc]
  dsimp only
  cases hck : c.key with
  | none =>
    cases hkd : c.key_dispersion_semitones with
    | none =>
      cases hrc : res.key_confidence with
      | none => exact ⟨_, rfl, min_le_right _ _⟩
      | some e => exact ⟨_, rfl, min_le_right _ _⟩
    | some d =>
      cases hrc : res.key_confidence with
      | none => exact ⟨_, rfl, min_le_right _ _⟩
      | some e => exact ⟨_, rfl, min_le_right _ _⟩
  | some k =>
    cases hkd : c.key_dispersion_semitones with
    | none =>
      cases hrc : res.key_confidence with
      | none => exact ⟨_, rfl, min_le_right _ _⟩
      | some e => exact ⟨_, rfl, min_le_right _ _⟩
    | some d =>
      cases hrc : res.key_confidence with
      | none => exact ⟨_, rfl, min_le_right _ _⟩
      | some e => exact ⟨_, rfl, min_le_right _ _⟩

/-- C6: if every window's key vote carries the same root, the circular key
dispersion is exactly 0 and key_modulating stays false; if the key weight
is split evenly between two roots a tritone (6 semitones) apart, the
dispersion exceeds the 3-semitone modulation threshold, key_modulating
becomes true, the consensus key confidence is capped at 0.45, and merging
the consensus into a result also caps the merged confidence at 0.45. -/
theorem chunk_consensus_dispersion_spec
    (s1 : List KeySummary) (r : ℤ)
    (h1ne : key_entries s1 ≠ [])
    (h1root : ∀ e ∈ key_entries s1, e.root = r)
    (h1w : ∀ e ∈ key_entries s1, 0 < e.weight)
    (s2 : List KeySummary) (r2 : ℤ) (m1 m2 : Mode) (w : ℚ) (hw : 0 < w)
    (h2 : key_entries s2 = [⟨r2, m1, w⟩, ⟨r2 + 6, m2, w⟩])
    (res : MergedKeyFields) :
    (key_dispersion (key_entries s1) = some 0 ∧
      (build_key_consensus s1).key_modulating = false) ∧
    (∃ d : ℝ, key_dispersion (key_entries s2) = some d ∧ 3 < d) ∧
    ((build_key_consensus s2).key_modulating = true ∧
      ∃ c : ℚ, (build_key_consensus s2).key_confidence = some c ∧ c ≤ 0.45) ∧
    (∀ kc : ℚ, (build_key_consensus s2).key_confidence = some kc →
      ∃ v : ℚ, (merge_chunk_key res
        (build_key_consensus s2)).key_confidence = some v ∧ v ≤ 0.45) := by
  refine ⟨⟨key_dispersion_same_root _ r h1ne h1root h1w,
    build_key_consensus_same_root s1 r h1root h1w⟩, ?_, ?_, ?_⟩
  · rw [h2]
    exact ⟨_, key_dispersion_tritone r2 m1 m2 w hw, tritone_dispersion_gt_three⟩
  · exact build_key_consensus_tritone s2 r2 m1 m2 w hw h2
  · intro kc hkc
    exact merge_chunk_key_modulating res _ kc
      (build_key_consensus_tritone s2 r2 m1 m2 w hw h2).1 hkc

/-- C6 witness: one window voting C major (agreeing track) and a pair of
windows split between C major and F-sharp minor with equal weight 0.9. -/
theorem chunk_consensus_dispersion_spec_witness :
    (key_entries [⟨some 0, some Mode.major, 0.9, none, 1⟩] =
        [⟨0, Mode.major, 0.9⟩] ∧
      key_entries [⟨some 0, some Mode.major, 0.9, none, 1⟩,
          ⟨some 6, some Mode.minor, 0.9, none, 1⟩] =
        [⟨0, Mode.major, 0.9⟩, ⟨(0 : ℤ) + 6, Mode.minor, 0.9⟩] ∧
      (0 : ℚ) < 0.9) ∧
    ((key_dispersion (key_entries [⟨some 0, some Mode.major, 0.9, none, 1⟩]) =
        some 0 ∧
      (build_key_consensus
        [⟨some 0, some Mode.major, 0.9, none, 1⟩]).key_modulating = false) ∧
    (∃ d : ℝ, key_dispersion (key_entries
        [⟨some 0, some Mode.major, 0.9, none, 1⟩,
         ⟨some 6, some Mode.minor, 0.9, none, 1⟩]) = some d ∧ 3 < d) ∧
    ((build_key_consensus
        [⟨some 0, some Mode.major, 0.9, none, 1⟩,
         ⟨some 6, some Mode.minor, 0.9, none, 1⟩]).key_modulating = true ∧
      ∃ c : ℚ, (build_key_consensus
        [⟨some 0, some Mode.major, 0.9, none, 1⟩,
         ⟨some 6, some Mode.minor, 0.9, none, 1⟩]).key_confidence = some c ∧
        c ≤ 0.45) ∧
    (∀ kc : ℚ, (build_key_consensus
        [⟨some 0, some Mode.major, 0.9, none, 1⟩,
         ⟨some 6, some Mode.minor, 0.9, none, 1⟩]).key_confidence = some kc →
      ∃ v : ℚ, (merge_chunk_key ⟨none, none, false, none⟩
        (build_key_consensus
          [⟨some 0, some Mode.major, 0.9, none, 1⟩,
           ⟨some 6, some Mode.minor, 0.9, none, 1⟩])).key_confidence = some v ∧
        v ≤ 0.45)) := by
  have he1 : key_entries [⟨some 0, some Mode.major, 0.9, none, 1⟩] =
      [⟨0, Mode.major, 0.9⟩] := by
    norm_num [key_entries, List.filterMap_cons, Option.getD_some, max_def,
      min_def]
  have he2 : key_entries [⟨some 0, some Mode.major, 0.9, none, 1⟩,
      ⟨some 6, some Mode.minor, 0.9, none, 1⟩] =
      [⟨0, Mode.major, 0.9⟩, ⟨(0 : ℤ) + 6, Mode.minor, 0.9⟩] := by
    norm_num [key_entries, List.filterMap_cons, Option.getD_some, max_def,
      min_def]
  refine ⟨⟨he1, he2, by norm_num⟩, ?_⟩
  exact chunk_consensus_dispersion_spec _ 0
    (by rw [he1]; exact List.cons_ne_nil _ _)
    (by rw [he1]; intro e he; simp at he; rw [he])
    (by rw [he1]; intro e he; simp at he; rw [he]; norm_num)
    _ 0 Mode.major Mode.minor 0.9 (by norm_num) he2 ⟨none, none, false, none⟩

set_option maxHeartbeats 1600000 in
theorem score_chroma_profile_zero (majorP minorP : List ℚ) :
    score_chroma_profile majorP minorP [0, 0, 0, 0, 0, 0, 0, 0, 0, 0, 0, 0] =
      ([0, 0, 0, 0, 0, 0, 0, 0, 0, 0, 0, 0],
       [⟨0, Mode.major, 0⟩, ⟨0, Mode.minor, 0⟩, ⟨1, Mode.major, 0⟩,
        ⟨1, Mode.minor, 0⟩, ⟨2, Mode.major, 0⟩, ⟨2, Mode.minor, 0⟩,
        ⟨3, Mode.major, 0⟩, ⟨3, Mode.minor, 0⟩, ⟨4, Mode.major, 0⟩,
        ⟨4, Mode.minor, 0⟩, ⟨5, Mode.major, 0⟩, ⟨5, Mode.minor, 0⟩,
        ⟨6, Mode.major, 0⟩, ⟨6, Mode.minor, 0⟩, ⟨7, Mode.major, 0⟩,
        ⟨7, Mode.minor, 0⟩, ⟨8, Mode.major, 0⟩, ⟨8, Mode.minor, 0⟩,
        ⟨9, Mode.major, 0⟩, ⟨9, Mode.minor, 0⟩, ⟨10, Mode.major, 0⟩,
        ⟨10, Mode.minor, 0⟩, ⟨11, Mode.major, 0⟩, ⟨11, Mode.minor, 0⟩],
       [((0, Mode.major), 0), ((0, Mode.minor), 0), ((1, Mode.major), 0),
        ((1, Mode.minor), 0), ((2, Mode.major), 0), ((2, Mode.minor), 0),
        ((3, Mode.major), 0), ((3, Mode.minor), 0), ((4, Mode.major), 0),
        ((4, Mode.minor), 0), ((5, Mode.major), 0), ((5, Mode.minor), 0),
        ((6, Mode.major), 0), ((6, Mode.minor), 0), ((7, Mode.major), 0),
        ((7, Mode.minor), 0), ((8, Mode.major), 0), ((8, Mode.minor), 0),
        ((9, Mode.major), 0), ((9, Mode.minor), 0), ((10, Mode.major), 0),
        ((10, Mode.minor), 0), ((11, Mode.major), 0), ((11, Mode.minor), 0)],
       (0, Mode.major, 0)) := by
  norm_num [score_chroma_profile, list_max, max_def,
    show List.range 12 = [0, 1, 2, 3, 4, 5, 6, 7, 8, 9, 10, 11] from rfl,
    List.flatMap_cons, List.flatMap_nil, List.getD_cons_zero,
    List.getD_cons_succ]

set_option maxHeartbeats 1600000 in
theorem key_chain_silent :
    key_chain
      (⟨[0, 0, 0, 0, 0, 0, 0, 0, 0, 0, 0, 0],
       [⟨0, Mode.major, 0⟩, ⟨0, Mode.minor, 0⟩,
        ⟨1, Mode.major, 0⟩, ⟨1, Mode.minor, 0⟩,
        ⟨2, Mode.major, 0⟩, ⟨2, Mode.minor, 0⟩,
        ⟨3, Mode.major, 0⟩, ⟨3, Mode.minor, 0⟩,
        ⟨4, Mode.major, 0⟩, ⟨4, Mode.minor, 0⟩,
        ⟨5, Mode.major, 0⟩, ⟨5, Mode.minor, 0⟩,
        ⟨6, Mode.major, 0⟩, ⟨6, Mode.minor, 0⟩,
        ⟨7, Mode.major, 0⟩, ⟨7, Mode.minor, 0⟩,
        ⟨8, Mode.major, 0⟩, ⟨8, Mode.minor, 0⟩,
        ⟨9, Mode.major, 0⟩, ⟨9, Mode.minor, 0⟩,
        ⟨10, Mode.major, 0⟩, ⟨10, Mode.minor, 0⟩,
        ⟨11, Mode.major, 0⟩, ⟨11, Mode.minor, 0⟩], 0,
       [((0, Mode.major), 0), ((0, Mode.minor), 0),
        ((1, Mode.major), 0), ((1, Mode.minor), 0),
        ((2, Mode.major), 0), ((2, Mode.minor), 0),
        ((3, Mode.major), 0), ((3, Mode.minor), 0),
        ((4, Mode.major), 0), ((4, Mode.minor), 0),
        ((5, Mode.major), 0), ((5, Mode.minor), 0),
        ((6, Mode.major), 0), ((6, Mode.minor), 0),
        ((7, Mode.major), 0), ((7, Mode.minor), 0),
        ((8, Mode.major), 0), ((8, Mode.minor), 0),
        ((9, Mode.major), 0), ((9, Mode.minor), 0),
        ((10, Mode.major), 0), ((10, Mode.minor), 0),
        ((11, Mode.major), 0), ((11, Mode.minor), 0)],
       some (0, Mode.major), none, none, none, true⟩ : KeyDetectInput) =
      (⟨0, Mode.major, 0, "librosa", false, 0⟩ : KeyChainState) := by
  have hctx : mk_key_ctx
      (⟨[0, 0, 0, 0, 0, 0, 0, 0, 0, 0, 0, 0],
       [⟨0, Mode.major, 0⟩, ⟨0, Mode.minor, 0⟩,
        ⟨1, Mode.major, 0⟩, ⟨1, Mode.minor, 0⟩,
        ⟨2, Mode.major, 0⟩, ⟨2, Mode.minor, 0⟩,
        ⟨3, Mode.major, 0⟩, ⟨3, Mode.minor, 0⟩,
        ⟨4, Mode.major, 0⟩, ⟨4, Mode.minor, 0⟩,
        ⟨5, Mode.major, 0⟩, ⟨5, Mode.minor, 0⟩,
        ⟨6, Mode.major, 0⟩, ⟨6, Mode.minor, 0⟩,
        ⟨7, Mode.major, 0⟩, ⟨7, Mode.minor, 0⟩,
        ⟨8, Mode.major, 0⟩, ⟨8, Mode.minor, 0⟩,
        ⟨9, Mode.major, 0⟩, ⟨9, Mode.minor, 0⟩,
        ⟨10, Mode.major, 0⟩, ⟨10, Mode.minor, 0⟩,
        ⟨11, Mode.major, 0⟩, ⟨11, Mode.minor, 0⟩], 0,
       [((0, Mode.major), 0), ((0, Mode.minor), 0),
        ((1, Mode.major), 0), ((1, Mode.minor), 0),
        ((2, Mode.major), 0), ((2, Mode.minor), 0),
        ((3, Mode.major), 0), ((3, Mode.minor), 0),
        ((4, Mode.major), 0), ((4, Mode.minor), 0),
        ((5, Mode.major), 0), ((5, Mode.minor), 0),
        ((6, Mode.major), 0), ((6, Mode.minor), 0),
        ((7, Mode.major), 0), ((7, Mode.minor), 0),
        ((8, Mode.major), 0), ((8, Mode.minor), 0),
        ((9, Mode.major), 0), ((9, Mode.minor), 0),
        ((10, Mode.major), 0), ((10, Mode.minor), 0),
        ((11, Mode.major), 0), ((11, Mode.minor), 0)],
       some (0, Mode.major), none, none, none, true⟩ : KeyDetectInput) =
      (⟨⟨[0, 0, 0, 0, 0, 0, 0, 0, 0, 0, 0, 0],
       [⟨0, Mode.major, 0⟩, ⟨0, Mode.minor, 0⟩,
        ⟨1, Mode.major, 0⟩, ⟨1, Mode.minor, 0⟩,
        ⟨2, Mode.major, 0⟩, ⟨2, Mode.minor, 0⟩,
        ⟨3, Mode.major, 0⟩, ⟨3, Mode.minor, 0⟩,
        ⟨4, Mode.major, 0⟩, ⟨4, Mode.minor, 0⟩,
        ⟨5, Mode.major, 0⟩, ⟨5, Mode.minor, 0⟩,
        ⟨6, Mode.major, 0⟩, ⟨6, Mode.minor, 0⟩,
        ⟨7, Mode.major, 0⟩, ⟨7, Mode.minor, 0⟩,
        ⟨8, Mode.major, 0⟩, ⟨8, Mode.minor, 0⟩,
        ⟨9, Mode.major, 0⟩, ⟨9, Mode.minor, 0⟩,
        ⟨10, Mode.major, 0⟩, ⟨10, Mode.minor, 0⟩,
        ⟨11, Mode.major, 0⟩, ⟨11, Mode.minor, 0⟩], 0,
       [((0, Mode.major), 0), ((0, Mode.minor), 0),
        ((1, Mode.major), 0), ((1, Mode.minor), 0),
        ((2, Mode.major), 0), ((2, Mode.minor), 0),
        ((3, Mode.major), 0), ((3, Mode.minor), 0),
        ((4, Mode.major), 0), ((4, Mode.minor), 0),
        ((5, Mode.major), 0), ((5, Mode.minor), 0),
        ((6, Mode.major), 0), ((6, Mode.minor), 0),
        ((7, Mode.major), 0), ((7, Mode.minor), 0),
        ((8, Mode.major), 0), ((8, Mode.minor), 0),
        ((9, Mode.major), 0), ((9, Mode.minor), 0),
        ((10, Mode.major), 0), ((10, Mode.minor), 0),
        ((11, Mode.major), 0), ((11, Mode.minor), 0)],
       some (0, Mode.major), none, none, none, true⟩,
      0, Mode.major, 0,
      [⟨0, Mode.major, 0⟩, ⟨0, Mode.minor, 0⟩,
       ⟨1, Mode.major, 0⟩, ⟨1, Mode.minor, 0⟩,
       ⟨2, Mode.major, 0⟩, ⟨2, Mode.minor, 0⟩,
       ⟨3, Mode.major, 0⟩, ⟨3, Mode.minor, 0⟩,
       ⟨4, Mode.major, 0⟩, ⟨4, Mode.minor, 0⟩,
       ⟨5, Mode.major, 0⟩, ⟨5, Mode.minor, 0⟩,
       ⟨6, Mode.major, 0⟩, ⟨6, Mode.minor, 0⟩,
       ⟨7, Mode.major, 0⟩, ⟨7, Mode.minor, 0⟩,
       ⟨8, Mode.major, 0⟩, ⟨8, Mode.minor, 0⟩,
       ⟨9, Mode.major, 0⟩, ⟨9, Mode.minor, 0⟩,
       ⟨10, Mode.major, 0⟩, ⟨10, Mode.minor, 0⟩,
       ⟨11, Mode.major, 0⟩, ⟨11, Mode.minor, 0⟩], 0, [], [], 0⟩ : KeyChainCtx) := by
    norm_num [mk_key_ctx, sorted_candidates, insert_by_score, list_max,
      max_def, root_weight_map]
  have h1 : window_consensus_block
      (⟨⟨[0, 0, 0, 0, 0, 0, 0, 0, 0, 0, 0, 0],
       [⟨0, Mode.major, 0⟩, ⟨0, Mode.minor, 0⟩,
        ⟨1, Mode.major, 0⟩, ⟨1, Mode.minor, 0⟩,
        ⟨2, Mode.major, 0⟩, ⟨2, Mode.minor, 0⟩,
        ⟨3, Mode.major, 0⟩, ⟨3, Mode.minor, 0⟩,
        ⟨4, Mode.major, 0⟩, ⟨4, Mode.minor, 0⟩,
        ⟨5, Mode.major, 0⟩, ⟨5, Mode.minor, 0⟩,
        ⟨6, Mode.major, 0⟩, ⟨6, Mode.minor, 0⟩,
        ⟨7, Mode.major, 0⟩, ⟨7, Mode.minor, 0⟩,
        ⟨8, Mode.major, 0⟩, ⟨8, Mode.minor, 0⟩,
        ⟨9, Mode.major, 0⟩, ⟨9, Mode.minor, 0⟩,
        ⟨10, Mode.major, 0⟩, ⟨10, Mode.minor, 0⟩,
        ⟨11, Mode.major, 0⟩, ⟨11, Mode.minor, 0⟩], 0,
       [((0, Mode.major), 0), ((0, Mode.minor), 0),
        ((1, Mode.major), 0), ((1, Mode.minor), 0),
        ((2, Mode.major), 0), ((2, Mode.minor), 0),
        ((3, Mode.major), 0), ((3, Mode.minor), 0),
        ((4, Mode.major), 0), ((4, Mode.minor), 0),
        ((5, Mode.major), 0), ((5, Mode.minor), 0),
        ((6, Mode.major), 0), ((6, Mode.minor), 0),
        ((7, Mode.major), 0), ((7, Mode.minor), 0),
        ((8, Mode.major), 0), ((8, Mode.minor), 0),
        ((9, Mode.major), 0), ((9, Mode.minor), 0),
        ((10, Mode.major), 0), ((10, Mode.minor), 0),
        ((11, Mode.major), 0), ((11, Mode.minor), 0)],
       some (0, Mode.major), none, none, none, true⟩,
      0, Mode.major, 0,
      [⟨0, Mode.major, 0⟩, ⟨0, Mode.minor, 0⟩,
       ⟨1, Mode.major, 0⟩, ⟨1, Mode.minor, 0⟩,
       ⟨2, Mode.major, 0⟩, ⟨2, Mode.minor, 0⟩,
       ⟨3, Mode.major, 0⟩, ⟨3, Mode.minor, 0⟩,
       ⟨4, Mode.major, 0⟩, ⟨4, Mode.minor, 0⟩,
       ⟨5, Mode.major, 0⟩, ⟨5, Mode.minor, 0⟩,
       ⟨6, Mode.major, 0⟩, ⟨6, Mode.minor, 0⟩,
       ⟨7, Mode.major, 0⟩, ⟨7, Mode.minor, 0⟩,
       ⟨8, Mode.major, 0⟩, ⟨8, Mode.minor, 0⟩,
       ⟨9, Mode.major, 0⟩, ⟨9, Mode.minor, 0⟩,
       ⟨10, Mode.major, 0⟩, ⟨10, Mode.minor, 0⟩,
       ⟨11, Mode.major, 0⟩, ⟨11, Mode.minor, 0⟩], 0, [], [], 0⟩ : KeyChainCtx)
      (⟨0, Mode.major, 0, "librosa", false, 0⟩ : KeyChainState) = (⟨0, Mode.major, 0, "librosa", false, 0⟩ : KeyChainState) := rfl
  have h2 : runner_interval_block
      (⟨⟨[0, 0, 0, 0, 0, 0, 0, 0, 0, 0, 0, 0],
       [⟨0, Mode.major, 0⟩, ⟨0, Mode.minor, 0⟩,
        ⟨1, Mode.major, 0⟩, ⟨1, Mode.minor, 0⟩,
        ⟨2, Mode.major, 0⟩, ⟨2, Mode.minor, 0⟩,
        ⟨3, Mode.major, 0⟩, ⟨3, Mode.minor, 0⟩,
        ⟨4, Mode.major, 0⟩, ⟨4, Mode.minor, 0⟩,
        ⟨5, Mode.major, 0⟩, ⟨5, Mode.minor, 0⟩,
        ⟨6, Mode.major, 0⟩, ⟨6, Mode.minor, 0⟩,
        ⟨7, Mode.major, 0⟩, ⟨7, Mode.minor, 0⟩,
        ⟨8, Mode.major, 0⟩, ⟨8, Mode.minor, 0⟩,
        ⟨9, Mode.major, 0⟩, ⟨9, Mode.minor, 0⟩,
        ⟨10, Mode.major, 0⟩, ⟨10, Mode.minor, 0⟩,
        ⟨11, Mode.major, 0⟩, ⟨11, Mode.minor, 0⟩], 0,
       [((0, Mode.major), 0), ((0, Mode.minor), 0),
        ((1, Mode.major), 0), ((1, Mode.minor), 0),
        ((2, Mode.major), 0), ((2, Mode.minor), 0),
        ((3, Mode.major), 0), ((3, Mode.minor), 0),
        ((4, Mode.major), 0), ((4, Mode.minor), 0),
        ((5, Mode.major), 0), ((5, Mode.minor), 0),
        ((6, Mode.major), 0), ((6, Mode.minor), 0),
        ((7, Mode.major), 0), ((7, Mode.minor), 0),
        ((8, Mode.major), 0), ((8, Mode.minor), 0),
        ((9, Mode.major), 0), ((9, Mode.minor), 0),
        ((10, Mode.major), 0), ((10, Mode.minor), 0),
        ((11, Mode.major), 0), ((11, Mode.minor), 0)],
       some (0, Mode.major), none, none, none, true⟩,
      0, Mode.major, 0,
      [⟨0, Mode.major, 0⟩, ⟨0, Mode.minor, 0⟩,
       ⟨1, Mode.major, 0⟩, ⟨1, Mode.minor, 0⟩,
       ⟨2, Mode.major, 0⟩, ⟨2, Mode.minor, 0⟩,
       ⟨3, Mode.major, 0⟩, ⟨3, Mode.minor, 0⟩,
       ⟨4, Mode.major, 0⟩, ⟨4, Mode.minor, 0⟩,
       ⟨5, Mode.major, 0⟩, ⟨5, Mode.minor, 0⟩,
       ⟨6, Mode.major, 0⟩, ⟨6, Mode.minor, 0⟩,
       ⟨7, Mode.major, 0⟩, ⟨7, Mode.minor, 0⟩,
       ⟨8, Mode.major, 0⟩, ⟨8, Mode.minor, 0⟩,
       ⟨9, Mode.major, 0⟩, ⟨9, Mode.minor, 0⟩,
       ⟨10, Mode.major, 0⟩, ⟨10, Mode.minor, 0⟩,
       ⟨11, Mode.major, 0⟩, ⟨11, Mode.minor, 0⟩], 0, [], [], 0⟩ : KeyChainCtx)
      (⟨0, Mode.major, 0, "librosa", false, 0⟩ : KeyChainState) = (⟨0, Mode.major, 0, "librosa", false, 0⟩ : KeyChainState) := by
    norm_num [runner_interval_block, root_support_ratio, interval_distance,
      chroma_at, essentia_supports, INTERVAL_OVERRIDE_STEPS,
      DOMINANT_INTERVAL_STEPS, weight_lookup, max_def, min_def,
      List.getD_cons_zero, List.getD_cons_succ,
      show Int.toNat 0 = 0 from rfl]
  have h3 : fifth_reconcile_block
      (⟨⟨[0, 0, 0, 0, 0, 0, 0, 0, 0, 0, 0, 0],
       [⟨0, Mode.major, 0⟩, ⟨0, Mode.minor, 0⟩,
        ⟨1, Mode.major, 0⟩, ⟨1, Mode.minor, 0⟩,
        ⟨2, Mode.major, 0⟩, ⟨2, Mode.minor, 0⟩,
        ⟨3, Mode.major, 0⟩, ⟨3, Mode.minor, 0⟩,
        ⟨4, Mode.major, 0⟩, ⟨4, Mode.minor, 0⟩,
        ⟨5, Mode.major, 0⟩, ⟨5, Mode.minor, 0⟩,
        ⟨6, Mode.major, 0⟩, ⟨6, Mode.minor, 0⟩,
        ⟨7, Mode.major, 0⟩, ⟨7, Mode.minor, 0⟩,
        ⟨8, Mode.major, 0⟩, ⟨8, Mode.minor, 0⟩,
        ⟨9, Mode.major, 0⟩, ⟨9, Mode.minor, 0⟩,
        ⟨10, Mode.major, 0⟩, ⟨10, Mode.minor, 0⟩,
        ⟨11, Mode.major, 0⟩, ⟨11, Mode.minor, 0⟩], 0,
       [((0, Mode.major), 0), ((0, Mode.minor), 0),
        ((1, Mode.major), 0), ((1, Mode.minor), 0),
        ((2, Mode.major), 0), ((2, Mode.minor), 0),
        ((3, Mode.major), 0), ((3, Mode.minor), 0),
        ((4, Mode.major), 0), ((4, Mode.minor), 0),
        ((5, Mode.major), 0), ((5, Mode.minor), 0),
        ((6, Mode.major), 0), ((6, Mode.minor), 0),
        ((7, Mode.major), 0), ((7, Mode.minor), 0),
        ((8, Mode.major), 0), ((8, Mode.minor), 0),
        ((9, Mode.major), 0), ((9, Mode.minor), 0),
        ((10, Mode.major), 0), ((10, Mode.minor), 0),
        ((11, Mode.major), 0), ((11, Mode.minor), 0)],
       some (0, Mode.major), none, none, none, true⟩,
      0, Mode.major, 0,
      [⟨0, Mode.major, 0⟩, ⟨0, Mode.minor, 0⟩,
       ⟨1, Mode.major, 0⟩, ⟨1, Mode.minor, 0⟩,
       ⟨2, Mode.major, 0⟩, ⟨2, Mode.minor, 0⟩,
       ⟨3, Mode.major, 0⟩, ⟨3, Mode.minor, 0⟩,
       ⟨4, Mode.major, 0⟩, ⟨4, Mode.minor, 0⟩,
       ⟨5, Mode.major, 0⟩, ⟨5, Mode.minor, 0⟩,
       ⟨6, Mode.major, 0⟩, ⟨6, Mode.minor, 0⟩,
       ⟨7, Mode.major, 0⟩, ⟨7, Mode.minor, 0⟩,
       ⟨8, Mode.major, 0⟩, ⟨8, Mode.minor, 0⟩,
       ⟨9, Mode.major, 0⟩, ⟨9, Mode.minor, 0⟩,
       ⟨10, Mode.major, 0⟩, ⟨10, Mode.minor, 0⟩,
       ⟨11, Mode.major, 0⟩, ⟨11, Mode.minor, 0⟩], 0, [], [], 0⟩ : KeyChainCtx)
      (⟨0, Mode.major, 0, "librosa", false, 0⟩ : KeyChainState) = (⟨0, Mode.major, 0, "librosa", false, 0⟩ : KeyChainState) := by
    norm_num [fifth_reconcile_block, votes_lookup, root_support_ratio,
      essentia_supports, interval_distance, chroma_at, max_def, min_def,
      List.cons_ne_nil, List.getD_cons_zero, List.getD_cons_succ,
      show Int.toNat 0 = 0 from rfl, show Int.toNat 1 = 1 from rfl,
      show Int.toNat 2 = 2 from rfl]
  have h4 : window_mode_votes_block
      (⟨⟨[0, 0, 0, 0, 0, 0, 0, 0, 0, 0, 0, 0],
       [⟨0, Mode.major, 0⟩, ⟨0, Mode.minor, 0⟩,
        ⟨1, Mode.major, 0⟩, ⟨1, Mode.minor, 0⟩,
        ⟨2, Mode.major, 0⟩, ⟨2, Mode.minor, 0⟩,
        ⟨3, Mode.major, 0⟩, ⟨3, Mode.minor, 0⟩,
        ⟨4, Mode.major, 0⟩, ⟨4, Mode.minor, 0⟩,
        ⟨5, Mode.major, 0⟩, ⟨5, Mode.minor, 0⟩,
        ⟨6, Mode.major, 0⟩, ⟨6, Mode.minor, 0⟩,
        ⟨7, Mode.major, 0⟩, ⟨7, Mode.minor, 0⟩,
        ⟨8, Mode.major, 0⟩, ⟨8, Mode.minor, 0⟩,
        ⟨9, Mode.major, 0⟩, ⟨9, Mode.minor, 0⟩,
        ⟨10, Mode.major, 0⟩, ⟨10, Mode.minor, 0⟩,
        ⟨11, Mode.major, 0⟩, ⟨11, Mode.minor, 0⟩], 0,
       [((0, Mode.major), 0), ((0, Mode.minor), 0),
        ((1, Mode.major), 0), ((1, Mode.minor), 0),
        ((2, Mode.major), 0), ((2, Mode.minor), 0),
        ((3, Mode.major), 0), ((3, Mode.minor), 0),
        ((4, Mode.major), 0), ((4, Mode.minor), 0),
        ((5, Mode.major), 0), ((5, Mode.minor), 0),
        ((6, Mode.major), 0), ((6, Mode.minor), 0),
        ((7, Mode.major), 0), ((7, Mode.minor), 0),
        ((8, Mode.major), 0), ((8, Mode.minor), 0),
        ((9, Mode.major), 0), ((9, Mode.minor), 0),
        ((10, Mode.major), 0), ((10, Mode.minor), 0),
        ((11, Mode.major), 0), ((11, Mode.minor), 0)],
       some (0, Mode.major), none, none, none, true⟩,
      0, Mode.major, 0,
      [⟨0, Mode.major, 0⟩, ⟨0, Mode.minor, 0⟩,
       ⟨1, Mode.major, 0⟩, ⟨1, Mode.minor, 0⟩,
       ⟨2, Mode.major, 0⟩, ⟨2, Mode.minor, 0⟩,
       ⟨3, Mode.major, 0⟩, ⟨3, Mode.minor, 0⟩,
       ⟨4, Mode.major, 0⟩, ⟨4, Mode.minor, 0⟩,
       ⟨5, Mode.major, 0⟩, ⟨5, Mode.minor, 0⟩,
       ⟨6, Mode.major, 0⟩, ⟨6, Mode.minor, 0⟩,
       ⟨7, Mode.major, 0⟩, ⟨7, Mode.minor, 0⟩,
       ⟨8, Mode.major, 0⟩, ⟨8, Mode.minor, 0⟩,
       ⟨9, Mode.major, 0⟩, ⟨9, Mode.minor, 0⟩,
       ⟨10, Mode.major, 0⟩, ⟨10, Mode.minor, 0⟩,
       ⟨11, Mode.major, 0⟩, ⟨11, Mode.minor, 0⟩], 0, [], [], 0⟩ : KeyChainCtx)
      (⟨0, Mode.major, 0, "librosa", false, 0⟩ : KeyChainState) = (⟨0, Mode.major, 0, "librosa", false, 0⟩ : KeyChainState) := by
    norm_num [window_mode_votes_block]
  have h5 : chroma_peak_block
      (⟨⟨[0, 0, 0, 0, 0, 0, 0, 0, 0, 0, 0, 0],
       [⟨0, Mode.major, 0⟩, ⟨0, Mode.minor, 0⟩,
        ⟨1, Mode.major, 0⟩, ⟨1, Mode.minor, 0⟩,
        ⟨2, Mode.major, 0⟩, ⟨2, Mode.minor, 0⟩,
        ⟨3, Mode.major, 0⟩, ⟨3, Mode.minor, 0⟩,
        ⟨4, Mode.major, 0⟩, ⟨4, Mode.minor, 0⟩,
        ⟨5, Mode.major, 0⟩, ⟨5, Mode.minor, 0⟩,
        ⟨6, Mode.major, 0⟩, ⟨6, Mode.minor, 0⟩,
        ⟨7, Mode.major, 0⟩, ⟨7, Mode.minor, 0⟩,
        ⟨8, Mode.major, 0⟩, ⟨8, Mode.minor, 0⟩,
        ⟨9, Mode.major, 0⟩, ⟨9, Mode.minor, 0⟩,
        ⟨10, Mode.major, 0⟩, ⟨10, Mode.minor, 0⟩,
        ⟨11, Mode.major, 0⟩, ⟨11, Mode.minor, 0⟩], 0,
       [((0, Mode.major), 0), ((0, Mode.minor), 0),
        ((1, Mode.major), 0), ((1, Mode.minor), 0),
        ((2, Mode.major), 0), ((2, Mode.minor), 0),
        ((3, Mode.major), 0), ((3, Mode.minor), 0),
        ((4, Mode.major), 0), ((4, Mode.minor), 0),
        ((5, Mode.major), 0), ((5, Mode.minor), 0),
        ((6, Mode.major), 0), ((6, Mode.minor), 0),
        ((7, Mode.major), 0), ((7, Mode.minor), 0),
        ((8, Mode.major), 0), ((8, Mode.minor), 0),
        ((9, Mode.major), 0), ((9, Mode.minor), 0),
        ((10, Mode.major), 0), ((10, Mode.minor), 0),
        ((11, Mode.major), 0), ((11, Mode.minor), 0)],
       some (0, Mode.major), none, none, none, true⟩,
      0, Mode.major, 0,
      [⟨0, Mode.major, 0⟩, ⟨0, Mode.minor, 0⟩,
       ⟨1, Mode.major, 0⟩, ⟨1, Mode.minor, 0⟩,
       ⟨2, Mode.major, 0⟩, ⟨2, Mode.minor, 0⟩,
       ⟨3, Mode.major, 0⟩, ⟨3, Mode.minor, 0⟩,
       ⟨4, Mode.major, 0⟩, ⟨4, Mode.minor, 0⟩,
       ⟨5, Mode.major, 0⟩, ⟨5, Mode.minor, 0⟩,
       ⟨6, Mode.major, 0⟩, ⟨6, Mode.minor, 0⟩,
       ⟨7, Mode.major, 0⟩, ⟨7, Mode.minor, 0⟩,
       ⟨8, Mode.major, 0⟩, ⟨8, Mode.minor, 0⟩,
       ⟨9, Mode.major, 0⟩, ⟨9, Mode.minor, 0⟩,
       ⟨10, Mode.major, 0⟩, ⟨10, Mode.minor, 0⟩,
       ⟨11, Mode.major, 0⟩, ⟨11, Mode.minor, 0⟩], 0, [], [], 0⟩ : KeyChainCtx)
      (⟨0, Mode.major, 0, "librosa", false, 0⟩ : KeyChainState) = (⟨0, Mode.major, 0, "librosa", false, 0⟩ : KeyChainState) := by
    norm_num [chroma_peak_block, chroma_peak_root, argmax_first, argmax_go,
      root_support_ratio, interval_distance, List.getD_cons_zero,
      List.getD_cons_succ,
      show ¬("librosa" = "fifth_reconcile") from by decide]
  have h6 : tonic_bias_block
      (⟨⟨[0, 0, 0, 0, 0, 0, 0, 0, 0, 0, 0, 0],
       [⟨0, Mode.major, 0⟩, ⟨0, Mode.minor, 0⟩,
        ⟨1, Mode.major, 0⟩, ⟨1, Mode.minor, 0⟩,
        ⟨2, Mode.major, 0⟩, ⟨2, Mode.minor, 0⟩,
        ⟨3, Mode.major, 0⟩, ⟨3, Mode.minor, 0⟩,
        ⟨4, Mode.major, 0⟩, ⟨4, Mode.minor, 0⟩,
        ⟨5, Mode.major, 0⟩, ⟨5, Mode.minor, 0⟩,
        ⟨6, Mode.major, 0⟩, ⟨6, Mode.minor, 0⟩,
        ⟨7, Mode.major, 0⟩, ⟨7, Mode.minor, 0⟩,
        ⟨8, Mode.major, 0⟩, ⟨8, Mode.minor, 0⟩,
        ⟨9, Mode.major, 0⟩, ⟨9, Mode.minor, 0⟩,
        ⟨10, Mode.major, 0⟩, ⟨10, Mode.minor, 0⟩,
        ⟨11, Mode.major, 0⟩, ⟨11, Mode.minor, 0⟩], 0,
       [((0, Mode.major), 0), ((0, Mode.minor), 0),
        ((1, Mode.major), 0), ((1, Mode.minor), 0),
        ((2, Mode.major), 0), ((2, Mode.minor), 0),
        ((3, Mode.major), 0), ((3, Mode.minor), 0),
        ((4, Mode.major), 0), ((4, Mode.minor), 0),
        ((5, Mode.major), 0), ((5, Mode.minor), 0),
        ((6, Mode.major), 0), ((6, Mode.minor), 0),
        ((7, Mode.major), 0), ((7, Mode.minor), 0),
        ((8, Mode.major), 0), ((8, Mode.minor), 0),
        ((9, Mode.major), 0), ((9, Mode.minor), 0),
        ((10, Mode.major), 0), ((10, Mode.minor), 0),
        ((11, Mode.major), 0), ((11, Mode.minor), 0)],
       some (0, Mode.major), none, none, none, true⟩,
      0, Mode.major, 0,
      [⟨0, Mode.major, 0⟩, ⟨0, Mode.minor, 0⟩,
       ⟨1, Mode.major, 0⟩, ⟨1, Mode.minor, 0⟩,
       ⟨2, Mode.major, 0⟩, ⟨2, Mode.minor, 0⟩,
       ⟨3, Mode.major, 0⟩, ⟨3, Mode.minor, 0⟩,
       ⟨4, Mode.major, 0⟩, ⟨4, Mode.minor, 0⟩,
       ⟨5, Mode.major, 0⟩, ⟨5, Mode.minor, 0⟩,
       ⟨6, Mode.major, 0⟩, ⟨6, Mode.minor, 0⟩,
       ⟨7, Mode.major, 0⟩, ⟨7, Mode.minor, 0⟩,
       ⟨8, Mode.major, 0⟩, ⟨8, Mode.minor, 0⟩,
       ⟨9, Mode.major, 0⟩, ⟨9, Mode.minor, 0⟩,
       ⟨10, Mode.major, 0⟩, ⟨10, Mode.minor, 0⟩,
       ⟨11, Mode.major, 0⟩, ⟨11, Mode.minor, 0⟩], 0, [], [], 0⟩ : KeyChainCtx)
      (⟨0, Mode.major, 0, "librosa", false, 0⟩ : KeyChainState) = (⟨0, Mode.major, 0, "librosa", false, 0⟩ : KeyChainState) := by
    norm_num [tonic_bias_block, interval_distance,
      show ¬("librosa" = "chroma_peak") from by decide]
  have h8 : essentia_tonic_override
      (⟨⟨[0, 0, 0, 0, 0, 0, 0, 0, 0, 0, 0, 0],
       [⟨0, Mode.major, 0⟩, ⟨0, Mode.minor, 0⟩,
        ⟨1, Mode.major, 0⟩, ⟨1, Mode.minor, 0⟩,
        ⟨2, Mode.major, 0⟩, ⟨2, Mode.minor, 0⟩,
        ⟨3, Mode.major, 0⟩, ⟨3, Mode.minor, 0⟩,
        ⟨4, Mode.major, 0⟩, ⟨4, Mode.minor, 0⟩,
        ⟨5, Mode.major, 0⟩, ⟨5, Mode.minor, 0⟩,
        ⟨6, Mode.major, 0⟩, ⟨6, Mode.minor, 0⟩,
        ⟨7, Mode.major, 0⟩, ⟨7, Mode.minor, 0⟩,
        ⟨8, Mode.major, 0⟩, ⟨8, Mode.minor, 0⟩,
        ⟨9, Mode.major, 0⟩, ⟨9, Mode.minor, 0⟩,
        ⟨10, Mode.major, 0⟩, ⟨10, Mode.minor, 0⟩,
        ⟨11, Mode.major, 0⟩, ⟨11, Mode.minor, 0⟩], 0,
       [((0, Mode.major), 0), ((0, Mode.minor), 0),
        ((1, Mode.major), 0), ((1, Mode.minor), 0),
        ((2, Mode.major), 0), ((2, Mode.minor), 0),
        ((3, Mode.major), 0), ((3, Mode.minor), 0),
        ((4, Mode.major), 0), ((4, Mode.minor), 0),
        ((5, Mode.major), 0), ((5, Mode.minor), 0),
        ((6, Mode.major), 0), ((6, Mode.minor), 0),
        ((7, Mode.major), 0), ((7, Mode.minor), 0),
        ((8, Mode.major), 0), ((8, Mode.minor), 0),
        ((9, Mode.major), 0), ((9, Mode.minor), 0),
        ((10, Mode.major), 0), ((10, Mode.minor), 0),
        ((11, Mode.major), 0), ((11, Mode.minor), 0)],
       some (0, Mode.major), none, none, none, true⟩,
      0, Mode.major, 0,
      [⟨0, Mode.major, 0⟩, ⟨0, Mode.minor, 0⟩,
       ⟨1, Mode.major, 0⟩, ⟨1, Mode.minor, 0⟩,
       ⟨2, Mode.major, 0⟩, ⟨2, Mode.minor, 0⟩,
       ⟨3, Mode.major, 0⟩, ⟨3, Mode.minor, 0⟩,
       ⟨4, Mode.major, 0⟩, ⟨4, Mode.minor, 0⟩,
       ⟨5, Mode.major, 0⟩, ⟨5, Mode.minor, 0⟩,
       ⟨6, Mode.major, 0⟩, ⟨6, Mode.minor, 0⟩,
       ⟨7, Mode.major, 0⟩, ⟨7, Mode.minor, 0⟩,
       ⟨8, Mode.major, 0⟩, ⟨8, Mode.minor, 0⟩,
       ⟨9, Mode.major, 0⟩, ⟨9, Mode.minor, 0⟩,
       ⟨10, Mode.major, 0⟩, ⟨10, Mode.minor, 0⟩,
       ⟨11, Mode.major, 0⟩, ⟨11, Mode.minor, 0⟩], 0, [], [], 0⟩ : KeyChainCtx)
      (⟨0, Mode.major, 0, "librosa", false, 0⟩ : KeyChainState) = (⟨0, Mode.major, 0, "librosa", false, 0⟩ : KeyChainState) := by
    norm_num [essentia_tonic_override, tonic_override_one]
  have h9 : mode_bias_block
      (⟨⟨[0, 0, 0, 0, 0, 0, 0, 0, 0, 0, 0, 0],
       [⟨0, Mode.major, 0⟩, ⟨0, Mode.minor, 0⟩,
        ⟨1, Mode.major, 0⟩, ⟨1, Mode.minor, 0⟩,
        ⟨2, Mode.major, 0⟩, ⟨2, Mode.minor, 0⟩,
        ⟨3, Mode.major, 0⟩, ⟨3, Mode.minor, 0⟩,
        ⟨4, Mode.major, 0⟩, ⟨4, Mode.minor, 0⟩,
        ⟨5, Mode.major, 0⟩, ⟨5, Mode.minor, 0⟩,
        ⟨6, Mode.major, 0⟩, ⟨6, Mode.minor, 0⟩,
        ⟨7, Mode.major, 0⟩, ⟨7, Mode.minor, 0⟩,
        ⟨8, Mode.major, 0⟩, ⟨8, Mode.minor, 0⟩,
        ⟨9, Mode.major, 0⟩, ⟨9, Mode.minor, 0⟩,
        ⟨10, Mode.major, 0⟩, ⟨10, Mode.minor, 0⟩,
        ⟨11, Mode.major, 0⟩, ⟨11, Mode.minor, 0⟩], 0,
       [((0, Mode.major), 0), ((0, Mode.minor), 0),
        ((1, Mode.major), 0), ((1, Mode.minor), 0),
        ((2, Mode.major), 0), ((2, Mode.minor), 0),
        ((3, Mode.major), 0), ((3, Mode.minor), 0),
        ((4, Mode.major), 0), ((4, Mode.minor), 0),
        ((5, Mode.major), 0), ((5, Mode.minor), 0),
        ((6, Mode.major), 0), ((6, Mode.minor), 0),
        ((7, Mode.major), 0), ((7, Mode.minor), 0),
        ((8, Mode.major), 0), ((8, Mode.minor), 0),
        ((9, Mode.major), 0), ((9, Mode.minor), 0),
        ((10, Mode.major), 0), ((10, Mode.minor), 0),
        ((11, Mode.major), 0), ((11, Mode.minor), 0)],
       some (0, Mode.major), none, none, none, true⟩,
      0, Mode.major, 0,
      [⟨0, Mode.major, 0⟩, ⟨0, Mode.minor, 0⟩,
       ⟨1, Mode.major, 0⟩, ⟨1, Mode.minor, 0⟩,
       ⟨2, Mode.major, 0⟩, ⟨2, Mode.minor, 0⟩,
       ⟨3, Mode.major, 0⟩, ⟨3, Mode.minor, 0⟩,
       ⟨4, Mode.major, 0⟩, ⟨4, Mode.minor, 0⟩,
       ⟨5, Mode.major, 0⟩, ⟨5, Mode.minor, 0⟩,
       ⟨6, Mode.major, 0⟩, ⟨6, Mode.minor, 0⟩,
       ⟨7, Mode.major, 0⟩, ⟨7, Mode.minor, 0⟩,
       ⟨8, Mode.major, 0⟩, ⟨8, Mode.minor, 0⟩,
       ⟨9, Mode.major, 0⟩, ⟨9, Mode.minor, 0⟩,
       ⟨10, Mode.major, 0⟩, ⟨10, Mode.minor, 0⟩,
       ⟨11, Mode.major, 0⟩, ⟨11, Mode.minor, 0⟩], 0, [], [], 0⟩ : KeyChainCtx)
      (⟨0, Mode.major, 0, "librosa", false, 0⟩ : KeyChainState) = (⟨0, Mode.major, 0, "librosa", false, 0⟩ : KeyChainState) := by
    norm_num [mode_bias_block, mode_bias_from_chroma, chroma_at,
      List.getD_cons_zero, List.getD_cons_succ,
      show Int.toNat 4 = 4 from rfl, show Int.toNat 3 = 3 from rfl,
      show Int.toNat 9 = 9 from rfl, show Int.toNat 8 = 8 from rfl]
  unfold key_chain
  rw [hctx]
  dsimp only
  rw [h1]
  rw [show (⟨0, Mode.major, 0, "librosa", false,
      root_support_ratio [] 0⟩ : KeyChainState) =
    (⟨0, Mode.major, 0, "librosa", false, 0⟩ : KeyChainState) from by
      norm_num [root_support_ratio]]
  rw [h2, h3, h4, h5, h6]
  simp only [blend_essentia_none, dominant_override_none, mode_rescue_none]
  rw [h8, h9]

/-- C9 (amended): on degenerate input the analysis degrades without
raising, but not exactly as claimed.  An empty signal yields the default
C-major key with key confidence 0 before any estimator runs.  On a silent
buffer the chroma-template scorer sees an all-zero chroma vector, every
template score is 0 for any profile pair, and the override chain leaves
the C-major fallback with confidence 0 untouched, so the key result is
(C, major, 0).  The tempo decision chain (both raw detector estimates 0)
returns BPM 0 — yet with BPM confidence 0.6, the hard-coded fallback used
when the alias-candidate pool is empty, not 0.  The BPM guardrail leaves
BPM 0 unchanged, and for a sub-45-second buffer both calibration passes
return the result unchanged, so no correction rules fire. -/
theorem silent_input_zero_result (expQ : ℚ → ℚ) (stdQ : List ℚ → ℚ)
    (onset_env : List ℚ) (sr hop : ℕ) (th : ℚ) (srK : ℤ) (inpK : KeyDetectInput)
    (krules : KeyCalibRules) (meta : KeyCalibMeta) (brules : List BpmRule)
    (r : AnalysisRecord) (h0 : 0 < r.signal_duration)
    (h45 : r.signal_duration < SHORT_CLIP_THRESHOLD)
    (majorP minorP : List ℚ) (scores : List KeyScoreEntry)
    (votes : List ((ℤ × Mode) × ℚ)) (best : ℤ × Mode × ℚ)
    (hS : score_chroma_profile majorP minorP [0, 0, 0, 0, 0, 0, 0, 0, 0, 0, 0, 0] =
      ([0, 0, 0, 0, 0, 0, 0, 0, 0, 0, 0, 0], scores, votes, best))
    (n : ℕ) (srK2 : ℤ) (hn : n ≠ 0) (hsrK2 : 0 < srK2) :
    detect_global_key 0 srK inpK = (0, Mode.major, 0) ∧
    analyze_tempo_decision expQ stdQ
      { percussive_bpm := 0
        onset_bpm := 0
        plp_bpm := 0
        plp_peak := 0
        onset_env := onset_env
        beats := []
        energy_rms_early := 0
        sr := sr
        hop_length := hop
        is_short_clip := true
        use_onset_validation := false
        intermediate_threshold := th } = (0, 0.6) ∧
    bpm_guardrail 0 = 0 ∧
    apply_key_calibration krules meta r = r ∧
    apply_bpm_calibration brules r = r ∧
    key_chain
      (⟨[0, 0, 0, 0, 0, 0, 0, 0, 0, 0, 0, 0], scores, 0, votes,
        some (best.1, best.2.1), none, none, none, true⟩ : KeyDetectInput) =
      (⟨0, Mode.major, 0, "librosa", false, 0⟩ : KeyChainState) ∧
    detect_global_key n srK2
      (⟨[0, 0, 0, 0, 0, 0, 0, 0, 0, 0, 0, 0], scores, 0, votes,
        some (best.1, best.2.1), none, none, none, true⟩ : KeyDetectInput) = (0, Mode.major, 0) := by
  have hE := (score_chroma_profile_zero majorP minorP).symm.trans hS
  simp only [Prod.mk.injEq] at hE
  obtain ⟨-, hsc, hvo, hbe⟩ := hE
  subst hsc
  subst hvo
  subst hbe
  refine ⟨detect_global_key_empty srK inpK,
    analyze_tempo_silent expQ stdQ onset_env sr hop th,
    bpm_guardrail_zero,
    apply_key_calibration_short krules meta r h0 h45,
    apply_bpm_calibration_short brules r h45,
    key_chain_silent, ?_⟩
  unfold detect_global_key
  rw [if_neg (by push_neg; exact ⟨hn, hsrK2⟩)]
  dsimp only
  rw [key_chain_silent]
  norm_num [clamp_to_unit, max_def, min_def]

/-- C9 witness: a 10-second silent buffer — empty signal for the key
stage's early return, all-zero chroma through the template scorer and the
override chain, zero detector estimates for the tempo stage, no beats —
with empty calibration rule sets and a resulting record of duration 10. -/
theorem silent_input_zero_result_witness :
    ((0 : ℚ) < 10 ∧ (10 : ℚ) < SHORT_CLIP_THRESHOLD ∧ (1 : ℕ) ≠ 0 ∧
      (0 : ℤ) < 1 ∧
      score_chroma_profile [] [] [0, 0, 0, 0, 0, 0, 0, 0, 0, 0, 0, 0] =
        ([0, 0, 0, 0, 0, 0, 0, 0, 0, 0, 0, 0],
         [⟨0, Mode.major, 0⟩, ⟨0, Mode.minor, 0⟩,
          ⟨1, Mode.major, 0⟩, ⟨1, Mode.minor, 0⟩,
          ⟨2, Mode.major, 0⟩, ⟨2, Mode.minor, 0⟩,
          ⟨3, Mode.major, 0⟩, ⟨3, Mode.minor, 0⟩,
          ⟨4, Mode.major, 0⟩, ⟨4, Mode.minor, 0⟩,
          ⟨5, Mode.major, 0⟩, ⟨5, Mode.minor, 0⟩,
          ⟨6, Mode.major, 0⟩, ⟨6, Mode.minor, 0⟩,
          ⟨7, Mode.major, 0⟩, ⟨7, Mode.minor, 0⟩,
          ⟨8, Mode.major, 0⟩, ⟨8, Mode.minor, 0⟩,
          ⟨9, Mode.major, 0⟩, ⟨9, Mode.minor, 0⟩,
          ⟨10, Mode.major, 0⟩, ⟨10, Mode.minor, 0⟩,
          ⟨11, Mode.major, 0⟩, ⟨11, Mode.minor, 0⟩],
         [((0, Mode.major), 0), ((0, Mode.minor), 0),
          ((1, Mode.major), 0), ((1, Mode.minor), 0),
          ((2, Mode.major), 0), ((2, Mode.minor), 0),
          ((3, Mode.major), 0), ((3, Mode.minor), 0),
          ((4, Mode.major), 0), ((4, Mode.minor), 0),
          ((5, Mode.major), 0), ((5, Mode.minor), 0),
          ((6, Mode.major), 0), ((6, Mode.minor), 0),
          ((7, Mode.major), 0), ((7, Mode.minor), 0),
          ((8, Mode.major), 0), ((8, Mode.minor), 0),
          ((9, Mode.major), 0), ((9, Mode.minor), 0),
          ((10, Mode.major), 0), ((10, Mode.minor), 0),
          ((11, Mode.major), 0), ((11, Mode.minor), 0)],
         (0, Mode.major, 0))) ∧
    (detect_global_key 0 1 ⟨[], [], 0, [], none, none, none, none, true⟩ =
        (0, Mode.major, 0) ∧
      analyze_tempo_decision (fun _ => 0) (fun _ => 0)
        { percussive_bpm := 0
          onset_bpm := 0
          plp_bpm := 0
          plp_peak := 0
          onset_env := []
          beats := []
          energy_rms_early := 0
          sr := 22050
          hop_length := 512
          is_short_clip := true
          use_onset_validation := false
          intermediate_threshold := 1.1 } = (0, 0.6) ∧
      bpm_guardrail 0 = 0 ∧
      apply_key_calibration [] ⟨none, 0⟩
        { bpm := some 0, danceability := none, energy := none, acousticness := none,
          valence := none, loudness := none, bpm_confidence := 0.6, signal_duration := 10,
          bpm_calibration_applied := none, key := some ⟨0, Mode.major⟩, key_confidence := 0,
          key_scores := none, calibrated_votes := none } =
        { bpm := some 0, danceability := none, energy := none, acousticness := none,
          valence := none, loudness := none, bpm_confidence := 0.6, signal_duration := 10,
          bpm_calibration_applied := none, key := some ⟨0, Mode.major⟩, key_confidence := 0,
          key_scores := none, calibrated_votes := none } ∧
      apply_bpm_calibration []
        { bpm := some 0, danceability := none, energy := none, acousticness := none,
          valence := none, loudness := none, bpm_confidence := 0.6, signal_duration := 10,
          bpm_calibration_applied := none, key := some ⟨0, Mode.major⟩, key_confidence := 0,
          key_scores := none, calibrated_votes := none } =
        { bpm := some 0, danceability := none, energy := none, acousticness := none,
          valence := none, loudness := none, bpm_confidence := 0.6, signal_duration := 10,
          bpm_calibration_applied := none, key := some ⟨0, Mode.major⟩, key_confidence := 0,
          key_scores := none, calibrated_votes := none } ∧
      key_chain
        (⟨[0, 0, 0, 0, 0, 0, 0, 0, 0, 0, 0, 0],
         [⟨0, Mode.major, 0⟩, ⟨0, Mode.minor, 0⟩,
          ⟨1, Mode.major, 0⟩, ⟨1, Mode.minor, 0⟩,
          ⟨2, Mode.major, 0⟩, ⟨2, Mode.minor, 0⟩,
          ⟨3, Mode.major, 0⟩, ⟨3, Mode.minor, 0⟩,
          ⟨4, Mode.major, 0⟩, ⟨4, Mode.minor, 0⟩,
          ⟨5, Mode.major, 0⟩, ⟨5, Mode.minor, 0⟩,
          ⟨6, Mode.major, 0⟩, ⟨6, Mode.minor, 0⟩,
          ⟨7, Mode.major, 0⟩, ⟨7, Mode.minor, 0⟩,
          ⟨8, Mode.major, 0⟩, ⟨8, Mode.minor, 0⟩,
          ⟨9, Mode.major, 0⟩, ⟨9, Mode.minor, 0⟩,
          ⟨10, Mode.major, 0⟩, ⟨10, Mode.minor, 0⟩,
          ⟨11, Mode.major, 0⟩, ⟨11, Mode.minor, 0⟩], 0,
         [((0, Mode.major), 0), ((0, Mode.minor), 0),
          ((1, Mode.major), 0), ((1, Mode.minor), 0),
          ((2, Mode.major), 0), ((2, Mode.minor), 0),
          ((3, Mode.major), 0), ((3, Mode.minor), 0),
          ((4, Mode.major), 0), ((4, Mode.minor), 0),
          ((5, Mode.major), 0), ((5, Mode.minor), 0),
          ((6, Mode.major), 0), ((6, Mode.minor), 0),
          ((7, Mode.major), 0), ((7, Mode.minor), 0),
          ((8, Mode.major), 0), ((8, Mode.minor), 0),
          ((9, Mode.major), 0), ((9, Mode.minor), 0),
          ((10, Mode.major), 0), ((10, Mode.minor), 0),
          ((11, Mode.major), 0), ((11, Mode.minor), 0)],
         some (0, Mode.major), none, none, none, true⟩ : KeyDetectInput) =
        (⟨0, Mode.major, 0, "librosa", false, 0⟩ : KeyChainState) ∧
      detect_global_key 1 1
        (⟨[0, 0, 0, 0, 0, 0, 0, 0, 0, 0, 0, 0],
         [⟨0, Mode.major, 0⟩, ⟨0, Mode.minor, 0⟩,
          ⟨1, Mode.major, 0⟩, ⟨1, Mode.minor, 0⟩,
          ⟨2, Mode.major, 0⟩, ⟨2, Mode.minor, 0⟩,
          ⟨3, Mode.major, 0⟩, ⟨3, Mode.minor, 0⟩,
          ⟨4, Mode.major, 0⟩, ⟨4, Mode.minor, 0⟩,
          ⟨5, Mode.major, 0⟩, ⟨5, Mode.minor, 0⟩,
          ⟨6, Mode.major, 0⟩, ⟨6, Mode.minor, 0⟩,
          ⟨7, Mode.major, 0⟩, ⟨7, Mode.minor, 0⟩,
          ⟨8, Mode.major, 0⟩, ⟨8, Mode.minor, 0⟩,
          ⟨9, Mode.major, 0⟩, ⟨9, Mode.minor, 0⟩,
          ⟨10, Mode.major, 0⟩, ⟨10, Mode.minor, 0⟩,
          ⟨11, Mode.major, 0⟩, ⟨11, Mode.minor, 0⟩], 0,
         [((0, Mode.major), 0), ((0, Mode.minor), 0),
          ((1, Mode.major), 0), ((1, Mode.minor), 0),
          ((2, Mode.major), 0), ((2, Mode.minor), 0),
          ((3, Mode.major), 0), ((3, Mode.minor), 0),
          ((4, Mode.major), 0), ((4, Mode.minor), 0),
          ((5, Mode.major), 0), ((5, Mode.minor), 0),
          ((6, Mode.major), 0), ((6, Mode.minor), 0),
          ((7, Mode.major), 0), ((7, Mode.minor), 0),
          ((8, Mode.major), 0), ((8, Mode.minor), 0),
          ((9, Mode.major), 0), ((9, Mode.minor), 0),
          ((10, Mode.major), 0), ((10, Mode.minor), 0),
          ((11, Mode.major), 0), ((11, Mode.minor), 0)],
         some (0, Mode.major), none, none, none, true⟩ : KeyDetectInput) = (0, Mode.major, 0)) :=
  ⟨⟨by norm_num, by norm_num [SHORT_CLIP_THRESHOLD], by norm_num, by norm_num,
    score_chroma_profile_zero [] []⟩,
   silent_input_zero_result (fun _ => 0) (fun _ => 0) [] 22050 512 1.1 1
     ⟨[], [], 0, [], none, none, none, none, true⟩ [] ⟨none, 0⟩ []
     _ (by norm_num) (by norm_num [SHORT_CLIP_THRESHOLD]) [] [] _ _ _
     (score_chroma_profile_zero [] []) 1 1 (by norm_num) (by norm_num)⟩
